import Mathlib

/-! # Snake game: simulation core

A shallow embedding of the per-tick simulation logic of the three play modes
(`attempt.c`, `challenge.c`, `multiplayer.c`) and theorems about it.

Modelling conventions.

* A C `int` coordinate or velocity is an `Int`; the arithmetic of the modelled
  functions stays far from the 32-bit range on every state the game reaches, and
  signed overflow is undefined in C, so no wrap-around is modelled.
* A C array `T a[N]` is a total map `Nat → T` from index to element; a store
  `a[i] = v` is `setAt a i v`.  The declared capacity `N` is not part of the map; the
  modelled functions keep their indices below `N` on the states the game reaches, with
  one exception, `grow_snake` of `multiplayer.c` at length 100, whose store past the end
  of `body` is described at its definition.
* `length`, `count` and loop indices are `Nat` (they are non-negative `int`s in every
  state the programs build).
* A loop `for (i = lo; i < hi; i++)` that only searches is a recursive function taking
  the start index and the number of iterations `hi - lo`.
* Clock values (`SDL_GetTicks()`, `Uint32`) are `Nat`; an expression that mixes `Uint32`
  and `int` is evaluated in `Uint32`, modulo `2^32` (`u32`), and converted back with `i32`
  where the program stores it in an `int`.
* `rand()` returns a non-negative `int`, so C's `rand() % n` is the `Int` remainder of a
  natural number.
* The successive results of `rand()` are a stream `Nat → Nat`; each call reads element `0`
  and continues with the tail.  Loops whose number of iterations depends on the drawn
  values take a `fuel` bound on their iterations and return `none` when it is used up.
-/

namespace SnakeGame

/-- Grid width, `#define GRID_WIDTH 32`. -/
def GRID_WIDTH : Int := 32

/-- Grid height, `#define GRID_HEIGHT 24`. -/
def GRID_HEIGHT : Int := 24

/-- The struct `Segment { int x, y; }`. -/
structure Segment where
  x : Int
  y : Int
deriving DecidableEq, Repr

/-- The array store `a[i] = v`. -/
def setAt {α : Type} (a : Nat → α) (i : Nat) (v : α) : Nat → α :=
  fun j => if j = i then v else a j

/-- The loop `for (int i = n; i > 0; i--) body[i] = body[i - 1];`, started at `i = n`. -/
def shift_body : Nat → (Nat → Segment) → (Nat → Segment)
  | 0, body => body
  | i + 1, body => shift_body i (setAt body (i + 1) (body i))

/-- The loop `for (int i = lo; i < lo + n; i++) body[i] = cell i;` that `reset_game`
uses to lay a snake out, from index `i` with `n` iterations left. -/
def write_body (cell : Nat → Segment) : Nat → Nat → (Nat → Segment) → (Nat → Segment)
  | _, 0, body => body
  | i, n + 1, body => write_body cell (i + 1) n (setAt body i (cell i))

/-- The search loop `for (int i = lo; i < lo + n; i++) if (p i) return true;`
followed by `return false`. -/
def scanFrom (p : Nat → Bool) : Nat → Nat → Bool
  | _, 0 => false
  | lo, n + 1 => if p lo then true else scanFrom p (lo + 1) n

/-- The wall test `x < 0 || x >= GRID_WIDTH || y < 0 || y >= GRID_HEIGHT`. -/
def off_grid (c : Segment) : Bool :=
  decide (c.x < 0) || decide (c.x ≥ GRID_WIDTH) || decide (c.y < 0) || decide (c.y ≥ GRID_HEIGHT)

/-- The cell test `a.x == b.x && a.y == b.y`. -/
def same_cell (x1 y1 x2 y2 : Int) : Bool :=
  decide (x1 = x2) && decide (y1 = y2)

/-- A cell of the grid: `0 ≤ x < 32` and `0 ≤ y < 24`. -/
def in_grid (c : Segment) : Prop :=
  0 ≤ c.x ∧ c.x < 32 ∧ 0 ≤ c.y ∧ c.y < 24

instance (c : Segment) : Decidable (in_grid c) := by
  unfold in_grid
  infer_instance

/-- A velocity of one cell along one axis: `(1,0)`, `(-1,0)`, `(0,1)` or `(0,-1)`. -/
def unit_velocity (dx dy : Int) : Prop :=
  (dx = 1 ∧ dy = 0) ∨ (dx = -1 ∧ dy = 0) ∨ (dx = 0 ∧ dy = 1) ∨ (dx = 0 ∧ dy = -1)

instance (dx dy : Int) : Decidable (unit_velocity dx dy) := by
  unfold unit_velocity
  infer_instance

/-- Manhattan distance between two cells. -/
def manhattan (a b : Segment) : Nat :=
  (a.x - b.x).natAbs + (a.y - b.y).natAbs

/-- The stream of values returned by successive `rand()` calls. -/
abbrev Rand := Nat → Nat

/-- The stream left after `k` calls of `rand()`. -/
def Rand.drop (k : Nat) (rnd : Rand) : Rand := fun n => rnd (n + k)

/-- The enum `GameState` of the three programs. -/
inductive GameState where
  | MENU
  | PLAYING
  | GAME_OVER
deriving DecidableEq, Repr

/-- The key of an `SDL_KEYDOWN` event: the keys the handlers test, and any other key. -/
inductive Key where
  | SDLK_UP
  | SDLK_DOWN
  | SDLK_LEFT
  | SDLK_RIGHT
  | SDLK_ESCAPE
  | SDLK_w
  | SDLK_a
  | SDLK_s
  | SDLK_d
  | SDLK_OTHER
deriving DecidableEq, Repr

/-- The `Uint32` value of an integer: its residue modulo `2^32`.  It is the result of an
`Uint32` subtraction and of the conversion of an `int` operand to `unsigned`. -/
def u32 (z : Int) : Nat := (z % 4294967296).toNat

/-- The `int` value of a `Uint32` (two's complement): the conversion done by the
assignment of an `unsigned` expression to an `int`. -/
def i32 (n : Nat) : Int :=
  if n % 4294967296 < 2147483648 then ((n % 4294967296 : Nat) : Int)
  else ((n % 4294967296 : Nat) : Int) - 4294967296

/-! ## `attempt.c` (single player) -/

namespace Attempt

/-- The struct `Snake` of `attempt.c`. -/
structure Snake where
  body : Nat → Segment
  length : Nat
  dx : Int
  dy : Int
  alive : Bool

/-- The struct `Food` of `attempt.c`. -/
structure Food where
  x : Int
  y : Int
deriving DecidableEq, Repr

/-- `move_snake` of `attempt.c`: shift the body, move the head, then the wall test and
the self-collision loop, each of which can only clear `alive`. -/
def move_snake (snake : Snake) : Snake :=
  let body1 := shift_body (snake.length - 1) snake.body
  let head : Segment := { x := (body1 0).x + snake.dx, y := (body1 0).y + snake.dy }
  let body2 := setAt body1 0 head
  let alive1 := if off_grid (body2 0) then false else snake.alive
  let alive2 :=
    if scanFrom (fun i => same_cell (body2 0).x (body2 0).y (body2 i).x (body2 i).y) 1
        (snake.length - 1) then false else alive1
  { snake with body := body2, alive := alive2 }

/-- `grow_snake` of `attempt.c`, guarded by `length < 100`. -/
def grow_snake (snake : Snake) : Snake :=
  if snake.length < 100 then
    { snake with
      body := setAt snake.body snake.length (snake.body (snake.length - 1))
      length := snake.length + 1 }
  else snake

/-- `place_food` of `attempt.c`: the `do ... while (!valid_position)` loop, which stores
each sample in `*food`.  The result is `(*food, *snake)` after the call and the
remaining stream. -/
def place_food : Nat → Rand → Food → Snake → Option (Food × Snake × Rand)
  | 0, _, _, _ => none
  | fuel + 1, rnd, food, snake =>
    let food1 : Food :=
      { food with x := (rnd 0 : Int) % GRID_WIDTH, y := (rnd 1 : Int) % GRID_HEIGHT }
    let valid :=
      !scanFrom (fun i => same_cell food1.x food1.y (snake.body i).x (snake.body i).y) 0
        snake.length
    if valid then some (food1, snake, Rand.drop 2 rnd)
    else place_food fuel (Rand.drop 2 rnd) food1 snake

/-- `check_food_collision` of `attempt.c` (the sound call is left out). -/
def check_food_collision (snake : Snake) (food : Food) : Bool :=
  same_cell (snake.body 0).x (snake.body 0).y food.x food.y

/-- `load_highscore` of `attempt.c`.  The file `highscore.dat` is `none` when it does not
exist and `some h` when it holds the integer `h`. -/
def load_highscore (file : Option Int) : Int :=
  match file with
  | some h => h
  | none => 0

/-- `save_highscore` of `attempt.c`; the result is the file after the call. -/
def save_highscore (score : Int) (file : Option Int) : Option Int :=
  let current_highscore := load_highscore file
  if score > current_highscore then some score else file

/-- The variables of `main` of `attempt.c` that the simulation reads and writes, and the
high-score file. -/
structure Game where
  snake : Snake
  food : Food
  score : Int
  highscore : Int
  gameState : GameState
  lastUpdateTime : Nat
  file : Option Int

/-- The tick update in `main` of `attempt.c` at clock value `currentTime`
(`UPDATE_INTERVAL` is 150). -/
def tick_update (fuel : Nat) (rnd : Rand) (g : Game) (currentTime : Nat) :
    Option (Game × Rand) :=
  if g.gameState = GameState.PLAYING ∧
      u32 ((currentTime : Int) - (g.lastUpdateTime : Int)) ≥ u32 150 then
    let g1 : Game := { g with lastUpdateTime := currentTime }
    if g1.snake.alive then
      let snake1 := move_snake g1.snake
      if check_food_collision snake1 g1.food then
        let snake2 := grow_snake snake1
        match place_food fuel rnd g1.food snake2 with
        | none => none
        | some (food3, snake3, rnd3) =>
          some ({ g1 with snake := snake3, food := food3, score := g1.score + 10 }, rnd3)
      else some ({ g1 with snake := snake1 }, rnd)
    else
      let g2 : Game := { g1 with gameState := GameState.GAME_OVER }
      if g2.score > g2.highscore then
        some ({ g2 with highscore := g2.score, file := save_highscore g2.score g2.file }, rnd)
      else some (g2, rnd)
  else some (g, rnd)

/-- The `SDL_KEYDOWN` branch of the event loop in `main` of `attempt.c`. -/
def key_down (key : Key) (snake : Snake) (gameState : GameState) : Snake × GameState :=
  if gameState = GameState.PLAYING then
    match key with
    | Key.SDLK_UP =>
      if snake.dy = 0 then ({ snake with dx := 0, dy := -1 }, gameState) else (snake, gameState)
    | Key.SDLK_DOWN =>
      if snake.dy = 0 then ({ snake with dx := 0, dy := 1 }, gameState) else (snake, gameState)
    | Key.SDLK_LEFT =>
      if snake.dx = 0 then ({ snake with dx := -1, dy := 0 }, gameState) else (snake, gameState)
    | Key.SDLK_RIGHT =>
      if snake.dx = 0 then ({ snake with dx := 1, dy := 0 }, gameState) else (snake, gameState)
    | Key.SDLK_ESCAPE => (snake, GameState.MENU)
    | _ => (snake, gameState)
  else (snake, gameState)

/-- `reset_game` of `attempt.c`; the result is `(*snake, *food, *score)` after the call
and the remaining stream. -/
def reset_game (fuel : Nat) (rnd : Rand) (snake : Snake) (food : Food) (_score : Int) :
    Option (Snake × Food × Int × Rand) :=
  let snake1 : Snake := { snake with length := 5, dx := 1, dy := 0, alive := true }
  let snake2 : Snake :=
    { snake1 with
      body := write_body (fun i => { x := 5 - (i : Int), y := 5 }) 0 snake1.length snake1.body }
  match place_food fuel rnd food snake2 with
  | none => none
  | some (food3, snake3, rnd3) => some (snake3, food3, 0, rnd3)

end Attempt

/-! ## `challenge.c` (challenge mode) -/

namespace Challenge

/-- `#define MAX_OBSTACLES 30`. -/
def MAX_OBSTACLES : Nat := 30

/-- `#define MAX_FOODS 5`. -/
def MAX_FOODS : Nat := 5

/-- The struct `Snake` of `challenge.c`. -/
structure Snake where
  body : Nat → Segment
  length : Nat
  dx : Int
  dy : Int
  alive : Bool

/-- The struct `Food` of `challenge.c`. -/
structure Food where
  x : Int
  y : Int
  value : Int
  type : Int
  moving : Bool
  dx : Int
  dy : Int
deriving DecidableEq, Repr

/-- The struct `Obstacle` of `challenge.c`. -/
structure Obstacle where
  x : Int
  y : Int
  dx : Int
  dy : Int
  moving : Bool
deriving DecidableEq, Repr

/-- The struct `GameConfig` of `challenge.c`. -/
structure GameConfig where
  timed : Bool
  timeRemaining : Int
  maxTime : Int
  hasObstacles : Bool
  obstacles : Nat → Obstacle
  obstacleCount : Nat
  movingObstacles : Bool
  obstacleMoveInterval : Int
  lastObstacleMove : Nat
  movingFruit : Bool
  fruitMoveInterval : Int
  lastFruitMove : Nat
  multiFruit : Bool
  foods : Nat → Food
  foodCount : Nat
  speed : Bool
  updateDelay : Int
  modeName : String

/-- `move_snake` of `challenge.c`: shift the body, move the head, then the wall test and
the self-collision loop, each of which can only clear `alive`. -/
def move_snake (snake : Snake) : Snake :=
  let body1 := shift_body (snake.length - 1) snake.body
  let head : Segment := { x := (body1 0).x + snake.dx, y := (body1 0).y + snake.dy }
  let body2 := setAt body1 0 head
  let alive1 := if off_grid (body2 0) then false else snake.alive
  let alive2 :=
    if scanFrom (fun i => same_cell (body2 0).x (body2 0).y (body2 i).x (body2 i).y) 1
        (snake.length - 1) then false else alive1
  { snake with body := body2, alive := alive2 }

/-- `grow_snake` of `challenge.c`, guarded by `length < 100`. -/
def grow_snake (snake : Snake) : Snake :=
  if snake.length < 100 then
    { snake with
      body := setAt snake.body snake.length (snake.body (snake.length - 1))
      length := snake.length + 1 }
  else snake

/-- The value of `valid_position` at the end of one iteration of the sampling loop of
`place_food`, for the sampled cell `(x, y)`: the snake loop, then the obstacle loop
(entered when still valid and `hasObstacles`), then the food loop (entered when still
valid and `multiFruit`). -/
def valid_position (x y : Int) (snake : Snake) (config : GameConfig) : Bool :=
  let v1 := !scanFrom (fun i => same_cell x y (snake.body i).x (snake.body i).y) 0 snake.length
  let v2 :=
    if v1 && config.hasObstacles then
      !scanFrom (fun i => same_cell x y (config.obstacles i).x (config.obstacles i).y) 0
        config.obstacleCount
    else v1
  let v3 :=
    if v2 && config.multiFruit then
      !scanFrom (fun i => same_cell x y (config.foods i).x (config.foods i).y) 0
        config.foodCount
    else v2
  v3

/-- The sampling loop `while (!valid_position) { x = rand() % GRID_WIDTH; ... }` of
`place_food`; the result is the accepted `(x, y)` and the remaining stream. -/
def sample_cell : Nat → Rand → Snake → GameConfig → Option (Int × Int × Rand)
  | 0, _, _, _ => none
  | fuel + 1, rnd, snake, config =>
    let x : Int := (rnd 0 : Int) % GRID_WIDTH
    let y : Int := (rnd 1 : Int) % GRID_HEIGHT
    if valid_position x y snake config then some (x, y, Rand.drop 2 rnd)
    else sample_cell fuel (Rand.drop 2 rnd) snake config

/-- The loop `do { dx = (rand() % 3) - 1; dy = (rand() % 3) - 1; } while (dx == 0 && dy == 0);`. -/
def sample_direction : Nat → Rand → Option (Int × Int × Rand)
  | 0, _ => none
  | fuel + 1, rnd =>
    let dx : Int := (rnd 0 : Int) % 3 - 1
    let dy : Int := (rnd 1 : Int) % 3 - 1
    if dx = 0 ∧ dy = 0 then sample_direction fuel (Rand.drop 2 rnd)
    else some (dx, dy, Rand.drop 2 rnd)

/-- `place_food` of `challenge.c`.  The argument `food` is the record `*food` before the
call (in the program it is an element of `config->foods`, which the sampling loop reads
but does not write); the result is `*food` after the call. -/
def place_food (fuel : Nat) (rnd : Rand) (food : Food) (snake : Snake) (config : GameConfig) :
    Option (Food × Rand) :=
  match sample_cell fuel rnd snake config with
  | none => none
  | some (x, y, rnd1) =>
    let food1 : Food := { food with x := x, y := y }
    if config.movingFruit && food1.moving then
      match sample_direction fuel rnd1 with
      | none => none
      | some (dx, dy, rnd2) => some ({ food1 with dx := dx, dy := dy }, rnd2)
    else some (food1, rnd1)

/-- The struct `GameFeatures` of `challenge.c`. -/
structure GameFeatures where
  movingFruit : Bool
  multiFruit : Bool
  timed : Bool
  obstacles : Bool
  speed : Bool
  chaos : Bool
deriving DecidableEq, Repr

/-- `generate_mode_name` of `challenge.c`.  `strcpy(modeName, s)` sets the string to `s`,
`strcat(modeName, s)` appends `s`; the two early `return`s are the first two branches. -/
def generate_mode_name (config : GameConfig) (features : GameFeatures) : GameConfig :=
  let name0 : String := ""
  if features.movingFruit && features.multiFruit && features.timed &&
      features.obstacles && features.speed then
    { config with modeName := "CHAOS MODE" }
  else if !features.movingFruit && !features.multiFruit && !features.timed &&
      !features.obstacles && !features.speed then
    { config with modeName := "CLASSIC" }
  else
    let addedFeature0 := false
    let name1 := if features.speed then name0 ++ "SPEED" else name0
    let addedFeature1 := if features.speed then true else addedFeature0
    let name2 :=
      if features.timed then (if addedFeature1 then name1 ++ "+" else name1) ++ "TIMED"
      else name1
    let addedFeature2 := if features.timed then true else addedFeature1
    let name3 :=
      if features.obstacles then
        let plus := if addedFeature2 then name2 ++ "+" else name2
        let mvg := if features.movingFruit then plus ++ "MVG-" else plus
        mvg ++ "OBSTACLE"
      else name2
    let addedFeature3 := if features.obstacles then true else addedFeature2
    let name4 :=
      if features.multiFruit then
        (if addedFeature3 then name3 ++ "+" else name3) ++ "MULTI-FRUIT"
      else if features.movingFruit then
        (if addedFeature3 then name3 ++ "+" else name3) ++ "MVG-FRUIT"
      else name3
    { config with modeName := name4 }

/-- The configuration after `memset(config, 0, sizeof(GameConfig))`. -/
def zeroConfig : GameConfig :=
  { timed := false, timeRemaining := 0, maxTime := 0,
    hasObstacles := false,
    obstacles := fun _ => { x := 0, y := 0, dx := 0, dy := 0, moving := false },
    obstacleCount := 0, movingObstacles := false, obstacleMoveInterval := 0,
    lastObstacleMove := 0,
    movingFruit := false, fruitMoveInterval := 0, lastFruitMove := 0,
    multiFruit := false,
    foods := fun _ =>
      { x := 0, y := 0, value := 0, type := 0, moving := false, dx := 0, dy := 0 },
    foodCount := 0, speed := false, updateDelay := 0, modeName := "" }

/-- `configure_game` of `challenge.c`.  The old `*config` is overwritten by the `memset`;
`snake` is not used. -/
def configure_game (_config : GameConfig) (features : GameFeatures) (_snake : Snake) :
    GameConfig :=
  let c0 := zeroConfig
  let c1 : GameConfig :=
    { c0 with
      movingFruit := features.movingFruit
      multiFruit := features.multiFruit
      timed := features.timed
      hasObstacles := features.obstacles
      movingObstacles := features.obstacles && features.movingFruit }
  let c2 : GameConfig :=
    if features.speed then { c1 with updateDelay := 100 } else { c1 with updateDelay := 150 }
  let c3 : GameConfig :=
    if c2.timed then { c2 with maxTime := 60, timeRemaining := 60 } else c2
  let c4 : GameConfig :=
    if c3.movingFruit then { c3 with fruitMoveInterval := 500 } else c3
  let c5 : GameConfig :=
    if c4.movingObstacles then { c4 with obstacleMoveInterval := 800 } else c4
  generate_mode_name c5 features

/-- The mode name as the specification words it: `CHAOS MODE` if all five flags are set,
`CLASSIC` if none is, otherwise the enabled tokens `SPEED`, `TIMED`, `[MVG-]OBSTACLE`,
`MULTI-FRUIT | MVG-FRUIT` in this order, joined by `+`. -/
def mode_name_reference (features : GameFeatures) : String :=
  if features.movingFruit ∧ features.multiFruit ∧ features.timed ∧ features.obstacles ∧
      features.speed then "CHAOS MODE"
  else if ¬ features.movingFruit ∧ ¬ features.multiFruit ∧ ¬ features.timed ∧
      ¬ features.obstacles ∧ ¬ features.speed then "CLASSIC"
  else
    "+".intercalate
      ((if features.speed then ["SPEED"] else []) ++
        (if features.timed then ["TIMED"] else []) ++
        (if features.obstacles then
          [(if features.movingFruit then "MVG-" else "") ++ "OBSTACLE"] else []) ++
        (if features.multiFruit then ["MULTI-FRUIT"]
          else if features.movingFruit then ["MVG-FRUIT"] else []))

/-- The obstacle count drawn by `place_obstacles` from the value `r` of `rand()`:
`rand() % (MAX_OBSTACLES / 2) + (MAX_OBSTACLES / 2)`. -/
def obstacle_count (r : Nat) : Nat :=
  r % (MAX_OBSTACLES / 2) + MAX_OBSTACLES / 2

/-- The value of `valid_position` at the end of one iteration of the sampling loop of
`place_obstacles` for obstacle `i` and the sampled cell `(x, y)`: it starts `true` and is
cleared by the snake loop, by the food loop, by the loop over the obstacles `j < i`, and
by the test `abs(x - head.x) < 3 && abs(y - head.y) < 3`. -/
def obstacle_position_valid (x y : Int) (i : Nat) (snake : Snake) (config : GameConfig) :
    Bool :=
  let v0 := true
  let v1 :=
    if scanFrom (fun j => same_cell x y (snake.body j).x (snake.body j).y) 0 snake.length
    then false else v0
  let v2 :=
    if scanFrom (fun j => same_cell x y (config.foods j).x (config.foods j).y) 0
        config.foodCount
    then false else v1
  let v3 :=
    if scanFrom (fun j => same_cell x y (config.obstacles j).x (config.obstacles j).y) 0 i
    then false else v2
  let v4 :=
    if decide ((x - (snake.body 0).x).natAbs < 3) && decide ((y - (snake.body 0).y).natAbs < 3)
    then false else v3
  v4

/-- The sampling loop `while (!valid_position) { ... }` of `place_obstacles` for
obstacle `i`; the result is the accepted `(x, y)` and the remaining stream. -/
def sample_obstacle_cell : Nat → Rand → Nat → Snake → GameConfig → Option (Int × Int × Rand)
  | 0, _, _, _, _ => none
  | fuel + 1, rnd, i, snake, config =>
    let x : Int := (rnd 0 : Int) % GRID_WIDTH
    let y : Int := (rnd 1 : Int) % GRID_HEIGHT
    if obstacle_position_valid x y i snake config then some (x, y, Rand.drop 2 rnd)
    else sample_obstacle_cell fuel (Rand.drop 2 rnd) i snake config

/-- The body of the `for` loop of `place_obstacles` for obstacle `i`: sample a cell,
store it, then decide whether the obstacle moves (`rand()` is called only when
`movingObstacles` is set) and, if it does, sample its direction. -/
def place_obstacle (fuel : Nat) (rnd : Rand) (i : Nat) (snake : Snake) (config : GameConfig) :
    Option (GameConfig × Rand) :=
  match sample_obstacle_cell fuel rnd i snake config with
  | none => none
  | some (x, y, rnd1) =>
    let ob1 : Obstacle := { config.obstacles i with x := x, y := y }
    if config.movingObstacles then
      if rnd1 0 % 3 = 0 then
        match sample_direction fuel (Rand.drop 1 rnd1) with
        | none => none
        | some (dx, dy, rnd2) =>
          some ({ config with
            obstacles := setAt config.obstacles i { ob1 with moving := true, dx := dx, dy := dy } },
            rnd2)
      else
        some ({ config with obstacles := setAt config.obstacles i { ob1 with moving := false } },
          Rand.drop 1 rnd1)
    else
      some ({ config with obstacles := setAt config.obstacles i { ob1 with moving := false } },
        rnd1)

/-- The loop `for (int i = 0; i < config->obstacleCount; i++)` of `place_obstacles`, from
index `i` with `n` iterations left. -/
def place_obstacles_loop (fuel : Nat) :
    Nat → Nat → Rand → Snake → GameConfig → Option (GameConfig × Rand)
  | _, 0, rnd, _, config => some (config, rnd)
  | i, n + 1, rnd, snake, config =>
    match place_obstacle fuel rnd i snake config with
    | none => none
    | some (config1, rnd1) => place_obstacles_loop fuel (i + 1) n rnd1 snake config1

/-- `place_obstacles` of `challenge.c`. -/
def place_obstacles (fuel : Nat) (rnd : Rand) (config : GameConfig) (snake : Snake) :
    Option (GameConfig × Rand) :=
  if !config.hasObstacles then some (config, rnd)
  else
    let config1 : GameConfig := { config with obstacleCount := obstacle_count (rnd 0) }
    place_obstacles_loop fuel 0 config1.obstacleCount (Rand.drop 1 rnd) snake config1

/-- The `switch (type)` of `initialize_multi_fruits` that sets the point value: 1, 2, 3, 5
for the types 0, 1, 2, 3; any other type leaves the value as it is. -/
def fruit_value (type : Int) (value : Int) : Int :=
  if type = 0 then 1
  else if type = 1 then 2
  else if type = 2 then 3
  else if type = 3 then 5
  else value

/-- The body of the `for` loop of `initialize_multi_fruits` for fruit `i`: draw the type,
set the value, decide whether the fruit moves (`rand()` is called only when `movingFruit`
is set), then `place_food(&config->foods[i], snake, config)`. -/
def init_fruit (fuel : Nat) (rnd : Rand) (i : Nat) (snake : Snake) (config : GameConfig) :
    Option (GameConfig × Rand) :=
  let f1 : Food := { config.foods i with type := (rnd 0 : Int) % 4 }
  let f2 : Food := { f1 with value := fruit_value f1.type f1.value }
  let f3 : Food :=
    if config.movingFruit then { f2 with moving := decide ((rnd 1 : Int) % 5 < f2.type + 2) }
    else { f2 with moving := false }
  let rnd1 : Rand := if config.movingFruit then Rand.drop 2 rnd else Rand.drop 1 rnd
  let config1 : GameConfig := { config with foods := setAt config.foods i f3 }
  match place_food fuel rnd1 (config1.foods i) snake config1 with
  | none => none
  | some (food, rnd2) => some ({ config1 with foods := setAt config1.foods i food }, rnd2)

/-- The loop `for (int i = 0; i < config->foodCount; i++)` of `initialize_multi_fruits`,
from index `i` with `n` iterations left. -/
def init_fruits_loop (fuel : Nat) :
    Nat → Nat → Rand → Snake → GameConfig → Option (GameConfig × Rand)
  | _, 0, rnd, _, config => some (config, rnd)
  | i, n + 1, rnd, snake, config =>
    match init_fruit fuel rnd i snake config with
    | none => none
    | some (config1, rnd1) => init_fruits_loop fuel (i + 1) n rnd1 snake config1

/-- `initialize_multi_fruits` of `challenge.c`. -/
def initialize_multi_fruits (fuel : Nat) (rnd : Rand) (config : GameConfig) (snake : Snake) :
    Option (GameConfig × Rand) :=
  if !config.multiFruit then
    let f0 : Food := { config.foods 0 with type := 0, value := 1, moving := config.movingFruit }
    let config1 : GameConfig := { config with foodCount := 1, foods := setAt config.foods 0 f0 }
    match place_food fuel rnd (config1.foods 0) snake config1 with
    | none => none
    | some (food, rnd1) => some ({ config1 with foods := setAt config1.foods 0 food }, rnd1)
  else
    let config1 : GameConfig := { config with foodCount := rnd 0 % 3 + 3 }
    init_fruits_loop fuel 0 config1.foodCount (Rand.drop 1 rnd) snake config1

/-- `check_food_collision` of `challenge.c` (the sound call is left out). -/
def check_food_collision (snake : Snake) (food : Food) : Bool :=
  same_cell (snake.body 0).x (snake.body 0).y food.x food.y

/-- `check_obstacle_collision` of `challenge.c`. -/
def check_obstacle_collision (snake : Snake) (config : GameConfig) : Bool :=
  if !config.hasObstacles then false
  else
    scanFrom (fun i => same_cell (snake.body 0).x (snake.body 0).y
      (config.obstacles i).x (config.obstacles i).y) 0 config.obstacleCount

/-- The body of the `for` loop of `move_foods` for food `i`. -/
def move_food (config : GameConfig) (i : Nat) : GameConfig :=
  if (config.foods i).moving then
    let f := config.foods i
    let new_x0 := f.x + f.dx
    let new_y0 := f.y + f.dy
    let dx1 := if new_x0 < 0 ∨ new_x0 ≥ GRID_WIDTH then f.dx * -1 else f.dx
    let new_x := if new_x0 < 0 ∨ new_x0 ≥ GRID_WIDTH then f.x + dx1 else new_x0
    let dy1 := if new_y0 < 0 ∨ new_y0 ≥ GRID_HEIGHT then f.dy * -1 else f.dy
    let new_y := if new_y0 < 0 ∨ new_y0 ≥ GRID_HEIGHT then f.y + dy1 else new_y0
    let collision :=
      if config.hasObstacles then
        scanFrom (fun j => same_cell new_x new_y (config.obstacles j).x (config.obstacles j).y) 0
          config.obstacleCount
      else false
    if !collision then
      { config with
        foods := setAt config.foods i { f with x := new_x, y := new_y, dx := dx1, dy := dy1 } }
    else
      { config with foods := setAt config.foods i { f with dx := dx1 * -1, dy := dy1 * -1 } }
  else config

/-- The loop `for (int i = 0; i < config->foodCount; i++)` of `move_foods`, from index `i`
with `n` iterations left. -/
def move_foods_loop : Nat → Nat → GameConfig → GameConfig
  | _, 0, config => config
  | i, n + 1, config => move_foods_loop (i + 1) n (move_food config i)

/-- `move_foods` of `challenge.c`. -/
def move_foods (config : GameConfig) : GameConfig :=
  if !config.movingFruit then config else move_foods_loop 0 config.foodCount config

/-- The body of the `for` loop of `move_obstacles` for obstacle `i`. -/
def move_obstacle (config : GameConfig) (i : Nat) : GameConfig :=
  if (config.obstacles i).moving then
    let o := config.obstacles i
    let new_x0 := o.x + o.dx
    let new_y0 := o.y + o.dy
    let dx1 := if new_x0 < 0 ∨ new_x0 ≥ GRID_WIDTH then o.dx * -1 else o.dx
    let new_x := if new_x0 < 0 ∨ new_x0 ≥ GRID_WIDTH then o.x + dx1 else new_x0
    let dy1 := if new_y0 < 0 ∨ new_y0 ≥ GRID_HEIGHT then o.dy * -1 else o.dy
    let new_y := if new_y0 < 0 ∨ new_y0 ≥ GRID_HEIGHT then o.y + dy1 else new_y0
    let collision1 :=
      scanFrom (fun j => decide (i ≠ j) &&
        same_cell new_x new_y (config.obstacles j).x (config.obstacles j).y) 0
        config.obstacleCount
    let collision :=
      if scanFrom (fun j => same_cell new_x new_y (config.foods j).x (config.foods j).y) 0
          config.foodCount
      then true else collision1
    if !collision then
      { config with
        obstacles :=
          setAt config.obstacles i { o with x := new_x, y := new_y, dx := dx1, dy := dy1 } }
    else
      { config with
        obstacles := setAt config.obstacles i { o with dx := dx1 * -1, dy := dy1 * -1 } }
  else config

/-- The loop `for (int i = 0; i < config->obstacleCount; i++)` of `move_obstacles`, from
index `i` with `n` iterations left. -/
def move_obstacles_loop : Nat → Nat → GameConfig → GameConfig
  | _, 0, config => config
  | i, n + 1, config => move_obstacles_loop (i + 1) n (move_obstacle config i)

/-- `move_obstacles` of `challenge.c`. -/
def move_obstacles (config : GameConfig) : GameConfig :=
  if !config.movingObstacles then config
  else move_obstacles_loop 0 config.obstacleCount config

/-- `update_game` of `challenge.c`; the result is `(*snake, *config, *score)` after the
call.  `currentTime` is the absolute clock value `SDL_GetTicks()` passed by `main`. -/
def update_game (snake : Snake) (config : GameConfig) (score : Int) (currentTime : Nat) :
    Snake × GameConfig × Int :=
  let config1 : GameConfig :=
    if config.movingFruit &&
        decide (u32 ((currentTime : Int) - (config.lastFruitMove : Int)) >
          u32 config.fruitMoveInterval) then
      { move_foods config with lastFruitMove := currentTime }
    else config
  let config2 : GameConfig :=
    if config1.movingObstacles &&
        decide (u32 ((currentTime : Int) - (config1.lastObstacleMove : Int)) >
          u32 config1.obstacleMoveInterval) then
      { move_obstacles config1 with lastObstacleMove := currentTime }
    else config1
  if config2.timed && decide (config2.timeRemaining > 0) then
    let config3 : GameConfig :=
      { config2 with
        timeRemaining := i32 (u32 (config2.maxTime - ((currentTime / 1000 : Nat) : Int))) }
    if config3.timeRemaining ≤ 0 then ({ snake with alive := false }, config3, score)
    else (snake, config3, score)
  else (snake, config2, score)

/-- `reset_game` of `challenge.c`; the result is `(*snake, *config, *score)` after the
call and the remaining stream. -/
def reset_game (fuel : Nat) (rnd : Rand) (snake : Snake) (config : GameConfig) (_score : Int) :
    Option (Snake × GameConfig × Int × Rand) :=
  let snake1 : Snake :=
    { snake with
      length := 3
      body :=
        setAt (setAt (setAt snake.body
          0 { x := GRID_WIDTH / 2, y := GRID_HEIGHT / 2 })
          1 { x := GRID_WIDTH / 2 - 1, y := GRID_HEIGHT / 2 })
          2 { x := GRID_WIDTH / 2 - 2, y := GRID_HEIGHT / 2 }
      dx := 1
      dy := 0
      alive := true }
  let score1 : Int := 0
  let config1 : GameConfig :=
    if config.timed then { config with timeRemaining := config.maxTime } else config
  match (if config1.hasObstacles then place_obstacles fuel rnd config1 snake1
      else some (config1, rnd)) with
  | none => none
  | some (config2, rnd2) =>
    if config2.multiFruit then
      match initialize_multi_fruits fuel rnd2 config2 snake1 with
      | none => none
      | some (config3, rnd3) => some (snake1, config3, score1, rnd3)
    else
      let f0 : Food :=
        { config2.foods 0 with type := 0, value := 1, moving := config2.movingFruit }
      let config3 : GameConfig :=
        { config2 with foodCount := 1, foods := setAt config2.foods 0 f0 }
      match place_food fuel rnd2 (config3.foods 0) snake1 config3 with
      | none => none
      | some (food, rnd3) =>
        some (snake1, { config3 with foods := setAt config3.foods 0 food }, score1, rnd3)

/-- The variables of `main` of `challenge.c` that the simulation reads and writes. -/
structure Game where
  snake : Snake
  config : GameConfig
  score : Int
  gameState : GameState
  lastUpdate : Nat

/-- The PLAY button of the menu in `main` of `challenge.c`, pressed at clock value `now`:
`configure_game`, `reset_game`, the two `last...Move = SDL_GetTicks()` stores, and
`gameState = PLAYING`. -/
def play_click (fuel : Nat) (rnd : Rand) (features : GameFeatures) (g : Game) (now : Nat) :
    Option (Game × Rand) :=
  let config1 := configure_game g.config features g.snake
  match reset_game fuel rnd g.snake config1 g.score with
  | none => none
  | some (snake2, config2, score2, rnd2) =>
    some ({ g with
      snake := snake2
      config := { config2 with lastFruitMove := now, lastObstacleMove := now }
      score := score2
      gameState := GameState.PLAYING }, rnd2)

/-- The loop `for (int i = 0; i < config.foodCount; i++)` of the tick update in `main` of
`challenge.c`, from index `i` with `n` iterations left: a fruit under the head adds its
value to the score, grows the snake and is placed again. -/
def eat_foods_loop (fuel : Nat) :
    Nat → Nat → Rand → Snake → GameConfig → Int → Option (Snake × GameConfig × Int × Rand)
  | _, 0, rnd, snake, config, score => some (snake, config, score, rnd)
  | i, n + 1, rnd, snake, config, score =>
    if check_food_collision snake (config.foods i) then
      let score1 := score + (config.foods i).value
      let snake1 := grow_snake snake
      match place_food fuel rnd (config.foods i) snake1 config with
      | none => none
      | some (food, rnd1) =>
        eat_foods_loop fuel (i + 1) n rnd1 snake1
          { config with foods := setAt config.foods i food } score1
    else eat_foods_loop fuel (i + 1) n rnd snake config score

/-- The tick update in `main` of `challenge.c` at clock value `currentTime`. -/
def tick_update (fuel : Nat) (rnd : Rand) (g : Game) (currentTime : Nat) :
    Option (Game × Rand) :=
  if g.gameState = GameState.PLAYING then
    if u32 ((currentTime : Int) - (g.lastUpdate : Int)) > u32 g.config.updateDelay then
      let snake1 := move_snake g.snake
      let snake2 : Snake :=
        if check_obstacle_collision snake1 g.config then { snake1 with alive := false }
        else snake1
      match eat_foods_loop fuel 0 g.config.foodCount rnd snake2 g.config g.score with
      | none => none
      | some (snake3, config3, score3, rnd3) =>
        let u := update_game snake3 config3 score3 currentTime
        let gameState1 := if !u.1.alive then GameState.GAME_OVER else g.gameState
        some ({ g with
          snake := u.1
          config := u.2.1
          score := u.2.2
          gameState := gameState1
          lastUpdate := currentTime }, rnd3)
    else some (g, rnd)
  else some (g, rnd)

/-- The `SDL_KEYDOWN` case of the event loop in `main` of `challenge.c`. -/
def key_down (key : Key) (snake : Snake) (gameState : GameState) : Snake × GameState :=
  if gameState = GameState.PLAYING then
    match key with
    | Key.SDLK_UP =>
      if snake.dy ≠ 1 then ({ snake with dx := 0, dy := -1 }, gameState) else (snake, gameState)
    | Key.SDLK_DOWN =>
      if snake.dy ≠ -1 then ({ snake with dx := 0, dy := 1 }, gameState) else (snake, gameState)
    | Key.SDLK_LEFT =>
      if snake.dx ≠ 1 then ({ snake with dx := -1, dy := 0 }, gameState) else (snake, gameState)
    | Key.SDLK_RIGHT =>
      if snake.dx ≠ -1 then ({ snake with dx := 1, dy := 0 }, gameState) else (snake, gameState)
    | Key.SDLK_ESCAPE => (snake, GameState.MENU)
    | _ => (snake, gameState)
  else (snake, gameState)

end Challenge

/-! ## `multiplayer.c` (two players) -/

namespace Multiplayer

/-- `#define FRUIT_COUNT 5`. -/
def FRUIT_COUNT : Nat := 5

/-- The struct `Snake` of `multiplayer.c`; the display fields `color` and `name`, which no
modelled function reads or writes, are left out. -/
structure Snake where
  body : Nat → Segment
  length : Nat
  dx : Int
  dy : Int
  alive : Bool
  score : Int

/-- The struct `Food` of `multiplayer.c`. -/
structure Food where
  x : Int
  y : Int
  active : Bool
deriving DecidableEq, Repr

/-- `move_snake` of `multiplayer.c`.  The result is the pair `(*snake, *other_snake)`
after the call.  A dead snake returns at once; each collision test returns as soon as it
has cleared `alive`. -/
def move_snake (snake other_snake : Snake) : Snake × Snake :=
  if !snake.alive then (snake, other_snake)
  else
    let body1 := shift_body (snake.length - 1) snake.body
    let head : Segment := { x := (body1 0).x + snake.dx, y := (body1 0).y + snake.dy }
    let body2 := setAt body1 0 head
    let moved : Snake := { snake with body := body2 }
    if off_grid (body2 0) then ({ moved with alive := false }, other_snake)
    else if scanFrom (fun i => same_cell (body2 0).x (body2 0).y (body2 i).x (body2 i).y) 1
        (snake.length - 1) then ({ moved with alive := false }, other_snake)
    else if other_snake.alive &&
        scanFrom (fun i => same_cell (body2 0).x (body2 0).y
          (other_snake.body i).x (other_snake.body i).y) 0 other_snake.length then
      ({ moved with alive := false }, other_snake)
    else (moved, other_snake)

/-- `grow_snake` of `multiplayer.c`; it has no capacity test:

    snake->body[snake->length] = snake->body[snake->length - 1];
    snake->length++;

For `length < 100` the store is inside `Segment body[100]`.  For `length = 100` the
element `body[100]` lies one past the end of the array, which C leaves undefined.  In
`struct Snake` the array is followed by `int length; int dx, dy;` and a `Segment` is two
`int`s, so the memory of `body[100].x` is the field `length` and the memory of
`body[100].y` is the field `dx`: executed as written, the store copies `body[99].x` into
`length` and `body[99].y` into `dx`, and `length++` then adds one to the copied value.
That execution is the one given here for `length = 100` (a value `body[99].x + 1` below 0
is cut off at 0, `length` being a `Nat`; the cells of a snake that eats are inside the
grid).  For `length > 100`, which growth from the reset snakes does not reach, the store
would land on `dy`, `alive` and the memory behind them; there the definition keeps the
store into the map `body` and describes no execution. -/
def grow_snake (snake : Snake) : Snake :=
  if snake.length = 100 then
    { snake with
      length := ((snake.body 99).x + 1).toNat
      dx := (snake.body 99).y }
  else
    { snake with
      body := setAt snake.body snake.length (snake.body (snake.length - 1))
      length := snake.length + 1 }

/-- `place_food` of `multiplayer.c`: the `do ... while (!valid_position)` loop, which
stores each sample in `*food`, then `food->active = true`.  The result is
`(*food, *snakeA, *snakeB)` after the call and the remaining stream. -/
def place_food : Nat → Rand → Food → Snake → Snake → Option (Food × Snake × Snake × Rand)
  | 0, _, _, _, _ => none
  | fuel + 1, rnd, food, snakeA, snakeB =>
    let food1 : Food :=
      { food with x := (rnd 0 : Int) % GRID_WIDTH, y := (rnd 1 : Int) % GRID_HEIGHT }
    let v1 :=
      !scanFrom (fun i => same_cell food1.x food1.y (snakeA.body i).x (snakeA.body i).y) 0
        snakeA.length
    let v2 :=
      if v1 then
        !scanFrom (fun i => same_cell food1.x food1.y (snakeB.body i).x (snakeB.body i).y) 0
          snakeB.length
      else v1
    if v2 then some ({ food1 with active := true }, snakeA, snakeB, Rand.drop 2 rnd)
    else place_food fuel (Rand.drop 2 rnd) food1 snakeA snakeB

/-- The loop `for (i = 0; i < count; i++) if (foods[i].active) active_count++;`, from index
`i` with `n` iterations left. -/
def count_active (foods : Nat → Food) : Nat → Nat → Nat → Nat
  | _, 0, active_count => active_count
  | i, n + 1, active_count =>
    count_active foods (i + 1) n (if (foods i).active then active_count + 1 else active_count)

/-- One pass `for (i = 0; i < count && active_count > 2; i++)` of the loop that removes
extra fruits, from index `i` with `n` indices left below `count`. -/
def deactivate_pass : Nat → Nat → (Nat → Food) → Nat → (Nat → Food) × Nat
  | _, 0, foods, active_count => (foods, active_count)
  | i, n + 1, foods, active_count =>
    if active_count > 2 then
      if (foods i).active then
        deactivate_pass (i + 1) n (setAt foods i { foods i with active := false })
          (active_count - 1)
      else deactivate_pass (i + 1) n foods active_count
    else (foods, active_count)

/-- The loop `while (active_count > 2) { ... }`. -/
def deactivate_extras : Nat → Nat → (Nat → Food) → Nat → Option ((Nat → Food) × Nat)
  | 0, _, _, _ => none
  | fuel + 1, count, foods, active_count =>
    if active_count > 2 then
      let r := deactivate_pass 0 count foods active_count
      deactivate_extras fuel count r.1 r.2
    else some (foods, active_count)

/-- One pass `for (i = 0; i < count && active_count < 2; i++)` of the loop that spawns
missing fruits, from index `i` with `n` indices left below `count`; `fuel` bounds the
sampling loop of each `place_food` call. -/
def spawn_pass (fuel : Nat) :
    Nat → Nat → Rand → (Nat → Food) → Nat → Snake → Snake →
      Option ((Nat → Food) × Nat × Snake × Snake × Rand)
  | _, 0, rnd, foods, active_count, snakeA, snakeB =>
    some (foods, active_count, snakeA, snakeB, rnd)
  | i, n + 1, rnd, foods, active_count, snakeA, snakeB =>
    if active_count < 2 then
      if !(foods i).active then
        match place_food fuel rnd (foods i) snakeA snakeB with
        | none => none
        | some (food, snakeA1, snakeB1, rnd1) =>
          spawn_pass fuel (i + 1) n rnd1 (setAt foods i { food with active := true })
            (active_count + 1) snakeA1 snakeB1
      else spawn_pass fuel (i + 1) n rnd foods active_count snakeA snakeB
    else some (foods, active_count, snakeA, snakeB, rnd)

/-- The loop `while (active_count < 2) { ... }`; `fuel` bounds its passes as well as the
sampling loop of each `place_food` call. -/
def spawn_missing (fuel : Nat) :
    Nat → Nat → Rand → (Nat → Food) → Nat → Snake → Snake →
      Option ((Nat → Food) × Nat × Snake × Snake × Rand)
  | 0, _, _, _, _, _, _ => none
  | passes + 1, count, rnd, foods, active_count, snakeA, snakeB =>
    if active_count < 2 then
      match spawn_pass fuel 0 count rnd foods active_count snakeA snakeB with
      | none => none
      | some (foods1, active_count1, snakeA1, snakeB1, rnd1) =>
        spawn_missing fuel passes count rnd1 foods1 active_count1 snakeA1 snakeB1
    else some (foods, active_count, snakeA, snakeB, rnd)

/-- `ensure_minimum_fruits` of `multiplayer.c`.  The result is
`(foods, *snakeA, *snakeB)` after the call and the remaining stream. -/
def ensure_minimum_fruits (fuel : Nat) (rnd : Rand) (foods : Nat → Food) (count : Nat)
    (snakeA snakeB : Snake) : Option ((Nat → Food) × Snake × Snake × Rand) :=
  let active_count := count_active foods 0 count 0
  match deactivate_extras fuel count foods active_count with
  | none => none
  | some (foods1, active_count1) =>
    match spawn_missing fuel fuel count rnd foods1 active_count1 snakeA snakeB with
    | none => none
    | some (foods2, _, snakeA1, snakeB1, rnd1) => some (foods2, snakeA1, snakeB1, rnd1)

/-- `#define GAME_DURATION 120000`. -/
def GAME_DURATION : Int := 120000

/-- `check_food_collision` of `multiplayer.c` (the sound call is left out). -/
def check_food_collision (snake : Snake) (food : Food) : Bool :=
  snake.alive && food.active && same_cell (snake.body 0).x (snake.body 0).y food.x food.y

/-- The body of the fruit loop of the tick update in `main` of `multiplayer.c` for food
`i`: an active food under the head of snake A, or else of snake B, is deactivated, adds
10 to the eater's score and grows the eater. -/
def eat_food (i : Nat) (snakeA snakeB : Snake) (foods : Nat → Food) :
    Snake × Snake × (Nat → Food) :=
  if (foods i).active then
    if check_food_collision snakeA (foods i) then
      let foods1 := setAt foods i { foods i with active := false }
      let snakeA1 : Snake := { snakeA with score := snakeA.score + 10 }
      (grow_snake snakeA1, snakeB, foods1)
    else if check_food_collision snakeB (foods i) then
      let foods1 := setAt foods i { foods i with active := false }
      let snakeB1 : Snake := { snakeB with score := snakeB.score + 10 }
      (snakeA, grow_snake snakeB1, foods1)
    else (snakeA, snakeB, foods)
  else (snakeA, snakeB, foods)

/-- The loop `for (int i = 0; i < FRUIT_COUNT * 2; i++)` of the tick update, from index
`i` with `n` iterations left. -/
def eat_foods_loop : Nat → Nat → Snake → Snake → (Nat → Food) → Snake × Snake × (Nat → Food)
  | _, 0, snakeA, snakeB, foods => (snakeA, snakeB, foods)
  | i, n + 1, snakeA, snakeB, foods =>
    let r := eat_food i snakeA snakeB foods
    eat_foods_loop (i + 1) n r.1 r.2.1 r.2.2

/-- The variables of `main` of `multiplayer.c` that the simulation reads and writes. -/
structure Game where
  snakeA : Snake
  snakeB : Snake
  foods : Nat → Food
  state : GameState
  time_left : Int
  game_start_time : Nat
  move_time : Nat

/-- The update step in `main` of `multiplayer.c` at clock value `current_time`. -/
def update_step (fuel : Nat) (rnd : Rand) (g : Game) (current_time : Nat) :
    Option (Game × Rand) :=
  if g.state = GameState.PLAYING then
    let time_left1 : Int :=
      i32 (u32 (GAME_DURATION - (u32 ((current_time : Int) - (g.game_start_time : Int)) : Int)))
    let g1 : Game :=
      if time_left1 ≤ 0 then { g with state := GameState.GAME_OVER, time_left := 0 }
      else { g with time_left := time_left1 }
    if u32 ((current_time : Int) - (g1.move_time : Int)) ≥ u32 150 then
      let mA := move_snake g1.snakeA g1.snakeB
      let mB := move_snake mA.2 mA.1
      let eaten := eat_foods_loop 0 (FRUIT_COUNT * 2) mB.2 mB.1 g1.foods
      match ensure_minimum_fruits fuel rnd eaten.2.2 (FRUIT_COUNT * 2) eaten.1 eaten.2.1 with
      | none => none
      | some (foods2, snakeA2, snakeB2, rnd2) =>
        let state2 :=
          if !snakeA2.alive && !snakeB2.alive then GameState.GAME_OVER else g1.state
        some ({ g1 with
          snakeA := snakeA2
          snakeB := snakeB2
          foods := foods2
          state := state2
          move_time := current_time }, rnd2)
    else some (g1, rnd)
  else some (g, rnd)

/-- The `SDL_KEYDOWN` branch of the event loop in `main` of `multiplayer.c`: W, A, S, D
steer snake A, the arrow keys steer snake B. -/
def key_down (key : Key) (snakeA snakeB : Snake) (state : GameState) : Snake × Snake :=
  if state = GameState.PLAYING then
    match key with
    | Key.SDLK_w =>
      if snakeA.dy ≠ 1 then ({ snakeA with dx := 0, dy := -1 }, snakeB) else (snakeA, snakeB)
    | Key.SDLK_s =>
      if snakeA.dy ≠ -1 then ({ snakeA with dx := 0, dy := 1 }, snakeB) else (snakeA, snakeB)
    | Key.SDLK_a =>
      if snakeA.dx ≠ 1 then ({ snakeA with dx := -1, dy := 0 }, snakeB) else (snakeA, snakeB)
    | Key.SDLK_d =>
      if snakeA.dx ≠ -1 then ({ snakeA with dx := 1, dy := 0 }, snakeB) else (snakeA, snakeB)
    | Key.SDLK_UP =>
      if snakeB.dy ≠ 1 then (snakeA, { snakeB with dx := 0, dy := -1 }) else (snakeA, snakeB)
    | Key.SDLK_DOWN =>
      if snakeB.dy ≠ -1 then (snakeA, { snakeB with dx := 0, dy := 1 }) else (snakeA, snakeB)
    | Key.SDLK_LEFT =>
      if snakeB.dx ≠ 1 then (snakeA, { snakeB with dx := -1, dy := 0 }) else (snakeA, snakeB)
    | Key.SDLK_RIGHT =>
      if snakeB.dx ≠ -1 then (snakeA, { snakeB with dx := 1, dy := 0 }) else (snakeA, snakeB)
    | _ => (snakeA, snakeB)
  else (snakeA, snakeB)

/-- The loop `for (int i = 0; i < count; i++) foods[i].active = false;` of `reset_game`,
from index `i` with `n` iterations left. -/
def deactivate_all : Nat → Nat → (Nat → Food) → (Nat → Food)
  | _, 0, foods => foods
  | i, n + 1, foods => deactivate_all (i + 1) n (setAt foods i { foods i with active := false })

/-- `reset_game` of `multiplayer.c`; the result is `(*snakeA, *snakeB, foods)` after the
call and the remaining stream. -/
def reset_game (fuel : Nat) (rnd : Rand) (snakeA snakeB : Snake) (foods : Nat → Food)
    (count : Nat) : Option (Snake × Snake × (Nat → Food) × Rand) :=
  let snakeA1 : Snake := { snakeA with length := 3, dx := 1, dy := 0, alive := true, score := 0 }
  let snakeA2 : Snake :=
    { snakeA1 with
      body := write_body (fun i => { x := 5 - (i : Int), y := 5 }) 0 snakeA1.length snakeA1.body }
  let snakeB1 : Snake := { snakeB with length := 3, dx := -1, dy := 0, alive := true, score := 0 }
  let snakeB2 : Snake :=
    { snakeB1 with
      body := write_body (fun i => { x := GRID_WIDTH - 6 + (i : Int), y := GRID_HEIGHT - 6 }) 0
        snakeB1.length snakeB1.body }
  let foods1 := deactivate_all 0 count foods
  match ensure_minimum_fruits fuel rnd foods1 count snakeA2 snakeB2 with
  | none => none
  | some (foods2, snakeA3, snakeB3, rnd3) => some (snakeA3, snakeB3, foods2, rnd3)

end Multiplayer

/-! ## Predicates of the specification -/

/-- The obstacles `0..n-1` form a legal field for `snake` and the foods `0..foodCount-1`:
each lies inside the grid, on no snake cell and on no food cell, outside the exclusion
square around the head (not both `|x - head.x| < 3` and `|y - head.y| < 3`), and no two of
them share a cell. -/
def obstacle_field_ok (snake : Challenge.Snake) (foods : Nat → Challenge.Food)
    (foodCount : Nat) (obstacles : Nat → Challenge.Obstacle) (n : Nat) : Prop :=
  (∀ i, i < n →
    in_grid { x := (obstacles i).x, y := (obstacles i).y } ∧
    (∀ j, j < snake.length →
      ¬ ((obstacles i).x = (snake.body j).x ∧ (obstacles i).y = (snake.body j).y)) ∧
    (∀ j, j < foodCount →
      ¬ ((obstacles i).x = (foods j).x ∧ (obstacles i).y = (foods j).y)) ∧
    ¬ (((obstacles i).x - (snake.body 0).x).natAbs < 3 ∧
      ((obstacles i).y - (snake.body 0).y).natAbs < 3)) ∧
  (∀ i j, i < n → j < n → i ≠ j →
    ¬ ((obstacles i).x = (obstacles j).x ∧ (obstacles i).y = (obstacles j).y))

/-- A fruit as `initialize_multi_fruits` sets it up from the stream `rnd`: its type is one
of 0, 1, 2, 3 with the value 1, 2, 3, 5 of the table; without `movingFruit` it does not
move; with `movingFruit` its type is some drawn value `rnd k` modulo 4 and it moves
exactly when the next drawn value `rnd (k + 1)` modulo 5 is below `type + 2`. -/
def fruit_ok (movingFruit : Bool) (rnd : Rand) (f : Challenge.Food) : Prop :=
  ((f.type = 0 ∧ f.value = 1) ∨ (f.type = 1 ∧ f.value = 2) ∨ (f.type = 2 ∧ f.value = 3) ∨
    (f.type = 3 ∧ f.value = 5)) ∧
  (movingFruit = false → f.moving = false) ∧
  (movingFruit = true →
    ∃ k, f.type = (rnd k : Int) % 4 ∧ (f.moving = true ↔ (rnd (k + 1) : Int) % 5 < f.type + 2))

/-- The number of active foods among `foods[0..n-1]`. -/
def num_active (foods : Nat → Multiplayer.Food) : Nat → Nat
  | 0 => 0
  | n + 1 => num_active foods n + (if (foods n).active then 1 else 0)

/-- A well-formed start snake: alive, of length 3 to 100, all cells inside the grid and
pairwise distinct, consecutive segments at Manhattan distance 1, and the head minus
`body[1]` equal to the velocity. -/
def start_ok (body : Nat → Segment) (length : Nat) (dx dy : Int) (alive : Bool) : Prop :=
  alive = true ∧ 3 ≤ length ∧ length ≤ 100 ∧
  (∀ i, i < length → in_grid (body i)) ∧
  (∀ i j, i < length → j < length → i ≠ j → body i ≠ body j) ∧
  (∀ i, i + 1 < length → manhattan (body i) (body (i + 1)) = 1) ∧
  (body 0).x - (body 1).x = dx ∧ (body 0).y - (body 1).y = dy

/-- A velocity component after the boundary test of `move_foods` and `move_obstacles`:
negated when the step `p + d` would leave `0 .. limit - 1`, unchanged otherwise. -/
def adjusted_velocity (p d limit : Int) : Int :=
  if p + d < 0 ∨ p + d ≥ limit then -d else d

/-- The placement invariant of the moving entities of challenge mode: every food and
every obstacle is inside the grid with velocity components in `{-1, 0, 1}`, the obstacles
occupy pairwise distinct cells, and no food shares a cell with an obstacle. -/
def entities_ok (config : Challenge.GameConfig) : Prop :=
  (∀ i, i < config.foodCount →
    in_grid { x := (config.foods i).x, y := (config.foods i).y } ∧
    -1 ≤ (config.foods i).dx ∧ (config.foods i).dx ≤ 1 ∧
    -1 ≤ (config.foods i).dy ∧ (config.foods i).dy ≤ 1) ∧
  (∀ j, j < config.obstacleCount →
    in_grid { x := (config.obstacles j).x, y := (config.obstacles j).y } ∧
    -1 ≤ (config.obstacles j).dx ∧ (config.obstacles j).dx ≤ 1 ∧
    -1 ≤ (config.obstacles j).dy ∧ (config.obstacles j).dy ≤ 1) ∧
  (∀ j, j < config.obstacleCount → ∀ k, k < config.obstacleCount → j ≠ k →
    ¬ ((config.obstacles j).x = (config.obstacles k).x ∧
      (config.obstacles j).y = (config.obstacles k).y)) ∧
  (∀ i, i < config.foodCount → ∀ j, j < config.obstacleCount →
    ¬ ((config.foods i).x = (config.obstacles j).x ∧
      (config.foods i).y = (config.obstacles j).y))

instance (config : Challenge.GameConfig) : Decidable (entities_ok config) := by
  unfold entities_ok
  infer_instance

/-! ## Concrete states -/

/-- The single-player snake as `reset_game` of `attempt.c` builds it: length 5, head at
`(5, 5)`, body to the left of the head, moving right. -/
def Attempt.startSnake : Attempt.Snake :=
  { body := fun i => { x := 5 - (i : Int), y := 5 }, length := 5, dx := 1, dy := 0, alive := true }

/-- The challenge snake as `reset_game` of `challenge.c` builds it: length 3, head at
`(16, 12)`, moving right. -/
def Challenge.startSnake : Challenge.Snake :=
  { body := fun i => { x := 16 - (i : Int), y := 12 }, length := 3, dx := 1, dy := 0,
    alive := true }

/-- Snake A as `reset_game` of `multiplayer.c` builds it: length 3, head at `(5, 5)`,
moving right. -/
def Multiplayer.startSnakeA : Multiplayer.Snake :=
  { body := fun i => { x := 5 - (i : Int), y := 5 }, length := 3, dx := 1, dy := 0,
    alive := true, score := 0 }

/-- Snake B as `reset_game` of `multiplayer.c` builds it: length 3, head at `(26, 18)`,
moving left. -/
def Multiplayer.startSnakeB : Multiplayer.Snake :=
  { body := fun i => { x := 26 + (i : Int), y := 18 }, length := 3, dx := -1, dy := 0,
    alive := true, score := 0 }

/-- A body that winds through the grid row by row from `(0, 1)`: left to right on the
rows `1, 3, ...`, right to left on the rows `2, 4, ...`. -/
def serpentine (i : Nat) : Segment :=
  { x := if (i / 32) % 2 = 0 then ((i % 32 : Nat) : Int) else 31 - ((i % 32 : Nat) : Int),
    y := 1 + ((i / 32 : Nat) : Int) }

/-- A single-player snake of length 100, the capacity of `body`, head at `(0, 1)`, moving
up. -/
def Attempt.fullSnake : Attempt.Snake :=
  { body := serpentine, length := 100, dx := 0, dy := -1, alive := true }

/-- A challenge snake of length 100, the capacity of `body`, head at `(0, 1)`, moving up. -/
def Challenge.fullSnake : Challenge.Snake :=
  { body := serpentine, length := 100, dx := 0, dy := -1, alive := true }

/-- A multiplayer snake of length 100, the capacity of `body`, head at `(0, 1)`, moving
up; it has eaten 97 fruits of 10 points since the reset. -/
def Multiplayer.fullSnake : Multiplayer.Snake :=
  { body := serpentine, length := 100, dx := 0, dy := -1, alive := true, score := 970 }

/-- A `rand()` stream `5, 5, 7, 7, 9, 9, ...`: the first sampled cell is `(5, 5)`, the
second `(7, 7)`. -/
def rndPairs : Rand := fun n => 5 + n / 2 * 2

/-- A `rand()` stream `26, 18, 7, 7, 7, ...`: the first sampled cell is `(26, 18)`, the
later ones `(7, 7)`. -/
def rndOnB : Rand := fun n => if n = 0 then 26 else if n = 1 then 18 else 7

/-- A challenge configuration with obstacles, several fruits and moving fruit: 15 fixed
obstacles on the cells `(0..14, 0)` and 3 fruits on the cells `(20..22, 20)`. -/
def Challenge.busyConfig : Challenge.GameConfig :=
  { timed := false, timeRemaining := 0, maxTime := 0,
    hasObstacles := true,
    obstacles := fun i => { x := (i : Int), y := 0, dx := 0, dy := 0, moving := false },
    obstacleCount := 15, movingObstacles := true, obstacleMoveInterval := 0,
    lastObstacleMove := 0,
    movingFruit := true, fruitMoveInterval := 500, lastFruitMove := 0,
    multiFruit := true,
    foods := fun i =>
      { x := 20 + (i : Int), y := 20, value := 1, type := 0, moving := true, dx := 1, dy := 0 },
    foodCount := 3, speed := false, updateDelay := 150, modeName := "MULTI-FRUIT+MVG-OBSTACLE" }

/-- A `rand()` stream for `place_food` of `challenge.c` on `busyConfig`: the samples
`(16, 12)` (snake head), `(3, 0)` (obstacle), `(21, 20)` (fruit), `(7, 7)` (free), then
the directions `(0, 0)` and `(1, -1)`. -/
def rndBusy : Rand := fun n => [16, 12, 3, 0, 21, 20, 7, 7, 1, 1, 2, 0].getD n 0

/-- The food array of `multiplayer.c` after the loop `foods[i].active = false` of
`reset_game`: no fruit is active. -/
def Multiplayer.noFoods : Nat → Multiplayer.Food := fun _ => { x := 0, y := 0, active := false }

/-- A `rand()` stream `7, 7, 39, 31, 0, ...`: the first two sampled cells are both
`(7 % 32, 7 % 24) = (39 % 32, 31 % 24) = (7, 7)`. -/
def rndRepeat : Rand := fun n => [7, 7, 39, 31].getD n 0

/-- The challenge configuration built by `configure_game` for the feature set
`{obstacles}`: fixed obstacles, a single fruit, no timer. -/
def Challenge.obstacleConfig : Challenge.GameConfig :=
  Challenge.configure_game Challenge.zeroConfig
    { movingFruit := false, multiFruit := false, timed := false, obstacles := true,
      speed := false, chaos := false } Challenge.startSnake

/-- A `rand()` stream for `place_obstacles`: the count draw `0` (15 obstacles), then the
samples `(16, 12)` (snake head), `(15, 11)` (exclusion zone), `(0, 0)`, `(0, 0)` again
(taken by obstacle 0), and then `(1, 0)`, `(2, 0)`, `(3, 0)`, ... -/
def rndField : Rand := fun n =>
  if n < 9 then [0, 16, 12, 15, 11, 0, 0, 0, 0].getD n 0
  else if n % 2 = 1 then (n - 7) / 2 else 0

/-- A `rand()` stream for `initialize_multi_fruits` on `busyConfig`: the count draw `0`
(3 fruits); fruit 0 of type 3 with moving draw 4, cell `(7, 7)`, direction `(1, -1)`;
fruit 1 of type 1 with moving draw 3, cell `(8, 8)`; fruit 2 of type 0 with moving draw 1,
cell `(9, 9)`, direction `(-1, 1)`. -/
def rndFruits : Rand := fun n => [0, 3, 4, 7, 7, 2, 0, 1, 3, 8, 8, 0, 1, 9, 9, 0, 2].getD n 0

/-- The feature set `{timed}` of the challenge menu. -/
def Challenge.timedFeatures : Challenge.GameFeatures :=
  { movingFruit := false, multiFruit := false, timed := true, obstacles := false,
    speed := false, chaos := false }

/-- The variables of `main` of `challenge.c` while the menu is shown and no game has been
played: zeroed configuration, score 0, `lastUpdate = 0`. -/
def Challenge.menuGame : Challenge.Game :=
  { snake := Challenge.startSnake, config := Challenge.zeroConfig, score := 0,
    gameState := GameState.MENU, lastUpdate := 0 }

/-- The configuration of a timed session (`configure_game` for `{timed}`, then the reset of
`timeRemaining` and the clock stores of the PLAY button pressed at clock value `t0`). -/
def Challenge.timedConfig (t0 : Nat) : Challenge.GameConfig :=
  { Challenge.configure_game Challenge.zeroConfig Challenge.timedFeatures Challenge.startSnake
    with timeRemaining := 60, foodCount := 1, lastFruitMove := t0, lastObstacleMove := t0 }

/-- A challenge game in which the next move puts the head of the start snake on the only
obstacle, at `(17, 12)`; the fruit is at `(3, 3)`. -/
def Challenge.obstacleAheadGame : Challenge.Game :=
  { snake := Challenge.startSnake,
    config :=
      { Challenge.obstacleConfig with
        obstacles := fun _ => { x := 17, y := 12, dx := 0, dy := 0, moving := false }
        obstacleCount := 1
        foods := fun _ =>
          { x := 3, y := 3, value := 1, type := 0, moving := false, dx := 0, dy := 0 }
        foodCount := 1 },
    score := 0, gameState := GameState.PLAYING, lastUpdate := 1000 }

/-- A single-player game about to eat: the start snake (head `(5, 5)`, moving right) with
the food on `(6, 5)`, score 0, update due at clock value 150. -/
def Attempt.eatGame : Attempt.Game :=
  { snake := Attempt.startSnake, food := { x := 6, y := 5 }, score := 0, highscore := 0,
    gameState := GameState.PLAYING, lastUpdateTime := 0, file := none }

/-- A multiplayer game in which snake A is about to eat: both start snakes, `foods[0]`
active on `(6, 5)` in front of snake A, `foods[1]` active on `(20, 20)`. -/
def Multiplayer.eatGame : Multiplayer.Game :=
  { snakeA := Multiplayer.startSnakeA, snakeB := Multiplayer.startSnakeB,
    foods := fun i =>
      if i = 0 then { x := 6, y := 5, active := true }
      else if i = 1 then { x := 20, y := 20, active := true }
      else { x := 0, y := 0, active := false },
    state := GameState.PLAYING, time_left := 120000, game_start_time := 0, move_time := 0 }

/-- A single-player game whose snake has died with score 30, above the high score 0;
the update is due at clock value 150. -/
def Attempt.deadGame : Attempt.Game :=
  { Attempt.eatGame with snake := { Attempt.startSnake with alive := false }, score := 30 }

/-- The single-player snake after `reset_game`, called on the variables left by a previous
game (the snake of length 100, score 970). -/
def Attempt.resetSnake : Option Attempt.Snake :=
  (Attempt.reset_game 1 rndRepeat Attempt.fullSnake { x := 0, y := 0 } 970).map (fun r => r.1)

/-- The key events UP then LEFT, handled one after the other while playing. -/
def Attempt.upThenLeft (snake : Attempt.Snake) : Attempt.Snake :=
  (Attempt.key_down Key.SDLK_LEFT
    (Attempt.key_down Key.SDLK_UP snake GameState.PLAYING).1 GameState.PLAYING).1

/-- A food array of `FRUIT_COUNT * 2` slots in which every food is active, food `i` on
the cell `(i, 9)`. -/
def Multiplayer.allFoods : Nat → Multiplayer.Food := fun i => { x := (i : Int), y := 9, active := true }

/-- A second snake heading for the cell in front of snake A: head `(7, 5)`, moving
left. -/
def Multiplayer.headOnSnakeB : Multiplayer.Snake :=
  { body := fun i => { x := 7 + (i : Int), y := 5 }, length := 3, dx := -1, dy := 0,
    alive := true, score := 0 }

/-- A food in the right-hand column moving right, with an obstacle in the cell to its
left, and a second obstacle that moves diagonally. -/
def Challenge.cornerConfig : Challenge.GameConfig :=
  { Challenge.zeroConfig with
    hasObstacles := true
    obstacles := fun j =>
      if j = 0 then { x := 30, y := 5, dx := 0, dy := 0, moving := false }
      else { x := 10, y := 10, dx := 1, dy := 1, moving := true }
    obstacleCount := 2
    movingObstacles := true
    movingFruit := true
    foods := fun _ => { x := 31, y := 5, value := 1, type := 0, moving := true, dx := 1, dy := 0 }
    foodCount := 1 }

/-! ## Shared lemmas -/

theorem setAt_same {α : Type} (a : Nat → α) (i : Nat) (v : α) : setAt a i v i = v := by
  simp [setAt]

theorem setAt_other {α : Type} (a : Nat → α) (i j : Nat) (v : α) (h : j ≠ i) :
    setAt a i v j = a j := by
  simp [setAt, h]

theorem shift_body_apply (n : Nat) (body : Nat → Segment) (j : Nat) :
    shift_body n body j = if 0 < j ∧ j ≤ n then body (j - 1) else body j := by
  induction n generalizing body with
  | zero =>
    have h0 : ¬ (0 < j ∧ j ≤ 0) := by omega
    rw [shift_body, if_neg h0]
  | succ n ih =>
    rw [shift_body, ih]
    by_cases h1 : 0 < j ∧ j ≤ n
    · have h2 : 0 < j ∧ j ≤ n + 1 := by omega
      rw [if_pos h1, if_pos h2, setAt_other _ _ _ _ (by omega)]
    · rw [if_neg h1]
      by_cases h3 : j = n + 1
      · subst h3
        rw [setAt_same, if_pos (by omega)]
        simp
      · rw [setAt_other _ _ _ _ h3, if_neg (by omega)]

theorem scanFrom_eq_true (p : Nat → Bool) (lo n : Nat) :
    scanFrom p lo n = true ↔ ∃ i, lo ≤ i ∧ i < lo + n ∧ p i = true := by
  induction n generalizing lo with
  | zero =>
    simp only [scanFrom]
    constructor
    · intro h
      cases h
    · rintro ⟨i, h1, h2, _⟩
      omega
  | succ n ih =>
    rw [scanFrom]
    by_cases hp : p lo = true
    · rw [if_pos hp]
      exact ⟨fun _ => ⟨lo, le_refl _, by omega, hp⟩, fun _ => rfl⟩
    · rw [if_neg hp, ih]
      constructor
      · rintro ⟨i, h1, h2, h3⟩
        exact ⟨i, by omega, by omega, h3⟩
      · rintro ⟨i, h1, h2, h3⟩
        have hne : i ≠ lo := by
          intro h
          subst h
          exact hp h3
        exact ⟨i, by omega, by omega, h3⟩

theorem same_cell_eq_true (a b : Segment) :
    same_cell a.x a.y b.x b.y = true ↔ a = b := by
  cases a
  cases b
  simp [same_cell]

theorem off_grid_eq_true (c : Segment) :
    off_grid c = true ↔ (c.x < 0 ∨ 32 ≤ c.x ∨ c.y < 0 ∨ 24 ≤ c.y) := by
  simp [off_grid, GRID_WIDTH, GRID_HEIGHT, or_assoc]

/-! ## Movement -/

theorem moved_body_succ (body : Nat → Segment) (length : Nat) (head : Segment) (i : Nat)
    (h0 : 0 < i) (h1 : i < length) :
    setAt (shift_body (length - 1) body) 0 head i = body (i - 1) := by
  rw [setAt_other _ _ _ _ (by omega), shift_body_apply, if_pos (by omega)]

theorem moved_body_zero (body : Nat → Segment) (length : Nat) :
    shift_body (length - 1) body 0 = body 0 := by
  rw [shift_body_apply, if_neg (by omega)]

theorem moved_head (body : Nat → Segment) (length : Nat) (dx dy : Int) :
    setAt (shift_body (length - 1) body) 0
      { x := (shift_body (length - 1) body 0).x + dx,
        y := (shift_body (length - 1) body 0).y + dy } 0 =
      { x := (body 0).x + dx, y := (body 0).y + dy } := by
  rw [setAt_same, moved_body_zero]

/-- The fields of an alive multiplayer snake that `move_snake` sets regardless of the
collision tests. -/
theorem Multiplayer.move_snake_frame (s o : Multiplayer.Snake) (h : s.alive = true) :
    (Multiplayer.move_snake s o).1.body =
        setAt (shift_body (s.length - 1) s.body) 0
          { x := (shift_body (s.length - 1) s.body 0).x + s.dx,
            y := (shift_body (s.length - 1) s.body 0).y + s.dy } ∧
      (Multiplayer.move_snake s o).1.length = s.length ∧
      (Multiplayer.move_snake s o).1.dx = s.dx ∧
      (Multiplayer.move_snake s o).1.dy = s.dy ∧
      (Multiplayer.move_snake s o).1.score = s.score ∧
      (Multiplayer.move_snake s o).2 = o := by
  simp only [Multiplayer.move_snake, h, Bool.not_true, Bool.false_eq_true, if_false]
  split_ifs <;> exact ⟨rfl, rfl, rfl, rfl, rfl, rfl⟩

/-- C1 (segment-following).  For a snake with `1 ≤ length ≤ 100` (alive, in the
multiplayer variant), after `move_snake` of `attempt.c`, `challenge.c` and
`multiplayer.c`: `body[i]` is the old `body[i-1]` for `0 < i < length`, `body[0]` is the
old head plus `(dx, dy)`, and `length`, `dx`, `dy` are unchanged. -/
theorem move_snake_segment_following
    (sa : Attempt.Snake) (sc : Challenge.Snake) (sm om : Multiplayer.Snake)
    (_ha1 : 1 ≤ sa.length) (_ha2 : sa.length ≤ 100)
    (_hc1 : 1 ≤ sc.length) (_hc2 : sc.length ≤ 100)
    (_hm1 : 1 ≤ sm.length) (_hm2 : sm.length ≤ 100) (hmalive : sm.alive = true) :
    ((∀ i, 0 < i → i < sa.length → (Attempt.move_snake sa).body i = sa.body (i - 1)) ∧
      (Attempt.move_snake sa).body 0 = { x := (sa.body 0).x + sa.dx, y := (sa.body 0).y + sa.dy } ∧
      (Attempt.move_snake sa).length = sa.length ∧
      (Attempt.move_snake sa).dx = sa.dx ∧ (Attempt.move_snake sa).dy = sa.dy) ∧
    ((∀ i, 0 < i → i < sc.length → (Challenge.move_snake sc).body i = sc.body (i - 1)) ∧
      (Challenge.move_snake sc).body 0 =
        { x := (sc.body 0).x + sc.dx, y := (sc.body 0).y + sc.dy } ∧
      (Challenge.move_snake sc).length = sc.length ∧
      (Challenge.move_snake sc).dx = sc.dx ∧ (Challenge.move_snake sc).dy = sc.dy) ∧
    ((∀ i, 0 < i → i < sm.length → (Multiplayer.move_snake sm om).1.body i = sm.body (i - 1)) ∧
      (Multiplayer.move_snake sm om).1.body 0 =
        { x := (sm.body 0).x + sm.dx, y := (sm.body 0).y + sm.dy } ∧
      (Multiplayer.move_snake sm om).1.length = sm.length ∧
      (Multiplayer.move_snake sm om).1.dx = sm.dx ∧
      (Multiplayer.move_snake sm om).1.dy = sm.dy) := by
  refine ⟨⟨?_, ?_, rfl, rfl, rfl⟩, ⟨?_, ?_, rfl, rfl, rfl⟩, ?_⟩
  · intro i h0 h1
    exact moved_body_succ sa.body sa.length _ i h0 h1
  · exact moved_head sa.body sa.length sa.dx sa.dy
  · intro i h0 h1
    exact moved_body_succ sc.body sc.length _ i h0 h1
  · exact moved_head sc.body sc.length sc.dx sc.dy
  · obtain ⟨hb, hl, hdx, hdy, _, _⟩ := Multiplayer.move_snake_frame sm om hmalive
    refine ⟨?_, ?_, hl, hdx, hdy⟩
    · intro i h0 h1
      rw [hb]
      exact moved_body_succ sm.body sm.length _ i h0 h1
    · rw [hb]
      exact moved_head sm.body sm.length sm.dx sm.dy

/-- C1 at the three start snakes of the game. -/
theorem move_snake_segment_following_witness :
    (1 ≤ Attempt.startSnake.length ∧ Attempt.startSnake.length ≤ 100 ∧
      1 ≤ Challenge.startSnake.length ∧ Challenge.startSnake.length ≤ 100 ∧
      1 ≤ Multiplayer.startSnakeA.length ∧ Multiplayer.startSnakeA.length ≤ 100 ∧
      Multiplayer.startSnakeA.alive = true) ∧
    (Attempt.move_snake Attempt.startSnake).body 0 =
      { x := (Attempt.startSnake.body 0).x + Attempt.startSnake.dx,
        y := (Attempt.startSnake.body 0).y + Attempt.startSnake.dy } ∧
    (Challenge.move_snake Challenge.startSnake).length = Challenge.startSnake.length ∧
    (Multiplayer.move_snake Multiplayer.startSnakeA Multiplayer.startSnakeB).1.dx =
      Multiplayer.startSnakeA.dx :=
  have h := move_snake_segment_following Attempt.startSnake Challenge.startSnake
    Multiplayer.startSnakeA Multiplayer.startSnakeB (by decide) (by decide) (by decide)
    (by decide) (by decide) (by decide) rfl
  ⟨⟨by decide, by decide, by decide, by decide, by decide, by decide, rfl⟩,
    h.1.2.1, h.2.1.2.2.1, h.2.2.2.2.2.1⟩

theorem off_grid_iff_not_in_grid (c : Segment) : off_grid c = true ↔ ¬ in_grid c := by
  rw [off_grid_eq_true, in_grid]
  omega

/-- The value of `alive` after the wall test and the self-collision loop of the
single-player `move_snake`, for a snake that was alive. -/
theorem death_rule_aux (body2 : Nat → Segment) (len : Nat) (alive : Bool) (h : alive = true) :
    ((if scanFrom (fun i => same_cell (body2 0).x (body2 0).y (body2 i).x (body2 i).y) 1
          (len - 1) then false
        else (if off_grid (body2 0) then false else alive)) = false) ↔
      (¬ in_grid (body2 0) ∨ ∃ i, 1 ≤ i ∧ i < len ∧ body2 i = body2 0) := by
  subst h
  have hscan : scanFrom (fun i => same_cell (body2 0).x (body2 0).y (body2 i).x (body2 i).y) 1
      (len - 1) = true ↔ ∃ i, 1 ≤ i ∧ i < len ∧ body2 i = body2 0 := by
    rw [scanFrom_eq_true]
    constructor
    · rintro ⟨i, h1, h2, h3⟩
      exact ⟨i, h1, by omega, ((same_cell_eq_true _ _).1 h3).symm⟩
    · rintro ⟨i, h1, h2, h3⟩
      exact ⟨i, h1, by omega, (same_cell_eq_true _ _).2 h3.symm⟩
  rw [← hscan, ← off_grid_iff_not_in_grid]
  by_cases h1 : scanFrom (fun i => same_cell (body2 0).x (body2 0).y (body2 i).x (body2 i).y) 1
      (len - 1) = true <;> by_cases h2 : off_grid (body2 0) = true <;> simp [h1, h2]

/-- C2 (single-player and challenge death rule).  For an alive snake with
`1 ≤ length ≤ 100`, after `move_snake` of `attempt.c` and of `challenge.c` the snake is
dead if and only if the moved head is outside the grid or equals `body[i]` of the shifted
body for some `1 ≤ i < length`; in particular an off-grid head always gives a dead
snake. -/
theorem move_snake_death_rule (sa : Attempt.Snake) (sc : Challenge.Snake)
    (haalive : sa.alive = true) (_ha1 : 1 ≤ sa.length) (_ha2 : sa.length ≤ 100)
    (hcalive : sc.alive = true) (_hc1 : 1 ≤ sc.length) (_hc2 : sc.length ≤ 100) :
    (((Attempt.move_snake sa).alive = false ↔
        (¬ in_grid ((Attempt.move_snake sa).body 0) ∨
          ∃ i, 1 ≤ i ∧ i < sa.length ∧
            (Attempt.move_snake sa).body i = (Attempt.move_snake sa).body 0)) ∧
      (¬ in_grid ((Attempt.move_snake sa).body 0) → (Attempt.move_snake sa).alive = false)) ∧
    (((Challenge.move_snake sc).alive = false ↔
        (¬ in_grid ((Challenge.move_snake sc).body 0) ∨
          ∃ i, 1 ≤ i ∧ i < sc.length ∧
            (Challenge.move_snake sc).body i = (Challenge.move_snake sc).body 0)) ∧
      (¬ in_grid ((Challenge.move_snake sc).body 0) → (Challenge.move_snake sc).alive = false)) := by
  have ha := death_rule_aux (Attempt.move_snake sa).body sa.length sa.alive haalive
  have hc := death_rule_aux (Challenge.move_snake sc).body sc.length sc.alive hcalive
  exact ⟨⟨ha, fun h => ha.2 (Or.inl h)⟩, ⟨hc, fun h => hc.2 (Or.inl h)⟩⟩

/-- C2 at the start snakes of the single-player and the challenge game. -/
theorem move_snake_death_rule_witness :
    (Attempt.startSnake.alive = true ∧ 1 ≤ Attempt.startSnake.length ∧
      Attempt.startSnake.length ≤ 100 ∧ Challenge.startSnake.alive = true ∧
      1 ≤ Challenge.startSnake.length ∧ Challenge.startSnake.length ≤ 100) ∧
    (¬ in_grid ((Attempt.move_snake Attempt.startSnake).body 0) →
      (Attempt.move_snake Attempt.startSnake).alive = false) ∧
    (¬ in_grid ((Challenge.move_snake Challenge.startSnake).body 0) →
      (Challenge.move_snake Challenge.startSnake).alive = false) :=
  have h := move_snake_death_rule Attempt.startSnake Challenge.startSnake rfl (by decide)
    (by decide) rfl (by decide) (by decide)
  ⟨⟨rfl, by decide, by decide, rfl, by decide, by decide⟩, h.1.2, h.2.2⟩

/-- C3 (multiplayer death rule).  For an alive snake `s` and another snake `o` (lengths
between 1 and 100), after `move_snake(s, o)` of `multiplayer.c` the snake `s` is dead if
and only if the moved head is off the grid, or equals one of its own shifted segments
`body[1..length-1]`, or `o` is alive and the moved head equals `o.body[i]` for some
`i < o.length`; when `o` is dead its cells play no part. -/
theorem multiplayer_move_snake_death_rule (s o : Multiplayer.Snake)
    (hs : s.alive = true) (_hs1 : 1 ≤ s.length) (_hs2 : s.length ≤ 100)
    (_ho1 : 1 ≤ o.length) (_ho2 : o.length ≤ 100) :
    ((Multiplayer.move_snake s o).1.alive = false ↔
      (¬ in_grid ((Multiplayer.move_snake s o).1.body 0) ∨
        (∃ i, 1 ≤ i ∧ i < s.length ∧
          (Multiplayer.move_snake s o).1.body i = (Multiplayer.move_snake s o).1.body 0) ∨
        (o.alive = true ∧
          ∃ i, i < o.length ∧ o.body i = (Multiplayer.move_snake s o).1.body 0))) ∧
    (o.alive = false →
      ((Multiplayer.move_snake s o).1.alive = false ↔
        (¬ in_grid ((Multiplayer.move_snake s o).1.body 0) ∨
          ∃ i, 1 ≤ i ∧ i < s.length ∧
            (Multiplayer.move_snake s o).1.body i =
              (Multiplayer.move_snake s o).1.body 0))) := by
  have hb := (Multiplayer.move_snake_frame s o hs).1
  generalize hbody : setAt (shift_body (s.length - 1) s.body) 0
    { x := (shift_body (s.length - 1) s.body 0).x + s.dx,
      y := (shift_body (s.length - 1) s.body 0).y + s.dy } = body2 at hb
  have hself : scanFrom (fun i => same_cell (body2 0).x (body2 0).y (body2 i).x (body2 i).y) 1
      (s.length - 1) = true ↔ ∃ i, 1 ≤ i ∧ i < s.length ∧ body2 i = body2 0 := by
    rw [scanFrom_eq_true]
    constructor
    · rintro ⟨i, h1, h2, h3⟩
      exact ⟨i, h1, by omega, ((same_cell_eq_true _ _).1 h3).symm⟩
    · rintro ⟨i, h1, h2, h3⟩
      exact ⟨i, h1, by omega, (same_cell_eq_true _ _).2 h3.symm⟩
  have hother : scanFrom (fun i => same_cell (body2 0).x (body2 0).y
      (o.body i).x (o.body i).y) 0 o.length = true ↔ ∃ i, i < o.length ∧ o.body i = body2 0 := by
    rw [scanFrom_eq_true]
    constructor
    · rintro ⟨i, _, h2, h3⟩
      exact ⟨i, by omega, ((same_cell_eq_true _ _).1 h3).symm⟩
    · rintro ⟨i, h2, h3⟩
      exact ⟨i, Nat.zero_le _, by omega, (same_cell_eq_true _ _).2 h3.symm⟩
  have halive : (Multiplayer.move_snake s o).1.alive = false ↔
      (off_grid (body2 0) = true ∨
        scanFrom (fun i => same_cell (body2 0).x (body2 0).y (body2 i).x (body2 i).y) 1
          (s.length - 1) = true ∨
        (o.alive = true ∧ scanFrom (fun i => same_cell (body2 0).x (body2 0).y
          (o.body i).x (o.body i).y) 0 o.length = true)) := by
    simp only [Multiplayer.move_snake, hs, Bool.not_true, Bool.false_eq_true, if_false, hbody]
    split_ifs with h1 h2 h3
    · simp [h1]
    · simp [h2]
    · rw [Bool.and_eq_true] at h3
      simp [h3.1, h3.2]
    · rw [Bool.and_eq_true] at h3
      simp [h1, h2, hs]
      intro ho
      exact Bool.eq_false_iff.2 (fun hh => h3 ⟨ho, hh⟩)
  rw [hb, halive, off_grid_iff_not_in_grid, hself, hother]
  refine ⟨Iff.rfl, ?_⟩
  intro ho
  simp [ho]

/-- C3 at the start snakes of the multiplayer game. -/
theorem multiplayer_move_snake_death_rule_witness :
    (Multiplayer.startSnakeA.alive = true ∧ 1 ≤ Multiplayer.startSnakeA.length ∧
      Multiplayer.startSnakeA.length ≤ 100 ∧ 1 ≤ Multiplayer.startSnakeB.length ∧
      Multiplayer.startSnakeB.length ≤ 100) ∧
    ((Multiplayer.move_snake Multiplayer.startSnakeA Multiplayer.startSnakeB).1.alive = false ↔
      (¬ in_grid ((Multiplayer.move_snake Multiplayer.startSnakeA
            Multiplayer.startSnakeB).1.body 0) ∨
        (∃ i, 1 ≤ i ∧ i < Multiplayer.startSnakeA.length ∧
          (Multiplayer.move_snake Multiplayer.startSnakeA Multiplayer.startSnakeB).1.body i =
            (Multiplayer.move_snake Multiplayer.startSnakeA Multiplayer.startSnakeB).1.body 0) ∨
        (Multiplayer.startSnakeB.alive = true ∧
          ∃ i, i < Multiplayer.startSnakeB.length ∧
            Multiplayer.startSnakeB.body i =
              (Multiplayer.move_snake Multiplayer.startSnakeA
                Multiplayer.startSnakeB).1.body 0))) :=
  ⟨⟨rfl, by decide, by decide, by decide, by decide⟩,
    (multiplayer_move_snake_death_rule Multiplayer.startSnakeA Multiplayer.startSnakeB rfl
      (by decide) (by decide) (by decide) (by decide)).1⟩

/-- C4 (a dead snake is never mutated).  In `multiplayer.c`, `move_snake(s, o)` on a snake
`s` with `alive = false` leaves `s` and `o` unchanged, field by field. -/
theorem move_snake_dead_unchanged (s o : Multiplayer.Snake) (hs : s.alive = false) :
    (Multiplayer.move_snake s o).1.body = s.body ∧
    (Multiplayer.move_snake s o).1.length = s.length ∧
    (Multiplayer.move_snake s o).1.dx = s.dx ∧
    (Multiplayer.move_snake s o).1.dy = s.dy ∧
    (Multiplayer.move_snake s o).1.alive = s.alive ∧
    (Multiplayer.move_snake s o).1.score = s.score ∧
    (Multiplayer.move_snake s o).2 = o ∧
    Multiplayer.move_snake s o = (s, o) := by
  have h : Multiplayer.move_snake s o = (s, o) := by
    simp [Multiplayer.move_snake, hs]
  rw [h]
  exact ⟨rfl, rfl, rfl, rfl, rfl, rfl, rfl, rfl⟩

/-- C4 at snake A killed at its start position, next to a live snake B. -/
theorem move_snake_dead_unchanged_witness :
    ({ Multiplayer.startSnakeA with alive := false } : Multiplayer.Snake).alive = false ∧
    Multiplayer.move_snake { Multiplayer.startSnakeA with alive := false }
        Multiplayer.startSnakeB =
      ({ Multiplayer.startSnakeA with alive := false }, Multiplayer.startSnakeB) :=
  ⟨rfl, (move_snake_dead_unchanged { Multiplayer.startSnakeA with alive := false }
    Multiplayer.startSnakeB rfl).2.2.2.2.2.2.2⟩

/-! ## Growth -/

/-- C5 (`grow_snake` of `attempt.c` and `challenge.c`).  For a snake with
`1 ≤ length < 100` the length grows by 1, the new last segment `body[old length]` is the
old tail `body[old length - 1]`, and the segments `body[0..old length-1]`, `dx`, `dy` and
`alive` are unchanged; a snake with `length = 100` is left as it is. -/
theorem grow_snake_spec (sa fa : Attempt.Snake) (sc fc : Challenge.Snake)
    (_ha1 : 1 ≤ sa.length) (ha2 : sa.length < 100) (hfa : fa.length = 100)
    (_hc1 : 1 ≤ sc.length) (hc2 : sc.length < 100) (hfc : fc.length = 100) :
    ((Attempt.grow_snake sa).length = sa.length + 1 ∧
      (Attempt.grow_snake sa).body sa.length = sa.body (sa.length - 1) ∧
      (∀ i, i < sa.length → (Attempt.grow_snake sa).body i = sa.body i) ∧
      (Attempt.grow_snake sa).dx = sa.dx ∧ (Attempt.grow_snake sa).dy = sa.dy ∧
      (Attempt.grow_snake sa).alive = sa.alive) ∧
    Attempt.grow_snake fa = fa ∧
    ((Challenge.grow_snake sc).length = sc.length + 1 ∧
      (Challenge.grow_snake sc).body sc.length = sc.body (sc.length - 1) ∧
      (∀ i, i < sc.length → (Challenge.grow_snake sc).body i = sc.body i) ∧
      (Challenge.grow_snake sc).dx = sc.dx ∧ (Challenge.grow_snake sc).dy = sc.dy ∧
      (Challenge.grow_snake sc).alive = sc.alive) ∧
    Challenge.grow_snake fc = fc := by
  refine ⟨?_, ?_, ?_, ?_⟩
  · rw [Attempt.grow_snake, if_pos ha2]
    exact ⟨rfl, setAt_same _ _ _, fun i hi => setAt_other _ _ _ _ (by omega), rfl, rfl, rfl⟩
  · rw [Attempt.grow_snake, if_neg (by omega)]
  · rw [Challenge.grow_snake, if_pos hc2]
    exact ⟨rfl, setAt_same _ _ _, fun i hi => setAt_other _ _ _ _ (by omega), rfl, rfl, rfl⟩
  · rw [Challenge.grow_snake, if_neg (by omega)]

/-- C5 at the start snakes and at the snakes of length 100. -/
theorem grow_snake_spec_witness :
    (1 ≤ Attempt.startSnake.length ∧ Attempt.startSnake.length < 100 ∧
      Attempt.fullSnake.length = 100 ∧ 1 ≤ Challenge.startSnake.length ∧
      Challenge.startSnake.length < 100 ∧ Challenge.fullSnake.length = 100) ∧
    (Attempt.grow_snake Attempt.startSnake).length = Attempt.startSnake.length + 1 ∧
    Attempt.grow_snake Attempt.fullSnake = Attempt.fullSnake ∧
    (Challenge.grow_snake Challenge.startSnake).length = Challenge.startSnake.length + 1 ∧
    Challenge.grow_snake Challenge.fullSnake = Challenge.fullSnake :=
  have h := grow_snake_spec Attempt.startSnake Attempt.fullSnake Challenge.startSnake
    Challenge.fullSnake (by decide) (by decide) rfl (by decide) (by decide) rfl
  ⟨⟨by decide, by decide, rfl, by decide, by decide, rfl⟩, h.1.1, h.2.1, h.2.2.1.1, h.2.2.2⟩

/-- C6 (capacity guard in the multiplayer variant), evaluated on the code: `grow_snake` of
`multiplayer.c` has no capacity test and is not a no-op at length 100.  On the snake of
length 100 with `dx = 0` whose tail `body[99]` is `(28, 4)`, the store at index 100, one
past the last element `body[99]`, lands on the fields `length` and `dx`: after the call
the length is 29 and `dx` is 4.  On every snake of length 100 the call leaves
`length = body[99].x + 1` and `dx = body[99].y` and keeps `body`, `dy`, `alive` and
`score`.  The guarded `grow_snake` of `attempt.c` and `challenge.c` keeps length 100 and
`dx = 0` on the same snake. -/
theorem multiplayer_grow_snake_unguarded :
    Multiplayer.fullSnake.length = 100 ∧
    Multiplayer.fullSnake.dx = 0 ∧
    Multiplayer.fullSnake.body 99 = { x := 28, y := 4 } ∧
    (Multiplayer.grow_snake Multiplayer.fullSnake).length = 29 ∧
    (Multiplayer.grow_snake Multiplayer.fullSnake).dx = 4 ∧
    (∀ s : Multiplayer.Snake,
      (Multiplayer.grow_snake { s with length := 100 }).length = ((s.body 99).x + 1).toNat ∧
      (Multiplayer.grow_snake { s with length := 100 }).dx = (s.body 99).y ∧
      (Multiplayer.grow_snake { s with length := 100 }).body = s.body ∧
      (Multiplayer.grow_snake { s with length := 100 }).dy = s.dy ∧
      (Multiplayer.grow_snake { s with length := 100 }).alive = s.alive ∧
      (Multiplayer.grow_snake { s with length := 100 }).score = s.score) ∧
    (Attempt.grow_snake Attempt.fullSnake).length = 100 ∧
    (Attempt.grow_snake Attempt.fullSnake).dx = 0 ∧
    (Challenge.grow_snake Challenge.fullSnake).length = 100 ∧
    (Challenge.grow_snake Challenge.fullSnake).dx = 0 := by
  refine ⟨rfl, rfl, by decide, by decide, by decide, ?_, rfl, rfl, rfl, rfl⟩
  intro s
  exact ⟨rfl, rfl, rfl, rfl, rfl, rfl⟩

/-- The body after `grow_snake` (on a snake below capacity) followed by the shift and the
head move of `move_snake`: the new head, then the whole old body. -/
theorem grown_moved_body (body : Nat → Segment) (len : Nat) (dx dy : Int) (h1 : 1 ≤ len) :
    setAt (shift_body (len + 1 - 1) (setAt body len (body (len - 1)))) 0
        { x := (shift_body (len + 1 - 1) (setAt body len (body (len - 1))) 0).x + dx,
          y := (shift_body (len + 1 - 1) (setAt body len (body (len - 1))) 0).y + dy } 0 =
      { x := (body 0).x + dx, y := (body 0).y + dy } ∧
    ∀ i, i < len →
      setAt (shift_body (len + 1 - 1) (setAt body len (body (len - 1)))) 0
        { x := (shift_body (len + 1 - 1) (setAt body len (body (len - 1))) 0).x + dx,
          y := (shift_body (len + 1 - 1) (setAt body len (body (len - 1))) 0).y + dy }
        (i + 1) = body i := by
  constructor
  · rw [moved_head, setAt_other _ _ _ _ (by omega)]
  · intro i hi
    rw [moved_body_succ _ _ _ _ (by omega) (by omega), Nat.add_sub_cancel,
      setAt_other _ _ _ _ (by omega)]

theorem manhattan_step (c : Segment) (dx dy : Int) (hv : unit_velocity dx dy) :
    manhattan { x := c.x + dx, y := c.y + dy } c = 1 := by
  rcases hv with ⟨h1, h2⟩ | ⟨h1, h2⟩ | ⟨h1, h2⟩ | ⟨h1, h2⟩ <;> subst h1 <;> subst h2 <;>
    simp [manhattan]

/-- The body described by `grown_moved_body` is continuous when the old body was and the
velocity is a unit step. -/
theorem continuous_of_head_then_old (b2 body : Nat → Segment) (len : Nat) (dx dy : Int)
    (hv : unit_velocity dx dy)
    (hcont : ∀ i, i + 1 < len → manhattan (body i) (body (i + 1)) = 1)
    (h0 : b2 0 = { x := (body 0).x + dx, y := (body 0).y + dy })
    (hs : ∀ i, i < len → b2 (i + 1) = body i) :
    ∀ i, i + 1 < len + 1 → manhattan (b2 i) (b2 (i + 1)) = 1 := by
  intro i hi
  cases i with
  | zero =>
    rw [h0, hs 0 (by omega)]
    exact manhattan_step _ _ _ hv
  | succ j =>
    rw [hs j (by omega), hs (j + 1) (by omega)]
    exact hcont j (by omega)

/-- C7 (grow followed immediately by advance).  For an alive snake with
`1 ≤ length < 100`, a unit velocity and consecutive segments at Manhattan distance 1,
after `grow_snake` then `move_snake` (of `attempt.c`, and of `challenge.c`) the length is
the old length plus 1, the body is the new head followed by the whole old body in order,
and every pair of consecutive segments is at Manhattan distance exactly 1. -/
theorem grow_then_move_continuous (sa : Attempt.Snake) (sc : Challenge.Snake)
    (_haalive : sa.alive = true) (ha1 : 1 ≤ sa.length) (ha2 : sa.length < 100)
    (hav : unit_velocity sa.dx sa.dy)
    (hacont : ∀ i, i + 1 < sa.length → manhattan (sa.body i) (sa.body (i + 1)) = 1)
    (_hcalive : sc.alive = true) (hc1 : 1 ≤ sc.length) (hc2 : sc.length < 100)
    (hcv : unit_velocity sc.dx sc.dy)
    (hccont : ∀ i, i + 1 < sc.length → manhattan (sc.body i) (sc.body (i + 1)) = 1) :
    ((Attempt.move_snake (Attempt.grow_snake sa)).length = sa.length + 1 ∧
      (Attempt.move_snake (Attempt.grow_snake sa)).body 0 =
        { x := (sa.body 0).x + sa.dx, y := (sa.body 0).y + sa.dy } ∧
      (∀ i, i < sa.length →
        (Attempt.move_snake (Attempt.grow_snake sa)).body (i + 1) = sa.body i) ∧
      (∀ i, i + 1 < (Attempt.move_snake (Attempt.grow_snake sa)).length →
        manhattan ((Attempt.move_snake (Attempt.grow_snake sa)).body i)
          ((Attempt.move_snake (Attempt.grow_snake sa)).body (i + 1)) = 1)) ∧
    ((Challenge.move_snake (Challenge.grow_snake sc)).length = sc.length + 1 ∧
      (Challenge.move_snake (Challenge.grow_snake sc)).body 0 =
        { x := (sc.body 0).x + sc.dx, y := (sc.body 0).y + sc.dy } ∧
      (∀ i, i < sc.length →
        (Challenge.move_snake (Challenge.grow_snake sc)).body (i + 1) = sc.body i) ∧
      (∀ i, i + 1 < (Challenge.move_snake (Challenge.grow_snake sc)).length →
        manhattan ((Challenge.move_snake (Challenge.grow_snake sc)).body i)
          ((Challenge.move_snake (Challenge.grow_snake sc)).body (i + 1)) = 1)) := by
  constructor
  · rw [Attempt.grow_snake, if_pos ha2]
    have hb := grown_moved_body sa.body sa.length sa.dx sa.dy ha1
    exact ⟨rfl, hb.1, hb.2,
      continuous_of_head_then_old _ sa.body sa.length sa.dx sa.dy hav hacont hb.1 hb.2⟩
  · rw [Challenge.grow_snake, if_pos hc2]
    have hb := grown_moved_body sc.body sc.length sc.dx sc.dy hc1
    exact ⟨rfl, hb.1, hb.2,
      continuous_of_head_then_old _ sc.body sc.length sc.dx sc.dy hcv hccont hb.1 hb.2⟩

/-- C7 at the start snakes of the single-player and the challenge game. -/
theorem grow_then_move_continuous_witness :
    (Attempt.startSnake.alive = true ∧ 1 ≤ Attempt.startSnake.length ∧
      Attempt.startSnake.length < 100 ∧
      unit_velocity Attempt.startSnake.dx Attempt.startSnake.dy ∧
      Challenge.startSnake.alive = true ∧ 1 ≤ Challenge.startSnake.length ∧
      Challenge.startSnake.length < 100 ∧
      unit_velocity Challenge.startSnake.dx Challenge.startSnake.dy) ∧
    (Attempt.move_snake (Attempt.grow_snake Attempt.startSnake)).length = 6 ∧
    (Attempt.move_snake (Attempt.grow_snake Attempt.startSnake)).body 0 = { x := 6, y := 5 } ∧
    (Challenge.move_snake (Challenge.grow_snake Challenge.startSnake)).length = 4 ∧
    (Challenge.move_snake (Challenge.grow_snake Challenge.startSnake)).body 0 =
      { x := 17, y := 12 } :=
  have h := grow_then_move_continuous Attempt.startSnake Challenge.startSnake
    rfl (by decide) (by decide) (by decide)
    (fun i _ => by simp [manhattan, Attempt.startSnake])
    rfl (by decide) (by decide) (by decide)
    (fun i _ => by simp [manhattan, Challenge.startSnake])
  ⟨⟨rfl, by decide, by decide, by decide, rfl, by decide, by decide, by decide⟩,
    h.1.1, h.1.2.1, h.2.1, h.2.2.1⟩

/-! ## Placement -/

theorem scan_cells_false (x y : Int) (cx cy : Nat → Int) (n : Nat) :
    scanFrom (fun i => same_cell x y (cx i) (cy i)) 0 n = false ↔
      ∀ i, i < n → ¬ (x = cx i ∧ y = cy i) := by
  rw [← Bool.not_eq_true, scanFrom_eq_true]
  constructor
  · intro h i hi hc
    exact h ⟨i, Nat.zero_le _, by omega, by simp [same_cell, hc.1, hc.2]⟩
  · rintro h ⟨i, _, hi, hc⟩
    refine h i (by omega) ?_
    simpa [same_cell] using hc

theorem sample_in_grid (a b : Nat) :
    in_grid { x := (a : Int) % GRID_WIDTH, y := (b : Int) % GRID_HEIGHT } := by
  simp only [in_grid, GRID_WIDTH, GRID_HEIGHT]
  omega

theorem attempt_place_food_some (fuel : Nat) (rnd : Rand) (food : Attempt.Food)
    (snake : Attempt.Snake) (r : Attempt.Food × Attempt.Snake × Rand)
    (h : Attempt.place_food fuel rnd food snake = some r) :
    in_grid { x := r.1.x, y := r.1.y } ∧
      (∀ i, i < snake.length → ¬ (r.1.x = (snake.body i).x ∧ r.1.y = (snake.body i).y)) ∧
      r.2.1 = snake := by
  induction fuel generalizing rnd food with
  | zero => simp [Attempt.place_food] at h
  | succ fuel ih =>
    rw [Attempt.place_food] at h
    simp only [] at h
    split_ifs at h with hv
    · cases h
      rw [Bool.not_eq_true', scan_cells_false] at hv
      exact ⟨sample_in_grid _ _, hv, rfl⟩
    · exact ih _ _ h

theorem multiplayer_place_food_some (fuel : Nat) (rnd : Rand) (food : Multiplayer.Food)
    (snakeA snakeB : Multiplayer.Snake)
    (r : Multiplayer.Food × Multiplayer.Snake × Multiplayer.Snake × Rand)
    (h : Multiplayer.place_food fuel rnd food snakeA snakeB = some r) :
    in_grid { x := r.1.x, y := r.1.y } ∧
      (∀ i, i < snakeA.length → ¬ (r.1.x = (snakeA.body i).x ∧ r.1.y = (snakeA.body i).y)) ∧
      (∀ i, i < snakeB.length → ¬ (r.1.x = (snakeB.body i).x ∧ r.1.y = (snakeB.body i).y)) ∧
      r.1.active = true ∧ r.2.1 = snakeA ∧ r.2.2.1 = snakeB := by
  induction fuel generalizing rnd food with
  | zero => simp [Multiplayer.place_food] at h
  | succ fuel ih =>
    rw [Multiplayer.place_food] at h
    simp only [] at h
    split_ifs at h with hA hv
    · cases h
      rw [Bool.not_eq_true', scan_cells_false] at hA hv
      exact ⟨sample_in_grid _ _, hA, hv, rfl, rfl, rfl⟩
    · exact ih _ _ h
    · exact ih _ _ h

/-- The sampling loop of `place_food` (`attempt.c`) returns as soon as a sample is free:
if sample number `k` of the stream is on no snake cell, `k + 1` iterations are enough. -/
theorem attempt_place_food_returns (k : Nat) (rnd : Rand) (food : Attempt.Food)
    (snake : Attempt.Snake)
    (hfree : scanFrom (fun i => same_cell ((rnd (2 * k) : Int) % GRID_WIDTH)
      ((rnd (2 * k + 1) : Int) % GRID_HEIGHT) (snake.body i).x (snake.body i).y) 0
      snake.length = false) :
    ∃ r, Attempt.place_food (k + 1) rnd food snake = some r := by
  induction k generalizing rnd food with
  | zero =>
    rw [Attempt.place_food]
    simp only []
    rw [if_pos (by simpa using hfree)]
    exact ⟨_, rfl⟩
  | succ k ih =>
    rw [Attempt.place_food]
    simp only []
    split_ifs with hv
    · exact ⟨_, rfl⟩
    · apply ih
      have h1 : 2 * k + 2 = 2 * (k + 1) := by omega
      have h2 : 2 * k + 1 + 2 = 2 * (k + 1) + 1 := by omega
      simpa [Rand.drop, h1, h2] using hfree

/-- The sampling loop of `place_food` (`multiplayer.c`) returns as soon as a sample is
free of both snakes. -/
theorem multiplayer_place_food_returns (k : Nat) (rnd : Rand) (food : Multiplayer.Food)
    (snakeA snakeB : Multiplayer.Snake)
    (hfreeA : scanFrom (fun i => same_cell ((rnd (2 * k) : Int) % GRID_WIDTH)
      ((rnd (2 * k + 1) : Int) % GRID_HEIGHT) (snakeA.body i).x (snakeA.body i).y) 0
      snakeA.length = false)
    (hfreeB : scanFrom (fun i => same_cell ((rnd (2 * k) : Int) % GRID_WIDTH)
      ((rnd (2 * k + 1) : Int) % GRID_HEIGHT) (snakeB.body i).x (snakeB.body i).y) 0
      snakeB.length = false) :
    ∃ r, Multiplayer.place_food (k + 1) rnd food snakeA snakeB = some r := by
  induction k generalizing rnd food with
  | zero =>
    rw [Multiplayer.place_food]
    simp only []
    rw [if_pos (by simpa using And.intro hfreeA hfreeB)]
    exact ⟨_, rfl⟩
  | succ k ih =>
    have h1 : 2 * k + 2 = 2 * (k + 1) := by omega
    have h2 : 2 * k + 1 + 2 = 2 * (k + 1) + 1 := by omega
    rw [Multiplayer.place_food]
    simp only []
    split_ifs with hA hv
    · exact ⟨_, rfl⟩
    · apply ih
      · simpa [Rand.drop, h1, h2] using hfreeA
      · simpa [Rand.drop, h1, h2] using hfreeB
    · apply ih
      · simpa [Rand.drop, h1, h2] using hfreeA
      · simpa [Rand.drop, h1, h2] using hfreeB

/-- C8 (placement never lands on a snake).  With `rand()` an arbitrary stream, whenever
`place_food` returns, the food cell is inside the 32x24 grid and differs from `body[i]`
for every `i < length` of the snake (`attempt.c`) and of both snakes (`multiplayer.c`,
where the food is also marked active); the snakes are unchanged. -/
theorem place_food_avoids_snakes
    (fuel : Nat) (rnd : Rand) (food : Attempt.Food) (snake : Attempt.Snake)
    (food1 : Attempt.Food) (snake1 : Attempt.Snake) (rnd1 : Rand)
    (fuelM : Nat) (rndM : Rand) (foodM : Multiplayer.Food) (snakeA snakeB : Multiplayer.Snake)
    (foodM1 : Multiplayer.Food) (snakeA1 snakeB1 : Multiplayer.Snake) (rndM1 : Rand)
    (ha : Attempt.place_food fuel rnd food snake = some (food1, snake1, rnd1))
    (hm : Multiplayer.place_food fuelM rndM foodM snakeA snakeB =
      some (foodM1, snakeA1, snakeB1, rndM1)) :
    ((0 ≤ food1.x ∧ food1.x < 32 ∧ 0 ≤ food1.y ∧ food1.y < 24) ∧
      (∀ i, i < snake.length → ¬ (food1.x = (snake.body i).x ∧ food1.y = (snake.body i).y)) ∧
      snake1 = snake) ∧
    ((0 ≤ foodM1.x ∧ foodM1.x < 32 ∧ 0 ≤ foodM1.y ∧ foodM1.y < 24) ∧
      (∀ i, i < snakeA.length →
        ¬ (foodM1.x = (snakeA.body i).x ∧ foodM1.y = (snakeA.body i).y)) ∧
      (∀ i, i < snakeB.length →
        ¬ (foodM1.x = (snakeB.body i).x ∧ foodM1.y = (snakeB.body i).y)) ∧
      foodM1.active = true ∧ snakeA1 = snakeA ∧ snakeB1 = snakeB) :=
  ⟨attempt_place_food_some fuel rnd food snake _ ha,
    multiplayer_place_food_some fuelM rndM foodM snakeA snakeB _ hm⟩

/-- C8 on two streams whose first sample is rejected: the head `(5, 5)` of the
single-player snake, and the head `(26, 18)` of snake B; both calls return the next
sample `(7, 7)`. -/
theorem place_food_avoids_snakes_witness :
    (Attempt.place_food 2 rndPairs { x := 0, y := 0 } Attempt.startSnake =
        some ({ x := 7, y := 7 }, Attempt.startSnake, Rand.drop 2 (Rand.drop 2 rndPairs)) ∧
      Multiplayer.place_food 2 rndOnB { x := 0, y := 0, active := false }
          Multiplayer.startSnakeA Multiplayer.startSnakeB =
        some ({ x := 7, y := 7, active := true }, Multiplayer.startSnakeA,
          Multiplayer.startSnakeB, Rand.drop 2 (Rand.drop 2 rndOnB))) ∧
    (∀ i, i < Attempt.startSnake.length →
      ¬ ((7 : Int) = (Attempt.startSnake.body i).x ∧ (7 : Int) = (Attempt.startSnake.body i).y)) :=
  ⟨⟨rfl, rfl⟩,
    (place_food_avoids_snakes 2 rndPairs { x := 0, y := 0 } Attempt.startSnake
      { x := 7, y := 7 } Attempt.startSnake (Rand.drop 2 (Rand.drop 2 rndPairs))
      2 rndOnB { x := 0, y := 0, active := false } Multiplayer.startSnakeA
      Multiplayer.startSnakeB { x := 7, y := 7, active := true } Multiplayer.startSnakeA
      Multiplayer.startSnakeB (Rand.drop 2 (Rand.drop 2 rndOnB)) rfl rfl).1.2.1⟩

/-- The flag logic of `valid_position`: `a`, `b`, `c` are the results of the snake, the
obstacle and the food search. -/
theorem valid_position_flags (a b c hasObstacles multiFruit : Bool)
    (h : (if ((if (!a && hasObstacles) = true then !b else !a) && multiFruit) = true then !c
      else (if (!a && hasObstacles) = true then !b else !a)) = true) :
    a = false ∧ (hasObstacles = true → b = false) ∧ (multiFruit = true → c = false) := by
  revert h
  cases a <;> cases b <;> cases c <;> cases hasObstacles <;> cases multiFruit <;> simp

theorem valid_position_true (x y : Int) (snake : Challenge.Snake)
    (config : Challenge.GameConfig) (h : Challenge.valid_position x y snake config = true) :
    (∀ i, i < snake.length → ¬ (x = (snake.body i).x ∧ y = (snake.body i).y)) ∧
      (config.hasObstacles = true → ∀ i, i < config.obstacleCount →
        ¬ (x = (config.obstacles i).x ∧ y = (config.obstacles i).y)) ∧
      (config.multiFruit = true → ∀ i, i < config.foodCount →
        ¬ (x = (config.foods i).x ∧ y = (config.foods i).y)) := by
  have hs := scan_cells_false x y (fun i => (snake.body i).x) (fun i => (snake.body i).y)
    snake.length
  have ho := scan_cells_false x y (fun i => (config.obstacles i).x)
    (fun i => (config.obstacles i).y) config.obstacleCount
  have hf := scan_cells_false x y (fun i => (config.foods i).x) (fun i => (config.foods i).y)
    config.foodCount
  have hb := valid_position_flags _ _ _ _ _ h
  exact ⟨hs.1 hb.1, fun hO => ho.1 (hb.2.1 hO), fun hM => hf.1 (hb.2.2 hM)⟩

theorem sample_cell_some (fuel : Nat) (rnd : Rand) (snake : Challenge.Snake)
    (config : Challenge.GameConfig) (r : Int × Int × Rand)
    (h : Challenge.sample_cell fuel rnd snake config = some r) :
    in_grid { x := r.1, y := r.2.1 } ∧ Challenge.valid_position r.1 r.2.1 snake config = true := by
  induction fuel generalizing rnd with
  | zero => simp [Challenge.sample_cell] at h
  | succ fuel ih =>
    rw [Challenge.sample_cell] at h
    split_ifs at h with hv
    · cases h
      exact ⟨sample_in_grid _ _, hv⟩
    · exact ih _ h

theorem challenge_place_food_cell (fuel : Nat) (rnd : Rand) (food : Challenge.Food)
    (snake : Challenge.Snake) (config : Challenge.GameConfig) (r : Challenge.Food × Rand)
    (h : Challenge.place_food fuel rnd food snake config = some r) :
    in_grid { x := r.1.x, y := r.1.y } ∧
      Challenge.valid_position r.1.x r.1.y snake config = true := by
  unfold Challenge.place_food at h
  cases hc : Challenge.sample_cell fuel rnd snake config with
  | none => simp [hc] at h
  | some c =>
    obtain ⟨x, y, rnd1⟩ := c
    have hcell := sample_cell_some fuel rnd snake config _ hc
    simp only [hc] at h
    split_ifs at h with hmov
    · cases hd : Challenge.sample_direction fuel rnd1 with
      | none => simp [hd] at h
      | some d =>
        obtain ⟨dx, dy, rnd2⟩ := d
        simp only [hd] at h
        cases h
        exact hcell
    · cases h
      exact hcell

/-- C9 (challenge-mode food placement).  Whenever `place_food` of `challenge.c` returns,
the chosen cell is inside the 32x24 grid, is no snake cell `body[0..length-1]`, is not the
cell of any of the `obstacleCount` obstacles when `hasObstacles` is set, and is not the
cell held before the call by any of the `foodCount` foods when `multiFruit` is set. -/
theorem challenge_place_food_avoids_occupied
    (fuel : Nat) (rnd : Rand) (food : Challenge.Food) (snake : Challenge.Snake)
    (config : Challenge.GameConfig) (food1 : Challenge.Food) (rnd1 : Rand)
    (h : Challenge.place_food fuel rnd food snake config = some (food1, rnd1)) :
    (0 ≤ food1.x ∧ food1.x < 32 ∧ 0 ≤ food1.y ∧ food1.y < 24) ∧
    (∀ i, i < snake.length → ¬ (food1.x = (snake.body i).x ∧ food1.y = (snake.body i).y)) ∧
    (config.hasObstacles = true → ∀ i, i < config.obstacleCount →
      ¬ (food1.x = (config.obstacles i).x ∧ food1.y = (config.obstacles i).y)) ∧
    (config.multiFruit = true → ∀ i, i < config.foodCount →
      ¬ (food1.x = (config.foods i).x ∧ food1.y = (config.foods i).y)) := by
  have hc := challenge_place_food_cell fuel rnd food snake config _ h
  exact ⟨hc.1, valid_position_true _ _ snake config hc.2⟩

/-- C9 on a stream whose first three samples are rejected in turn by the snake, an
obstacle and another fruit: the call returns the fourth sample `(7, 7)` with the second
sampled direction `(1, -1)`. -/
theorem challenge_place_food_avoids_occupied_witness :
    Challenge.place_food 4 rndBusy (Challenge.busyConfig.foods 1) Challenge.startSnake
        Challenge.busyConfig =
      some ({ x := 7, y := 7, value := 1, type := 0, moving := true, dx := 1, dy := -1 },
        Rand.drop 2 (Rand.drop 2 (Rand.drop 2 (Rand.drop 2 (Rand.drop 2 (Rand.drop 2 rndBusy)))))) ∧
    (Challenge.busyConfig.hasObstacles = true → ∀ i, i < Challenge.busyConfig.obstacleCount →
      ¬ ((7 : Int) = (Challenge.busyConfig.obstacles i).x ∧
        (7 : Int) = (Challenge.busyConfig.obstacles i).y)) :=
  ⟨rfl,
    (challenge_place_food_avoids_occupied 4 rndBusy (Challenge.busyConfig.foods 1)
      Challenge.startSnake Challenge.busyConfig
      { x := 7, y := 7, value := 1, type := 0, moving := true, dx := 1, dy := -1 }
      (Rand.drop 2 (Rand.drop 2 (Rand.drop 2 (Rand.drop 2 (Rand.drop 2 (Rand.drop 2 rndBusy))))))
      rfl).2.2.1⟩

/-- C10 (multiplayer foods occupy unoccupied cells), evaluated on the code.  On the state
that `reset_game` of `multiplayer.c` hands to `ensure_minimum_fruits` (both start snakes,
no active fruit, `count = FRUIT_COUNT * 2`) and a `rand()` stream whose first two samples
name the same cell, the call returns with `foods[0]` and `foods[1]` both active on the
cell `(7, 7)`: the second `place_food` call lands on the cell of the active `foods[0]`. -/
theorem multiplayer_fruits_share_cell :
    (Multiplayer.ensure_minimum_fruits 2 rndRepeat Multiplayer.noFoods
        (Multiplayer.FRUIT_COUNT * 2) Multiplayer.startSnakeA Multiplayer.startSnakeB).map
        (fun r => (r.1 0, r.1 1)) =
      some ({ x := 7, y := 7, active := true }, { x := 7, y := 7, active := true }) ∧
    (Multiplayer.place_food 1 (Rand.drop 2 rndRepeat) (Multiplayer.noFoods 1)
        Multiplayer.startSnakeA Multiplayer.startSnakeB).map (fun r => r.1) =
      some { x := 7, y := 7, active := true } :=
  ⟨rfl, rfl⟩

/-! ## Mode configuration -/

/-- The generated name depends on the feature flags only, not on the configuration it is
written into. -/
theorem mode_name_of_zeroConfig (config : Challenge.GameConfig)
    (features : Challenge.GameFeatures) :
    (Challenge.generate_mode_name config features).modeName =
      (Challenge.generate_mode_name Challenge.zeroConfig features).modeName := by
  obtain ⟨a, b, c, d, e, f⟩ := features
  cases a <;> cases b <;> cases c <;> cases d <;> cases e <;> rfl

/-- `generate_mode_name` writes `modeName` and nothing else. -/
theorem generate_mode_name_frame (config : Challenge.GameConfig)
    (features : Challenge.GameFeatures) :
    Challenge.generate_mode_name config features =
      { config with modeName := (Challenge.generate_mode_name config features).modeName } := by
  obtain ⟨a, b, c, d, e, f⟩ := features
  cases a <;> cases b <;> cases c <;> cases d <;> cases e <;> rfl

/-- C12, as the code has it.  For the feature set `{timed, obstacles, movingFruit}` with
`multiFruit` and `speed` unset, `generate_mode_name` produces
`"TIMED+MVG-OBSTACLE+MVG-FRUIT"`: the obstacle token is followed by the `MVG-FRUIT`
token, which is added whenever `movingFruit` is set and `multiFruit` is not. -/
theorem mode_name_timed_obstacles_moving (config : Challenge.GameConfig) (chaos : Bool) :
    (Challenge.generate_mode_name config
      { movingFruit := true, multiFruit := false, timed := true, obstacles := true,
        speed := false, chaos := chaos }).modeName = "TIMED+MVG-OBSTACLE+MVG-FRUIT" := by
  rw [mode_name_of_zeroConfig]
  cases chaos <;> decide

/-- C12 as stated fails: the name generated for `{timed, obstacles, movingFruit}` is not
`"TIMED+MVG-OBSTACLE"`. -/
theorem mode_name_timed_obstacles_moving_counterexample :
    (Challenge.generate_mode_name Challenge.zeroConfig
      { movingFruit := true, multiFruit := false, timed := true, obstacles := true,
        speed := false, chaos := false }).modeName ≠ "TIMED+MVG-OBSTACLE" := by
  decide

/-- C13 (mode name against its reference definition).  For each of the 32 combinations
of `movingFruit`, `multiFruit`, `timed`, `obstacles`, `speed`, and whatever the `chaos`
field, the name written by `generate_mode_name` is the reference name: `"CHAOS MODE"`
exactly when all five flags are set, `"CLASSIC"` exactly when none is, otherwise the
`+`-joined tokens `SPEED`, `TIMED`, `[MVG-]OBSTACLE`, `MULTI-FRUIT | MVG-FRUIT`; it is
never empty and neither begins nor ends with `+`. -/
theorem mode_name_matches_reference (config : Challenge.GameConfig)
    (features : Challenge.GameFeatures) (chaos : Bool) :
    (Challenge.generate_mode_name config features).modeName =
      Challenge.mode_name_reference features ∧
    (Challenge.generate_mode_name config { features with chaos := chaos }).modeName =
      (Challenge.generate_mode_name config features).modeName ∧
    ((Challenge.generate_mode_name config features).modeName = "CHAOS MODE" ↔
      (features.movingFruit = true ∧ features.multiFruit = true ∧ features.timed = true ∧
        features.obstacles = true ∧ features.speed = true)) ∧
    ((Challenge.generate_mode_name config features).modeName = "CLASSIC" ↔
      (features.movingFruit = false ∧ features.multiFruit = false ∧ features.timed = false ∧
        features.obstacles = false ∧ features.speed = false)) ∧
    (Challenge.generate_mode_name config features).modeName ≠ "" ∧
    (Challenge.generate_mode_name config features).modeName.data.head? ≠ some '+' ∧
    (Challenge.generate_mode_name config features).modeName.data.getLast? ≠ some '+' := by
  rw [mode_name_of_zeroConfig config features, mode_name_of_zeroConfig config]
  obtain ⟨a, b, c, d, e, f⟩ := features
  cases a <;> cases b <;> cases c <;> cases d <;> cases e <;> cases f <;> cases chaos <;>
    decide

/-- C14 (`configure_game` derives the ruleset from the feature flags).  `updateDelay` is
100 with `speed` and 150 without; `maxTime` and `timeRemaining` are 60 with `timed` and 0
without; `fruitMoveInterval` is 500 with `movingFruit` and 0 without; `hasObstacles` is
the `obstacles` flag; `movingObstacles` holds exactly when `obstacles` and `movingFruit`
are both set; `obstacleCount` and `foodCount` are 0. -/
theorem configure_game_ruleset (config : Challenge.GameConfig)
    (features : Challenge.GameFeatures) (snake : Challenge.Snake) :
    (Challenge.configure_game config features snake).updateDelay =
      (if features.speed = true then 100 else 150) ∧
    (Challenge.configure_game config features snake).maxTime =
      (if features.timed = true then 60 else 0) ∧
    (Challenge.configure_game config features snake).timeRemaining =
      (if features.timed = true then 60 else 0) ∧
    (Challenge.configure_game config features snake).fruitMoveInterval =
      (if features.movingFruit = true then 500 else 0) ∧
    (Challenge.configure_game config features snake).hasObstacles = features.obstacles ∧
    ((Challenge.configure_game config features snake).movingObstacles = true ↔
      (features.obstacles = true ∧ features.movingFruit = true)) ∧
    (Challenge.configure_game config features snake).obstacleCount = 0 ∧
    (Challenge.configure_game config features snake).foodCount = 0 := by
  have hmo : (Challenge.configure_game config features snake).movingObstacles =
      (features.obstacles && features.movingFruit) := by
    obtain ⟨a, b, c, d, e, f⟩ := features
    cases a <;> cases b <;> cases c <;> cases d <;> cases e <;> rfl
  refine ⟨?_, ?_, ?_, ?_, ?_, ?_, ?_, ?_⟩
  · obtain ⟨a, b, c, d, e, f⟩ := features
    cases a <;> cases b <;> cases c <;> cases d <;> cases e <;> rfl
  · obtain ⟨a, b, c, d, e, f⟩ := features
    cases a <;> cases b <;> cases c <;> cases d <;> cases e <;> rfl
  · obtain ⟨a, b, c, d, e, f⟩ := features
    cases a <;> cases b <;> cases c <;> cases d <;> cases e <;> rfl
  · obtain ⟨a, b, c, d, e, f⟩ := features
    cases a <;> cases b <;> cases c <;> cases d <;> cases e <;> rfl
  · obtain ⟨a, b, c, d, e, f⟩ := features
    cases a <;> cases b <;> cases c <;> cases d <;> cases e <;> rfl
  · rw [hmo, Bool.and_eq_true]
  · obtain ⟨a, b, c, d, e, f⟩ := features
    cases a <;> cases b <;> cases c <;> cases d <;> cases e <;> rfl
  · obtain ⟨a, b, c, d, e, f⟩ := features
    cases a <;> cases b <;> cases c <;> cases d <;> cases e <;> rfl

/-! ## Obstacle placement -/

/-- The flag logic of `obstacle_position_valid`: `a`, `b`, `c` are the results of the
snake, food and obstacle searches, `d` is the exclusion-zone test. -/
theorem obstacle_valid_flags (a b c d : Bool)
    (h : (if d = true then false
      else if c = true then false else if b = true then false
      else if a = true then false else true) = true) :
    a = false ∧ b = false ∧ c = false ∧ d = false := by
  revert h
  cases a <;> cases b <;> cases c <;> cases d <;> simp

theorem obstacle_position_valid_true (x y : Int) (i : Nat) (snake : Challenge.Snake)
    (config : Challenge.GameConfig)
    (h : Challenge.obstacle_position_valid x y i snake config = true) :
    (∀ j, j < snake.length → ¬ (x = (snake.body j).x ∧ y = (snake.body j).y)) ∧
      (∀ j, j < config.foodCount → ¬ (x = (config.foods j).x ∧ y = (config.foods j).y)) ∧
      (∀ j, j < i → ¬ (x = (config.obstacles j).x ∧ y = (config.obstacles j).y)) ∧
      ¬ ((x - (snake.body 0).x).natAbs < 3 ∧ (y - (snake.body 0).y).natAbs < 3) := by
  have hs := scan_cells_false x y (fun j => (snake.body j).x) (fun j => (snake.body j).y)
    snake.length
  have hf := scan_cells_false x y (fun j => (config.foods j).x) (fun j => (config.foods j).y)
    config.foodCount
  have ho := scan_cells_false x y (fun j => (config.obstacles j).x)
    (fun j => (config.obstacles j).y) i
  have hb := obstacle_valid_flags _ _ _ _ h
  refine ⟨hs.1 hb.1, hf.1 hb.2.1, ho.1 hb.2.2.1, ?_⟩
  have hd := hb.2.2.2
  intro hc
  simp [hc.1, hc.2] at hd

theorem sample_obstacle_cell_some (fuel : Nat) (rnd : Rand) (i : Nat) (snake : Challenge.Snake)
    (config : Challenge.GameConfig) (r : Int × Int × Rand)
    (h : Challenge.sample_obstacle_cell fuel rnd i snake config = some r) :
    in_grid { x := r.1, y := r.2.1 } ∧
      Challenge.obstacle_position_valid r.1 r.2.1 i snake config = true := by
  induction fuel generalizing rnd with
  | zero => simp [Challenge.sample_obstacle_cell] at h
  | succ fuel ih =>
    rw [Challenge.sample_obstacle_cell] at h
    split_ifs at h with hv
    · cases h
      exact ⟨sample_in_grid _ _, hv⟩
    · exact ih _ h

/-- One iteration of the loop of `place_obstacles` stores an accepted cell in
`obstacles[i]` and changes nothing else that the placement tests read. -/
theorem place_obstacle_some (fuel : Nat) (rnd : Rand) (i : Nat) (snake : Challenge.Snake)
    (config : Challenge.GameConfig) (r : Challenge.GameConfig × Rand)
    (h : Challenge.place_obstacle fuel rnd i snake config = some r) :
    r.1.foods = config.foods ∧ r.1.foodCount = config.foodCount ∧
      r.1.obstacleCount = config.obstacleCount ∧
      (∀ j, j ≠ i → r.1.obstacles j = config.obstacles j) ∧
      in_grid { x := (r.1.obstacles i).x, y := (r.1.obstacles i).y } ∧
      Challenge.obstacle_position_valid (r.1.obstacles i).x (r.1.obstacles i).y i snake
        config = true := by
  unfold Challenge.place_obstacle at h
  cases hc : Challenge.sample_obstacle_cell fuel rnd i snake config with
  | none => simp [hc] at h
  | some c =>
    obtain ⟨x, y, rnd1⟩ := c
    have hcell := sample_obstacle_cell_some fuel rnd i snake config _ hc
    simp only [hc] at h
    split_ifs at h with hmov hthird
    · cases hd : Challenge.sample_direction fuel (Rand.drop 1 rnd1) with
      | none => simp [hd] at h
      | some d =>
        obtain ⟨dx, dy, rnd2⟩ := d
        simp only [hd] at h
        cases h
        refine ⟨rfl, rfl, rfl, fun j hj => setAt_other _ _ _ _ hj, ?_, ?_⟩ <;>
          simp only [setAt_same] <;> first | exact hcell.1 | exact hcell.2
    · cases h
      refine ⟨rfl, rfl, rfl, fun j hj => setAt_other _ _ _ _ hj, ?_, ?_⟩ <;>
        simp only [setAt_same] <;> first | exact hcell.1 | exact hcell.2
    · cases h
      refine ⟨rfl, rfl, rfl, fun j hj => setAt_other _ _ _ _ hj, ?_, ?_⟩ <;>
        simp only [setAt_same] <;> first | exact hcell.1 | exact hcell.2

/-- Appending an accepted cell at index `i` to a legal field of `i` obstacles gives a
legal field of `i + 1` obstacles. -/
theorem obstacle_field_extend (snake : Challenge.Snake) (config config1 : Challenge.GameConfig)
    (i : Nat)
    (hok : obstacle_field_ok snake config.foods config.foodCount config.obstacles i)
    (hkeep : ∀ j, j ≠ i → config1.obstacles j = config.obstacles j)
    (hgrid : in_grid { x := (config1.obstacles i).x, y := (config1.obstacles i).y })
    (hvalid : Challenge.obstacle_position_valid (config1.obstacles i).x (config1.obstacles i).y
      i snake config = true) :
    obstacle_field_ok snake config.foods config.foodCount config1.obstacles (i + 1) := by
  obtain ⟨hsn, hfo, hob, hzone⟩ := obstacle_position_valid_true _ _ i snake config hvalid
  constructor
  · intro j hj
    by_cases hji : j = i
    · subst hji
      exact ⟨hgrid, hsn, hfo, hzone⟩
    · rw [hkeep j hji]
      exact hok.1 j (by omega)
  · intro a b ha hb hab
    by_cases hai : a = i
    · subst hai
      have hbi : b < a := by omega
      rw [hkeep b (by omega)]
      exact hob b hbi
    · by_cases hbi : b = i
      · subst hbi
        have hab2 : a < b := by omega
        rw [hkeep a hai]
        intro hc
        exact hob a hab2 ⟨hc.1.symm, hc.2.symm⟩
      · rw [hkeep a hai, hkeep b hbi]
        exact hok.2 a b (by omega) (by omega) hab

theorem place_obstacles_loop_some (fuel : Nat) (n i : Nat) (rnd : Rand)
    (snake : Challenge.Snake) (config : Challenge.GameConfig)
    (r : Challenge.GameConfig × Rand)
    (h : Challenge.place_obstacles_loop fuel i n rnd snake config = some r)
    (hok : obstacle_field_ok snake config.foods config.foodCount config.obstacles i) :
    r.1.foods = config.foods ∧ r.1.foodCount = config.foodCount ∧
      r.1.obstacleCount = config.obstacleCount ∧
      obstacle_field_ok snake config.foods config.foodCount r.1.obstacles (i + n) := by
  induction n generalizing i rnd config with
  | zero =>
    rw [Challenge.place_obstacles_loop] at h
    cases h
    exact ⟨rfl, rfl, rfl, hok⟩
  | succ n ih =>
    rw [Challenge.place_obstacles_loop] at h
    cases hp : Challenge.place_obstacle fuel rnd i snake config with
    | none => simp [hp] at h
    | some p =>
      obtain ⟨config1, rnd1⟩ := p
      simp only [hp] at h
      obtain ⟨hf, hfc, hoc, hkeep, hgrid, hvalid⟩ :=
        place_obstacle_some fuel rnd i snake config _ hp
      have hext := obstacle_field_extend snake config config1 i hok hkeep hgrid hvalid
      have hrec := ih (i + 1) rnd1 config1 h (by
        show obstacle_field_ok snake config1.foods config1.foodCount config1.obstacles (i + 1)
        rw [show config1.foods = config.foods from hf,
          show config1.foodCount = config.foodCount from hfc]
        exact hext)
      have hf1 : config1.foods = config.foods := hf
      have hfc1 : config1.foodCount = config.foodCount := hfc
      have hoc1 : config1.obstacleCount = config.obstacleCount := hoc
      rw [hf1, hfc1, hoc1] at hrec
      have hin : i + 1 + n = i + (n + 1) := by omega
      rw [hin] at hrec
      exact hrec

/-- C11 (obstacle field placement).  With `hasObstacles` set, whenever `place_obstacles`
returns, each of the `obstacleCount` obstacles lies inside the 32x24 grid, on no snake
cell, on none of the `foodCount` food cells, outside the exclusion square around the head
(not both `|x - head.x| < 3` and `|y - head.y| < 3`), and the obstacles occupy pairwise
distinct cells. -/
theorem place_obstacles_field (fuel : Nat) (rnd : Rand) (config : Challenge.GameConfig)
    (snake : Challenge.Snake) (r : Challenge.GameConfig × Rand)
    (hobs : config.hasObstacles = true)
    (h : Challenge.place_obstacles fuel rnd config snake = some r) :
    (∀ i, i < r.1.obstacleCount →
      (0 ≤ (r.1.obstacles i).x ∧ (r.1.obstacles i).x < 32 ∧
        0 ≤ (r.1.obstacles i).y ∧ (r.1.obstacles i).y < 24) ∧
      (∀ j, j < snake.length →
        ¬ ((r.1.obstacles i).x = (snake.body j).x ∧ (r.1.obstacles i).y = (snake.body j).y)) ∧
      (∀ j, j < config.foodCount →
        ¬ ((r.1.obstacles i).x = (config.foods j).x ∧
          (r.1.obstacles i).y = (config.foods j).y)) ∧
      ¬ (((r.1.obstacles i).x - (snake.body 0).x).natAbs < 3 ∧
        ((r.1.obstacles i).y - (snake.body 0).y).natAbs < 3)) ∧
    (∀ i j, i < r.1.obstacleCount → j < r.1.obstacleCount → i ≠ j →
      ¬ ((r.1.obstacles i).x = (r.1.obstacles j).x ∧
        (r.1.obstacles i).y = (r.1.obstacles j).y)) ∧
    r.1.foods = config.foods ∧ r.1.foodCount = config.foodCount := by
  unfold Challenge.place_obstacles at h
  simp only [hobs, Bool.not_true, Bool.false_eq_true, if_false] at h
  have hloop := place_obstacles_loop_some fuel _ 0 _ snake _ r h
    ⟨fun i hi => absurd hi (Nat.not_lt_zero i), fun i j hi => absurd hi (Nat.not_lt_zero i)⟩
  obtain ⟨hf, hfc, hoc, hfield⟩ := hloop
  rw [Nat.zero_add] at hfield
  have hcount : r.1.obstacleCount = Challenge.obstacle_count (rnd 0) := hoc
  rw [← hcount] at hfield
  exact ⟨hfield.1, hfield.2, hf, hfc⟩

/-- C11 on a stream with three rejected samples (the snake head, a cell of the
exclusion square, a cell already taken by obstacle 0): the call returns a field of 15
obstacles on the cells `(0, 0)` to `(14, 0)`. -/
theorem place_obstacles_field_witness :
    Challenge.obstacleConfig.hasObstacles = true ∧
    (Challenge.place_obstacles 3 rndField Challenge.obstacleConfig Challenge.startSnake).map
        (fun r => (r.1.obstacleCount, (r.1.obstacles 0).x, (r.1.obstacles 0).y,
          (r.1.obstacles 1).x, (r.1.obstacles 14).x, (r.1.obstacles 14).y)) =
      some (15, 0, 0, 1, 14, 0) ∧
    ((Challenge.place_obstacles 3 rndField Challenge.obstacleConfig Challenge.startSnake).get
        rfl).1.foodCount = Challenge.obstacleConfig.foodCount :=
  ⟨rfl, rfl,
    (place_obstacles_field 3 rndField Challenge.obstacleConfig Challenge.startSnake
      ((Challenge.place_obstacles 3 rndField Challenge.obstacleConfig Challenge.startSnake).get
        rfl) rfl (Option.some_get _).symm).2.2.2⟩

/-- The count stored by `place_obstacles` is the value of the count expression at the
first `rand()` draw. -/
theorem place_obstacles_count (fuel : Nat) (rnd : Rand) (config : Challenge.GameConfig)
    (snake : Challenge.Snake) :
    (Challenge.place_obstacles fuel rnd { config with hasObstacles := true } snake).map
        (fun r => r.1.obstacleCount) =
      (Challenge.place_obstacles fuel rnd { config with hasObstacles := true } snake).map
        (fun _ => Challenge.obstacle_count (rnd 0)) := by
  cases hp : Challenge.place_obstacles fuel rnd { config with hasObstacles := true } snake with
  | none => rfl
  | some r =>
    unfold Challenge.place_obstacles at hp
    simp only [Bool.not_true, Bool.false_eq_true, if_false] at hp
    have hloop := place_obstacles_loop_some fuel _ 0 _ snake _ r hp
      ⟨fun i hi => absurd hi (Nat.not_lt_zero i), fun i j hi => absurd hi (Nat.not_lt_zero i)⟩
    simp only [Option.map_some']
    exact congrArg some hloop.2.2.1

/-- C16 (obstacle count range), evaluated on the code: the count
`rand() % (MAX_OBSTACLES / 2) + (MAX_OBSTACLES / 2)` is between 15 and 29 for every value of
`rand()`, every count from 15 to 29 is produced, and the count 30 is produced by no value;
the largest count, 29, comes from the residue 14. -/
theorem obstacle_count_never_thirty :
    (∀ r : Nat, 15 ≤ Challenge.obstacle_count r ∧ Challenge.obstacle_count r ≤ 29) ∧
    (∀ r : Nat, Challenge.obstacle_count r ≠ 30) ∧
    (∀ k : Nat, Challenge.obstacle_count (k % 15) = 15 + k % 15) ∧
    Challenge.obstacle_count 14 = 29 ∧
    Challenge.MAX_OBSTACLES = 30 ∧
    (Challenge.place_obstacles 3 (fun n => if n = 0 then 14 else rndField n)
        Challenge.obstacleConfig Challenge.startSnake).map (fun r => r.1.obstacleCount) =
      some 29 := by
  have hr : ∀ r : Nat, 15 ≤ Challenge.obstacle_count r ∧ Challenge.obstacle_count r ≤ 29 := by
    intro r
    simp only [Challenge.obstacle_count, Challenge.MAX_OBSTACLES]
    omega
  refine ⟨hr, fun r h => ?_, fun k => ?_, rfl, rfl, rfl⟩
  · have := (hr r).2
    omega
  · simp only [Challenge.obstacle_count, Challenge.MAX_OBSTACLES]
    omega

/-! ## Multi-fruit initialisation -/

theorem rand_drop_drop (a b : Nat) (rnd : Rand) :
    Rand.drop a (Rand.drop b rnd) = Rand.drop (a + b) rnd := by
  funext n
  simp only [Rand.drop]
  rw [Nat.add_assoc]

theorem rand_drop_zero (rnd : Rand) : Rand.drop 0 rnd = rnd := rfl

theorem sample_cell_drop (fuel : Nat) (rnd : Rand) (snake : Challenge.Snake)
    (config : Challenge.GameConfig) (r : Int × Int × Rand)
    (h : Challenge.sample_cell fuel rnd snake config = some r) :
    ∃ m, r.2.2 = Rand.drop m rnd := by
  induction fuel generalizing rnd with
  | zero => simp [Challenge.sample_cell] at h
  | succ fuel ih =>
    rw [Challenge.sample_cell] at h
    split_ifs at h with hv
    · cases h
      exact ⟨2, rfl⟩
    · obtain ⟨m, hm⟩ := ih _ h
      exact ⟨m + 2, by rw [hm, rand_drop_drop]⟩

theorem sample_direction_drop (fuel : Nat) (rnd : Rand) (r : Int × Int × Rand)
    (h : Challenge.sample_direction fuel rnd = some r) :
    ∃ m, r.2.2 = Rand.drop m rnd := by
  induction fuel generalizing rnd with
  | zero => simp [Challenge.sample_direction] at h
  | succ fuel ih =>
    rw [Challenge.sample_direction] at h
    split_ifs at h with hv
    · obtain ⟨m, hm⟩ := ih _ h
      exact ⟨m + 2, by rw [hm, rand_drop_drop]⟩
    · cases h
      exact ⟨2, rfl⟩

/-- `place_food` of `challenge.c` writes the cell and (for a moving fruit) the direction
of `*food`; type, value and the moving flag stay, and the stream it leaves is a tail of
the stream it was given. -/
theorem challenge_place_food_frame (fuel : Nat) (rnd : Rand) (food : Challenge.Food)
    (snake : Challenge.Snake) (config : Challenge.GameConfig) (r : Challenge.Food × Rand)
    (h : Challenge.place_food fuel rnd food snake config = some r) :
    r.1.type = food.type ∧ r.1.value = food.value ∧ r.1.moving = food.moving ∧
      ∃ m, r.2 = Rand.drop m rnd := by
  unfold Challenge.place_food at h
  cases hc : Challenge.sample_cell fuel rnd snake config with
  | none => simp [hc] at h
  | some c =>
    obtain ⟨x, y, rnd1⟩ := c
    obtain ⟨m1, hm1⟩ := sample_cell_drop fuel rnd snake config _ hc
    simp only [hc] at h
    split_ifs at h with hmov
    · cases hd : Challenge.sample_direction fuel rnd1 with
      | none => simp [hd] at h
      | some d =>
        obtain ⟨dx, dy, rnd2⟩ := d
        obtain ⟨m2, hm2⟩ := sample_direction_drop fuel rnd1 _ hd
        simp only [hd] at h
        cases h
        refine ⟨rfl, rfl, rfl, m2 + m1, ?_⟩
        show rnd2 = _
        rw [show rnd2 = Rand.drop m2 rnd1 from hm2, show rnd1 = Rand.drop m1 rnd from hm1,
          rand_drop_drop]
    · cases h
      exact ⟨rfl, rfl, rfl, m1, hm1⟩

theorem fruit_ok_of_drop (movingFruit : Bool) (m : Nat) (rnd : Rand) (f : Challenge.Food)
    (h : fruit_ok movingFruit (Rand.drop m rnd) f) : fruit_ok movingFruit rnd f := by
  refine ⟨h.1, h.2.1, fun hm => ?_⟩
  obtain ⟨k, hk1, hk2⟩ := h.2.2 hm
  refine ⟨k + m, hk1, ?_⟩
  have hidx : k + m + 1 = k + 1 + m := by omega
  rw [hidx]
  exact hk2

/-- The type drawn as `rand() % 4` and the value the `switch` gives it are a row of the
table `{0:1, 1:2, 2:3, 3:5}`. -/
theorem fruit_value_table (r : Nat) (value : Int) :
    (((r : Int) % 4 = 0 ∧ Challenge.fruit_value ((r : Int) % 4) value = 1) ∨
      ((r : Int) % 4 = 1 ∧ Challenge.fruit_value ((r : Int) % 4) value = 2) ∨
      ((r : Int) % 4 = 2 ∧ Challenge.fruit_value ((r : Int) % 4) value = 3) ∨
      ((r : Int) % 4 = 3 ∧ Challenge.fruit_value ((r : Int) % 4) value = 5)) := by
  have h : (r : Int) % 4 = 0 ∨ (r : Int) % 4 = 1 ∨ (r : Int) % 4 = 2 ∨ (r : Int) % 4 = 3 := by
    omega
  rcases h with h | h | h | h <;> rw [h] <;> simp [Challenge.fruit_value]

theorem init_fruit_some (fuel : Nat) (rnd : Rand) (i : Nat) (snake : Challenge.Snake)
    (config : Challenge.GameConfig) (r : Challenge.GameConfig × Rand)
    (h : Challenge.init_fruit fuel rnd i snake config = some r) :
    r.1.movingFruit = config.movingFruit ∧ r.1.multiFruit = config.multiFruit ∧
      r.1.foodCount = config.foodCount ∧
      (∀ j, j ≠ i → r.1.foods j = config.foods j) ∧
      fruit_ok config.movingFruit rnd (r.1.foods i) ∧
      ∃ m, r.2 = Rand.drop m rnd := by
  unfold Challenge.init_fruit at h
  simp only [] at h
  split at h
  · cases h
  · rename_i food rnd2 hp
    cases h
    obtain ⟨ht, hv, hmv, m, hm⟩ := challenge_place_food_frame _ _ _ _ _ _ hp
    simp only [setAt_same] at ht hv hmv
    refine ⟨rfl, rfl, rfl, fun j hj => ?_, ?_, ?_⟩
    · show setAt (setAt config.foods i _) i _ j = _
      rw [setAt_other _ _ _ _ hj, setAt_other _ _ _ _ hj]
    · show fruit_ok config.movingFruit rnd (setAt (setAt config.foods i _) i food i)
      rw [setAt_same]
      cases hmf : config.movingFruit
      · simp only [hmf, Bool.false_eq_true, if_false] at ht hv hmv
        refine ⟨?_, fun _ => hmv, fun hc => by cases hc⟩
        rw [ht, hv]
        exact fruit_value_table _ _
      · simp only [hmf, if_true] at ht hv hmv
        refine ⟨?_, fun hc => (by cases hc), fun _ => ⟨0, ht, ?_⟩⟩
        · rw [ht, hv]
          exact fruit_value_table _ _
        · rw [hmv, ht]
          simp
    · obtain ⟨m, hm⟩ : ∃ m, rnd2 = Rand.drop m rnd := by
        cases hmf : config.movingFruit
        · simp only [hmf, Bool.false_eq_true, if_false] at hm
          exact ⟨m + 1, by rw [hm, rand_drop_drop]⟩
        · simp only [hmf, if_true] at hm
          exact ⟨m + 2, by rw [hm, rand_drop_drop]⟩
      exact ⟨m, hm⟩

theorem init_fruits_loop_some (fuel : Nat) (n i : Nat) (rnd0 rnd : Rand)
    (snake : Challenge.Snake) (config : Challenge.GameConfig)
    (r : Challenge.GameConfig × Rand)
    (h : Challenge.init_fruits_loop fuel i n rnd snake config = some r)
    (hrnd : ∃ m, rnd = Rand.drop m rnd0)
    (hok : ∀ j, j < i → fruit_ok config.movingFruit rnd0 (config.foods j)) :
    r.1.foodCount = config.foodCount ∧
      ∀ j, j < i + n → fruit_ok config.movingFruit rnd0 (r.1.foods j) := by
  induction n generalizing i rnd config with
  | zero =>
    rw [Challenge.init_fruits_loop] at h
    cases h
    exact ⟨rfl, hok⟩
  | succ n ih =>
    rw [Challenge.init_fruits_loop] at h
    cases hp : Challenge.init_fruit fuel rnd i snake config with
    | none => simp [hp] at h
    | some p =>
      obtain ⟨config1, rnd1⟩ := p
      simp only [hp] at h
      obtain ⟨hmf, _, hfc, hkeep, hfruit, m1, hm1⟩ := init_fruit_some fuel rnd i snake config _ hp
      have hmf1 : config1.movingFruit = config.movingFruit := hmf
      have hfc1 : config1.foodCount = config.foodCount := hfc
      obtain ⟨m, hm⟩ := hrnd
      have hrec := ih (i + 1) rnd1 config1 h
        ⟨m1 + m, by rw [show rnd1 = Rand.drop m1 rnd from hm1, hm, rand_drop_drop]⟩
        (by
          intro j hj
          rw [hmf1]
          by_cases hji : j = i
          · subst hji
            apply fruit_ok_of_drop config.movingFruit m rnd0
            rw [← hm]
            exact hfruit
          · rw [show config1.foods j = config.foods j from hkeep j hji]
            exact hok j (by omega))
      rw [hmf1, hfc1] at hrec
      have hin : i + 1 + n = i + (n + 1) := by omega
      rw [hin] at hrec
      exact hrec

/-- C15 (multi-fruit initialisation).  With `multiFruit` set, whenever
`initialize_multi_fruits` returns, `foodCount` is between 3 and 5 (at most `MAX_FOODS`),
every food `i < foodCount` has a type in `{0, 1, 2, 3}` with the value of the table
`{0:1, 1:2, 2:3, 3:5}`, does not move when `movingFruit` is unset, and otherwise moves
exactly when the value drawn for it, modulo 5, is below `type + 2`: `type + 2` of the 5
residues make it move, and a fruit of type 3 always moves. -/
theorem initialize_multi_fruits_spec (fuel : Nat) (rnd : Rand) (config : Challenge.GameConfig)
    (snake : Challenge.Snake) (r : Challenge.GameConfig × Rand)
    (hmulti : config.multiFruit = true)
    (h : Challenge.initialize_multi_fruits fuel rnd config snake = some r) :
    (3 ≤ r.1.foodCount ∧ r.1.foodCount ≤ 5 ∧ r.1.foodCount ≤ Challenge.MAX_FOODS) ∧
    (∀ i, i < r.1.foodCount →
      (((r.1.foods i).type = 0 ∧ (r.1.foods i).value = 1) ∨
        ((r.1.foods i).type = 1 ∧ (r.1.foods i).value = 2) ∨
        ((r.1.foods i).type = 2 ∧ (r.1.foods i).value = 3) ∨
        ((r.1.foods i).type = 3 ∧ (r.1.foods i).value = 5)) ∧
      (config.movingFruit = false → (r.1.foods i).moving = false) ∧
      (config.movingFruit = true →
        ∃ k, (r.1.foods i).type = (rnd k : Int) % 4 ∧
          ((r.1.foods i).moving = true ↔ (rnd (k + 1) : Int) % 5 < (r.1.foods i).type + 2)) ∧
      (config.movingFruit = true → (r.1.foods i).type = 3 → (r.1.foods i).moving = true)) ∧
    (∀ t : Nat, t ≤ 3 →
      ((List.range 5).filter (fun ρ => decide ((ρ : Int) < (t : Int) + 2))).length = t + 2) := by
  unfold Challenge.initialize_multi_fruits at h
  simp only [hmulti, Bool.not_true, Bool.false_eq_true, if_false] at h
  obtain ⟨hfc, hfruits⟩ := init_fruits_loop_some fuel _ 0 rnd _ snake _ r h
    ⟨1, rfl⟩ (fun j hj => absurd hj (Nat.not_lt_zero j))
  have hcount : r.1.foodCount = rnd 0 % 3 + 3 := hfc
  refine ⟨?_, ?_, ?_⟩
  · rw [hcount]
    simp only [Challenge.MAX_FOODS]
    omega
  · intro i hi
    have hf : fruit_ok config.movingFruit rnd (r.1.foods i) :=
      hfruits i (by rw [Nat.zero_add]; exact hcount ▸ hi)
    refine ⟨hf.1, hf.2.1, hf.2.2, ?_⟩
    intro hmov htype
    obtain ⟨k, _, hk⟩ := hf.2.2 hmov
    rw [hk, htype]
    omega
  · intro t ht
    interval_cases t <;> decide

/-- C15 on `busyConfig` (obstacles, several fruits, moving fruit): the call returns 3
fruits of types 3, 1, 0 with values 5, 2, 1, of which the first and the third move (draws
4 < 5 and 1 < 2) and the second does not (draw 3, not below 3). -/
theorem initialize_multi_fruits_spec_witness :
    Challenge.busyConfig.multiFruit = true ∧
    (Challenge.initialize_multi_fruits 1 rndFruits Challenge.busyConfig
        Challenge.startSnake).map
        (fun r => (r.1.foodCount, [r.1.foods 0, r.1.foods 1, r.1.foods 2])) =
      some (3,
        [{ x := 7, y := 7, value := 5, type := 3, moving := true, dx := 1, dy := -1 },
          { x := 8, y := 8, value := 2, type := 1, moving := false, dx := 1, dy := 0 },
          { x := 9, y := 9, value := 1, type := 0, moving := true, dx := -1, dy := 1 }]) ∧
    (3 ≤ ((Challenge.initialize_multi_fruits 1 rndFruits Challenge.busyConfig
        Challenge.startSnake).get rfl).1.foodCount ∧
      ((Challenge.initialize_multi_fruits 1 rndFruits Challenge.busyConfig
        Challenge.startSnake).get rfl).1.foodCount ≤ 5 ∧
      ((Challenge.initialize_multi_fruits 1 rndFruits Challenge.busyConfig
        Challenge.startSnake).get rfl).1.foodCount ≤ Challenge.MAX_FOODS) :=
  ⟨rfl, rfl,
    (initialize_multi_fruits_spec 1 rndFruits Challenge.busyConfig Challenge.startSnake
      ((Challenge.initialize_multi_fruits 1 rndFruits Challenge.busyConfig
        Challenge.startSnake).get rfl) rfl (Option.some_get _).symm).1⟩

/-! ## Session updates -/

theorem i32_u32 (z : Int) (h1 : -2147483648 ≤ z) (h2 : z < 2147483648) : i32 (u32 z) = z := by
  unfold i32 u32
  omega

/-- C17 (timed-mode countdown), evaluated on the code.  `update_game` sets
`timeRemaining = maxTime - currentTime / 1000` from the absolute clock value, whatever the
clock value `t0` of the reset.  A timed session started by the PLAY button at
`t0 = 61000` has `timeRemaining = 60`, and its first tick, at clock value `61151`, leaves
`timeRemaining = -1`, a dead snake and `GAME_OVER`; a session started at `t0 = 30000`
shows 30 seconds left after its first tick at `30151`. -/
theorem timed_countdown_uses_absolute_clock :
    (Challenge.play_click 1 rndRepeat Challenge.timedFeatures Challenge.menuGame 61000).map
        (fun r => (r.1.gameState, r.1.snake.alive, r.1.config.timed, r.1.config.maxTime,
          r.1.config.timeRemaining)) =
      some (GameState.PLAYING, true, true, 60, 60) ∧
    ((Challenge.play_click 1 rndRepeat Challenge.timedFeatures Challenge.menuGame 61000).bind
        (fun r => Challenge.tick_update 1 r.2 r.1 61151)).map
        (fun r => (r.1.config.timeRemaining, r.1.snake.alive, r.1.gameState)) =
      some (-1, false, GameState.GAME_OVER) ∧
    ((Challenge.play_click 1 rndRepeat Challenge.timedFeatures Challenge.menuGame 30000).bind
        (fun r => Challenge.tick_update 1 r.2 r.1 30151)).map
        (fun r => (r.1.config.timeRemaining, r.1.snake.alive, r.1.gameState)) =
      some (30, true, GameState.PLAYING) ∧
    (∀ (snake : Challenge.Snake) (score : Int) (t0 t : Nat),
      (Challenge.update_game snake (Challenge.timedConfig t0) score
        (t % 4294967296)).2.1.timeRemaining = 60 - ((t % 4294967296 / 1000 : Nat) : Int)) := by
  refine ⟨by decide, by decide, by decide, ?_⟩
  intro snake score t0 t
  have hz : i32 (u32 (60 - ((t % 4294967296 / 1000 : Nat) : Int))) =
      60 - ((t % 4294967296 / 1000 : Nat) : Int) := i32_u32 _ (by omega) (by omega)
  have h1 : (Challenge.timedConfig t0).movingFruit = false := rfl
  have h2 : (Challenge.timedConfig t0).movingObstacles = false := rfl
  have h3 : (Challenge.timedConfig t0).timed = true := rfl
  have h4 : (Challenge.timedConfig t0).timeRemaining = 60 := rfl
  have h5 : (Challenge.timedConfig t0).maxTime = 60 := rfl
  simp only [Challenge.update_game, h1, h2, h3, h4, h5, Bool.false_and, Bool.true_and,
    Bool.false_eq_true, if_false, hz]
  rw [if_pos (by decide)]
  split_ifs <;> rfl

/-- A single key event never reverses a unit velocity: the shape shared by the three
handlers.  `vx`, `vy` is the velocity before the event and `wx`, `wy` the one after. -/
theorem turn_not_reverse (vx vy wx wy : Int) (hv : unit_velocity vx vy)
    (h : (wx = vx ∧ wy = vy) ∨ (vy ≠ 1 ∧ wx = 0 ∧ wy = -1) ∨ (vy ≠ -1 ∧ wx = 0 ∧ wy = 1) ∨
      (vx ≠ 1 ∧ wx = -1 ∧ wy = 0) ∨ (vx ≠ -1 ∧ wx = 1 ∧ wy = 0)) :
    unit_velocity wx wy ∧ ¬ (wx = -vx ∧ wy = -vy) := by
  unfold unit_velocity at *
  omega

theorem attempt_key_down_shape (key : Key) (snake : Attempt.Snake) (state : GameState) :
    ((Attempt.key_down key snake state).1.dx = snake.dx ∧
        (Attempt.key_down key snake state).1.dy = snake.dy) ∨
      (snake.dy ≠ 1 ∧ (Attempt.key_down key snake state).1.dx = 0 ∧
        (Attempt.key_down key snake state).1.dy = -1) ∨
      (snake.dy ≠ -1 ∧ (Attempt.key_down key snake state).1.dx = 0 ∧
        (Attempt.key_down key snake state).1.dy = 1) ∨
      (snake.dx ≠ 1 ∧ (Attempt.key_down key snake state).1.dx = -1 ∧
        (Attempt.key_down key snake state).1.dy = 0) ∨
      (snake.dx ≠ -1 ∧ (Attempt.key_down key snake state).1.dx = 1 ∧
        (Attempt.key_down key snake state).1.dy = 0) := by
  unfold Attempt.key_down
  by_cases hs : state = GameState.PLAYING
  · rw [if_pos hs]
    cases key <;> simp only [] <;> (try split_ifs with h) <;>
      first
        | exact Or.inl ⟨by trivial, by trivial⟩
        | exact Or.inr (Or.inl ⟨by omega, by trivial, by trivial⟩)
        | exact Or.inr (Or.inr (Or.inl ⟨by omega, by trivial, by trivial⟩))
        | exact Or.inr (Or.inr (Or.inr (Or.inl ⟨by omega, by trivial, by trivial⟩)))
        | exact Or.inr (Or.inr (Or.inr (Or.inr ⟨by omega, by trivial, by trivial⟩)))
  · rw [if_neg hs]
    exact Or.inl ⟨rfl, rfl⟩

theorem challenge_key_down_shape (key : Key) (snake : Challenge.Snake) (state : GameState) :
    ((Challenge.key_down key snake state).1.dx = snake.dx ∧
        (Challenge.key_down key snake state).1.dy = snake.dy) ∨
      (snake.dy ≠ 1 ∧ (Challenge.key_down key snake state).1.dx = 0 ∧
        (Challenge.key_down key snake state).1.dy = -1) ∨
      (snake.dy ≠ -1 ∧ (Challenge.key_down key snake state).1.dx = 0 ∧
        (Challenge.key_down key snake state).1.dy = 1) ∨
      (snake.dx ≠ 1 ∧ (Challenge.key_down key snake state).1.dx = -1 ∧
        (Challenge.key_down key snake state).1.dy = 0) ∨
      (snake.dx ≠ -1 ∧ (Challenge.key_down key snake state).1.dx = 1 ∧
        (Challenge.key_down key snake state).1.dy = 0) := by
  unfold Challenge.key_down
  by_cases hs : state = GameState.PLAYING
  · rw [if_pos hs]
    cases key <;> simp only [] <;> (try split_ifs with h) <;>
      first
        | exact Or.inl ⟨by trivial, by trivial⟩
        | exact Or.inr (Or.inl ⟨by omega, by trivial, by trivial⟩)
        | exact Or.inr (Or.inr (Or.inl ⟨by omega, by trivial, by trivial⟩))
        | exact Or.inr (Or.inr (Or.inr (Or.inl ⟨by omega, by trivial, by trivial⟩)))
        | exact Or.inr (Or.inr (Or.inr (Or.inr ⟨by omega, by trivial, by trivial⟩)))
  · rw [if_neg hs]
    exact Or.inl ⟨rfl, rfl⟩

theorem multiplayer_key_down_shape (key : Key) (snakeA snakeB : Multiplayer.Snake)
    (state : GameState) :
    (((Multiplayer.key_down key snakeA snakeB state).1.dx = snakeA.dx ∧
        (Multiplayer.key_down key snakeA snakeB state).1.dy = snakeA.dy) ∨
      (snakeA.dy ≠ 1 ∧ (Multiplayer.key_down key snakeA snakeB state).1.dx = 0 ∧
        (Multiplayer.key_down key snakeA snakeB state).1.dy = -1) ∨
      (snakeA.dy ≠ -1 ∧ (Multiplayer.key_down key snakeA snakeB state).1.dx = 0 ∧
        (Multiplayer.key_down key snakeA snakeB state).1.dy = 1) ∨
      (snakeA.dx ≠ 1 ∧ (Multiplayer.key_down key snakeA snakeB state).1.dx = -1 ∧
        (Multiplayer.key_down key snakeA snakeB state).1.dy = 0) ∨
      (snakeA.dx ≠ -1 ∧ (Multiplayer.key_down key snakeA snakeB state).1.dx = 1 ∧
        (Multiplayer.key_down key snakeA snakeB state).1.dy = 0)) ∧
    (((Multiplayer.key_down key snakeA snakeB state).2.dx = snakeB.dx ∧
        (Multiplayer.key_down key snakeA snakeB state).2.dy = snakeB.dy) ∨
      (snakeB.dy ≠ 1 ∧ (Multiplayer.key_down key snakeA snakeB state).2.dx = 0 ∧
        (Multiplayer.key_down key snakeA snakeB state).2.dy = -1) ∨
      (snakeB.dy ≠ -1 ∧ (Multiplayer.key_down key snakeA snakeB state).2.dx = 0 ∧
        (Multiplayer.key_down key snakeA snakeB state).2.dy = 1) ∨
      (snakeB.dx ≠ 1 ∧ (Multiplayer.key_down key snakeA snakeB state).2.dx = -1 ∧
        (Multiplayer.key_down key snakeA snakeB state).2.dy = 0) ∨
      (snakeB.dx ≠ -1 ∧ (Multiplayer.key_down key snakeA snakeB state).2.dx = 1 ∧
        (Multiplayer.key_down key snakeA snakeB state).2.dy = 0)) := by
  unfold Multiplayer.key_down
  by_cases hs : state = GameState.PLAYING
  · rw [if_pos hs]
    cases key <;> simp only [] <;> (try split_ifs with h) <;> refine ⟨?_, ?_⟩ <;>
      first
        | exact Or.inl ⟨by trivial, by trivial⟩
        | exact Or.inr (Or.inl ⟨by omega, by trivial, by trivial⟩)
        | exact Or.inr (Or.inr (Or.inl ⟨by omega, by trivial, by trivial⟩))
        | exact Or.inr (Or.inr (Or.inr (Or.inl ⟨by omega, by trivial, by trivial⟩)))
        | exact Or.inr (Or.inr (Or.inr (Or.inr ⟨by omega, by trivial, by trivial⟩)))
  · rw [if_neg hs]
    exact ⟨Or.inl ⟨rfl, rfl⟩, Or.inl ⟨rfl, rfl⟩⟩

/-- C19 (no 180-degree turn).  In the direction-key handler of each variant (`attempt.c`
arrow keys, `challenge.c` arrow keys, `multiplayer.c` W/A/S/D for snake A and arrow keys
for snake B), for every velocity among `(1,0)`, `(-1,0)`, `(0,1)`, `(0,-1)` and every
key, the velocity after the key event is one of those four unit vectors and is not the
negation of the velocity before the event. -/
theorem key_down_no_reverse (key : Key) (state : GameState)
    (sa : Attempt.Snake) (sc : Challenge.Snake) (ma mb : Multiplayer.Snake)
    (ha : unit_velocity sa.dx sa.dy) (hc : unit_velocity sc.dx sc.dy)
    (hma : unit_velocity ma.dx ma.dy) (hmb : unit_velocity mb.dx mb.dy) :
    (unit_velocity (Attempt.key_down key sa state).1.dx (Attempt.key_down key sa state).1.dy ∧
      ¬ ((Attempt.key_down key sa state).1.dx = -sa.dx ∧
        (Attempt.key_down key sa state).1.dy = -sa.dy)) ∧
    (unit_velocity (Challenge.key_down key sc state).1.dx
        (Challenge.key_down key sc state).1.dy ∧
      ¬ ((Challenge.key_down key sc state).1.dx = -sc.dx ∧
        (Challenge.key_down key sc state).1.dy = -sc.dy)) ∧
    (unit_velocity (Multiplayer.key_down key ma mb state).1.dx
        (Multiplayer.key_down key ma mb state).1.dy ∧
      ¬ ((Multiplayer.key_down key ma mb state).1.dx = -ma.dx ∧
        (Multiplayer.key_down key ma mb state).1.dy = -ma.dy)) ∧
    (unit_velocity (Multiplayer.key_down key ma mb state).2.dx
        (Multiplayer.key_down key ma mb state).2.dy ∧
      ¬ ((Multiplayer.key_down key ma mb state).2.dx = -mb.dx ∧
        (Multiplayer.key_down key ma mb state).2.dy = -mb.dy)) :=
  ⟨turn_not_reverse _ _ _ _ ha (attempt_key_down_shape key sa state),
    turn_not_reverse _ _ _ _ hc (challenge_key_down_shape key sc state),
    turn_not_reverse _ _ _ _ hma (multiplayer_key_down_shape key ma mb state).1,
    turn_not_reverse _ _ _ _ hmb (multiplayer_key_down_shape key ma mb state).2⟩

/-- C19 at the start snakes while playing, for the key UP: the single-player, the
challenge and the multiplayer snake B turn up, snake A keeps its velocity. -/
theorem key_down_no_reverse_witness :
    (unit_velocity Attempt.startSnake.dx Attempt.startSnake.dy ∧
      unit_velocity Challenge.startSnake.dx Challenge.startSnake.dy ∧
      unit_velocity Multiplayer.startSnakeA.dx Multiplayer.startSnakeA.dy ∧
      unit_velocity Multiplayer.startSnakeB.dx Multiplayer.startSnakeB.dy) ∧
    ((Attempt.key_down Key.SDLK_UP Attempt.startSnake GameState.PLAYING).1.dx,
      (Attempt.key_down Key.SDLK_UP Attempt.startSnake GameState.PLAYING).1.dy) = (0, -1) ∧
    ¬ ((Attempt.key_down Key.SDLK_UP Attempt.startSnake GameState.PLAYING).1.dx =
        -Attempt.startSnake.dx ∧
      (Attempt.key_down Key.SDLK_UP Attempt.startSnake GameState.PLAYING).1.dy =
        -Attempt.startSnake.dy) :=
  ⟨⟨by decide, by decide, by decide, by decide⟩, by decide,
    (key_down_no_reverse Key.SDLK_UP GameState.PLAYING Attempt.startSnake Challenge.startSnake
      Multiplayer.startSnakeA Multiplayer.startSnakeB (by decide) (by decide) (by decide)
      (by decide)).1.2⟩

theorem challenge_grow_snake_alive (snake : Challenge.Snake) :
    (Challenge.grow_snake snake).alive = snake.alive := by
  unfold Challenge.grow_snake
  split_ifs <;> rfl

theorem challenge_eat_foods_alive (fuel : Nat) (n i : Nat) (rnd : Rand)
    (snake : Challenge.Snake) (config : Challenge.GameConfig) (score : Int)
    (r : Challenge.Snake × Challenge.GameConfig × Int × Rand)
    (h : Challenge.eat_foods_loop fuel i n rnd snake config score = some r) :
    r.1.alive = snake.alive := by
  induction n generalizing i rnd snake config score with
  | zero =>
    rw [Challenge.eat_foods_loop] at h
    cases h
    rfl
  | succ n ih =>
    rw [Challenge.eat_foods_loop] at h
    split_ifs at h with hc
    · simp only [] at h
      split at h
      · cases h
      · rw [ih _ _ _ _ _ h, challenge_grow_snake_alive]
    · exact ih _ _ _ _ _ h

/-- `update_game` never revives the snake. -/
theorem update_game_alive_false (snake : Challenge.Snake) (config : Challenge.GameConfig)
    (score : Int) (currentTime : Nat) (h : snake.alive = false) :
    (Challenge.update_game snake config score currentTime).1.alive = false := by
  unfold Challenge.update_game
  simp only []
  split_ifs <;> first | rfl | exact h

theorem check_obstacle_collision_iff (snake : Challenge.Snake) (config : Challenge.GameConfig) :
    Challenge.check_obstacle_collision snake config = true ↔
      (config.hasObstacles = true ∧
        ∃ i, i < config.obstacleCount ∧ (snake.body 0).x = (config.obstacles i).x ∧
          (snake.body 0).y = (config.obstacles i).y) := by
  unfold Challenge.check_obstacle_collision
  cases hO : config.hasObstacles
  · simp
  · simp only [Bool.not_true, Bool.false_eq_true, if_false, true_and]
    rw [scanFrom_eq_true]
    constructor
    · rintro ⟨i, _, hi, hc⟩
      refine ⟨i, by omega, ?_⟩
      simpa [same_cell] using hc
    · rintro ⟨i, hi, hx, hy⟩
      exact ⟨i, Nat.zero_le _, by omega, by simp [same_cell, hx, hy]⟩

/-- C20 (obstacle collision in challenge mode).  `check_obstacle_collision` returns true
if and only if `hasObstacles` is set and the snake head is on the cell of obstacle `i` for
some `i < obstacleCount`; in a challenge tick (state `PLAYING`, update due) where it
returns true after the move, the snake ends the tick with `alive = false` and the game
state becomes `GAME_OVER`. -/
theorem obstacle_collision_ends_game (snake : Challenge.Snake) (config : Challenge.GameConfig)
    (fuel : Nat) (rnd : Rand) (g : Challenge.Game) (currentTime : Nat)
    (r : Challenge.Game × Rand)
    (hstate : g.gameState = GameState.PLAYING)
    (hdue : u32 ((currentTime : Int) - (g.lastUpdate : Int)) > u32 g.config.updateDelay)
    (hhit : Challenge.check_obstacle_collision (Challenge.move_snake g.snake) g.config = true)
    (htick : Challenge.tick_update fuel rnd g currentTime = some r) :
    (Challenge.check_obstacle_collision snake config = true ↔
      (config.hasObstacles = true ∧
        ∃ i, i < config.obstacleCount ∧ (snake.body 0).x = (config.obstacles i).x ∧
          (snake.body 0).y = (config.obstacles i).y)) ∧
    r.1.snake.alive = false ∧ r.1.gameState = GameState.GAME_OVER := by
  refine ⟨check_obstacle_collision_iff snake config, ?_⟩
  unfold Challenge.tick_update at htick
  rw [if_pos hstate, if_pos hdue] at htick
  simp only [hhit, if_true] at htick
  split at htick
  · cases htick
  · rename_i snake3 config3 score3 rnd3 heat
    have h3 : snake3.alive = false := challenge_eat_foods_alive _ _ _ _ _ _ _ _ heat
    have hu := update_game_alive_false snake3 config3 score3 currentTime h3
    cases htick
    simp only [hu, Bool.not_false, if_true]
    exact ⟨trivial, trivial⟩

/-- C20 on a game whose next move puts the head on the obstacle at `(17, 12)`: the tick
at clock value 1200 ends with a dead snake and `GAME_OVER`. -/
theorem obstacle_collision_ends_game_witness :
    (Challenge.obstacleAheadGame.gameState = GameState.PLAYING ∧
      u32 ((1200 : Int) - (Challenge.obstacleAheadGame.lastUpdate : Int)) >
        u32 Challenge.obstacleAheadGame.config.updateDelay ∧
      Challenge.check_obstacle_collision (Challenge.move_snake Challenge.obstacleAheadGame.snake)
        Challenge.obstacleAheadGame.config = true) ∧
    (Challenge.tick_update 1 rndRepeat Challenge.obstacleAheadGame 1200).map
        (fun r => (r.1.snake.alive, r.1.gameState, (r.1.snake.body 0).x, (r.1.snake.body 0).y)) =
      some (false, GameState.GAME_OVER, 17, 12) ∧
    ((Challenge.tick_update 1 rndRepeat Challenge.obstacleAheadGame 1200).get rfl).1.gameState =
      GameState.GAME_OVER :=
  ⟨⟨rfl, by decide, by decide⟩, by decide,
    (obstacle_collision_ends_game Challenge.startSnake Challenge.zeroConfig 1 rndRepeat
      Challenge.obstacleAheadGame 1200
      ((Challenge.tick_update 1 rndRepeat Challenge.obstacleAheadGame 1200).get rfl)
      rfl (by decide) (by decide) (Option.some_get _).symm).2.2⟩

/-! ## Food consumption -/

/-- C21 (high-score persistence is monotonic).  With the file a stored integer `h`, read
as 0 when the file is absent, after `save_highscore(s)` the value returned by
`load_highscore` is `max(h, s)`, and the file is rewritten (to `s`) only when `s > h`;
saving 50 and then 30 leaves the stored value at 50 (at `max(h, 50)` when the file held
`h` before). -/
theorem save_highscore_monotonic (s : Int) (file : Option Int) :
    Attempt.load_highscore (Attempt.save_highscore s file) =
      max (Attempt.load_highscore file) s ∧
    Attempt.save_highscore s file =
      (if s > Attempt.load_highscore file then some s else file) ∧
    Attempt.load_highscore (Attempt.save_highscore 30 (Attempt.save_highscore 50 file)) =
      max (Attempt.load_highscore file) 50 ∧
    Attempt.save_highscore 30 (Attempt.save_highscore 50 none) = some 50 ∧
    Attempt.load_highscore (Attempt.save_highscore 30 (Attempt.save_highscore 50 none)) = 50 := by
  have h1 : ∀ (t : Int) (f : Option Int),
      Attempt.load_highscore (Attempt.save_highscore t f) = max (Attempt.load_highscore f) t := by
    intro t f
    unfold Attempt.save_highscore
    simp only []
    split_ifs with h
    · have hs : Attempt.load_highscore (some t) = t := rfl
      rw [hs]
      omega
    · omega
  refine ⟨h1 s file, rfl, ?_, by decide, by decide⟩
  rw [h1, h1]
  omega

/-- C22 (single-player session end).  In a tick of `attempt.c` taken while the state is
`PLAYING` (update due) and the snake is not alive, the snake, the food and the score are
unchanged, the state becomes `GAME_OVER`, and the in-memory high score becomes
`max(highscore, score)`, being changed only when `score > highscore`; while the snake is
alive, the tick never changes the state to `GAME_OVER`. -/
theorem attempt_tick_session_end
    (fuel : Nat) (rnd : Rand) (g : Attempt.Game) (currentTime : Nat) (r : Attempt.Game × Rand)
    (fuel2 : Nat) (rnd2 : Rand) (g2 : Attempt.Game) (currentTime2 : Nat)
    (r2 : Attempt.Game × Rand)
    (hstate : g.gameState = GameState.PLAYING)
    (hdue : u32 ((currentTime : Int) - (g.lastUpdateTime : Int)) ≥ u32 150)
    (hdead : g.snake.alive = false)
    (htick : Attempt.tick_update fuel rnd g currentTime = some r)
    (halive2 : g2.snake.alive = true)
    (htick2 : Attempt.tick_update fuel2 rnd2 g2 currentTime2 = some r2) :
    (r.1.snake = g.snake ∧ r.1.food = g.food ∧ r.1.score = g.score ∧
      r.1.gameState = GameState.GAME_OVER ∧
      r.1.highscore = max g.highscore g.score ∧
      (r.1.highscore ≠ g.highscore → g.score > g.highscore)) ∧
    r2.1.gameState = g2.gameState := by
  constructor
  · unfold Attempt.tick_update at htick
    rw [if_pos ⟨hstate, hdue⟩] at htick
    simp only [hdead, Bool.false_eq_true, if_false] at htick
    split_ifs at htick with hs
    · cases htick
      refine ⟨rfl, rfl, rfl, rfl, ?_, fun _ => hs⟩
      show g.score = max g.highscore g.score
      omega
    · cases htick
      refine ⟨rfl, rfl, rfl, rfl, ?_, fun h => absurd rfl h⟩
      show g.highscore = max g.highscore g.score
      omega
  · unfold Attempt.tick_update at htick2
    split_ifs at htick2 with hc
    · simp only [halive2, if_true] at htick2
      split_ifs at htick2 with hf
      · split at htick2
        · cases htick2
        · cases htick2
          rfl
      · cases htick2
        rfl
    · cases htick2
      rfl

/-- C22 on a game whose snake has died with score 30 and high score 0, and on the game
about to eat (snake alive). -/
theorem attempt_tick_session_end_witness :
    (Attempt.deadGame.gameState = GameState.PLAYING ∧
      u32 ((150 : Int) - (Attempt.deadGame.lastUpdateTime : Int)) ≥ u32 150 ∧
      Attempt.deadGame.snake.alive = false ∧ Attempt.eatGame.snake.alive = true) ∧
    (Attempt.tick_update 1 rndPairs Attempt.deadGame 150).map
        (fun r => (r.1.gameState, r.1.score, r.1.highscore, r.1.file)) =
      some (GameState.GAME_OVER, 30, 30, some 30) ∧
    ((Attempt.tick_update 1 rndPairs Attempt.deadGame 150).get rfl).1.gameState =
      GameState.GAME_OVER ∧
    ((Attempt.tick_update 2 rndPairs Attempt.eatGame 150).get rfl).1.gameState =
      Attempt.eatGame.gameState :=
  have h := attempt_tick_session_end 1 rndPairs Attempt.deadGame 150
    ((Attempt.tick_update 1 rndPairs Attempt.deadGame 150).get rfl)
    2 rndPairs Attempt.eatGame 150
    ((Attempt.tick_update 2 rndPairs Attempt.eatGame 150).get rfl)
    rfl (by decide) rfl (Option.some_get _).symm rfl (Option.some_get _).symm
  ⟨⟨rfl, by decide, rfl, rfl⟩, by decide, h.1.2.2.2.1, h.2⟩

/-- C26 (the mode name always fits its buffer).  For every combination of feature flags
the string written by `generate_mode_name` has at most 34 characters, all of one byte, so
with its terminating zero it takes at most 35 of the 50 bytes of `modeName`. -/
theorem mode_name_fits_buffer (config : Challenge.GameConfig)
    (features : Challenge.GameFeatures) :
    (Challenge.generate_mode_name config features).modeName.length ≤ 34 ∧
    (Challenge.generate_mode_name config features).modeName.length ≤ 49 ∧
    (Challenge.generate_mode_name config features).modeName.utf8ByteSize + 1 ≤ 50 ∧
    (Challenge.generate_mode_name Challenge.zeroConfig
      { movingFruit := true, multiFruit := false, timed := true, obstacles := true,
        speed := true, chaos := false }).modeName.length = 34 := by
  rw [mode_name_of_zeroConfig config features]
  obtain ⟨a, b, c, d, e, f⟩ := features
  cases a <;> cases b <;> cases c <;> cases d <;> cases e <;> cases f <;> decide

/-- C29 (two key events inside one tick can reverse the snake).  In the single-player
variant the freshly reset snake has length 5, head `(5, 5)` and velocity `(1, 0)`; the key
events UP then LEFT, before the next tick, leave the velocity `(-1, 0)`, the opposite of
the direction last moved, and the following `move_snake` puts the head on `(4, 5)`, inside
the grid and equal to `body[2]`, and sets `alive = false`. -/
theorem two_keys_reverse_snake :
    Attempt.resetSnake.map
        (fun s => ((List.range s.length).map s.body, s.length, s.dx, s.dy, s.alive)) =
      some ([{ x := 5, y := 5 }, { x := 4, y := 5 }, { x := 3, y := 5 }, { x := 2, y := 5 },
        { x := 1, y := 5 }], 5, 1, 0, true) ∧
    Attempt.resetSnake.map
        (fun s => ((Attempt.upThenLeft s).dx, (Attempt.upThenLeft s).dy,
          (Attempt.move_snake (Attempt.upThenLeft s)).alive,
          (Attempt.move_snake (Attempt.upThenLeft s)).body 0,
          (Attempt.move_snake (Attempt.upThenLeft s)).body 2,
          decide (in_grid ((Attempt.move_snake (Attempt.upThenLeft s)).body 0)))) =
      some (-1, 0, false, { x := 4, y := 5 }, { x := 4, y := 5 }, true) ∧
    Attempt.resetSnake.map
        (fun s => ((Attempt.key_down Key.SDLK_UP s GameState.PLAYING).1.dx,
          (Attempt.key_down Key.SDLK_UP s GameState.PLAYING).1.dy)) = some (0, -1) := by
  refine ⟨by decide, by decide, by decide⟩

/-! ## Fruits in play -/

theorem num_active_mono (foods : Nat → Multiplayer.Food) (a b : Nat) (h : a ≤ b) :
    num_active foods a ≤ num_active foods b := by
  induction b with
  | zero =>
    have : a = 0 := by omega
    subst this
    exact Nat.le_refl _
  | succ b ih =>
    by_cases hab : a = b + 1
    · subst hab
      exact Nat.le_refl _
    · have := ih (by omega)
      rw [num_active]
      omega

theorem num_active_succ_of_active (foods : Nat → Multiplayer.Food) (j : Nat)
    (h : (foods j).active = true) : num_active foods (j + 1) = num_active foods j + 1 := by
  rw [num_active, if_pos h]

theorem num_active_succ_of_inactive (foods : Nat → Multiplayer.Food) (j : Nat)
    (h : (foods j).active = false) : num_active foods (j + 1) = num_active foods j := by
  rw [num_active, if_neg (by rw [h]; exact Bool.false_ne_true), Nat.add_zero]

theorem num_active_congr (foods foods1 : Nat → Multiplayer.Food) (n : Nat)
    (h : ∀ j, j < n → (foods1 j).active = (foods j).active) :
    num_active foods1 n = num_active foods n := by
  induction n with
  | zero => rfl
  | succ n ih =>
    rw [num_active, num_active, ih (fun j hj => h j (by omega)), h n (by omega)]

theorem num_active_all (foods : Nat → Multiplayer.Food) (n : Nat)
    (h : ∀ j, j < n → (foods j).active = true) : num_active foods n = n := by
  induction n with
  | zero => rfl
  | succ n ih =>
    rw [num_active_succ_of_active foods n (h n (by omega)), ih (fun j hj => h j (by omega))]

/-- Writing the flag of slot `i`: the count over a range that contains `i` changes by the
difference of the two flags. -/
theorem num_active_setAt (foods : Nat → Multiplayer.Food) (i : Nat) (f : Multiplayer.Food)
    (n : Nat) :
    (n ≤ i → num_active (setAt foods i f) n = num_active foods n) ∧
    (i < n → num_active (setAt foods i f) n + (if (foods i).active then 1 else 0) =
      num_active foods n + (if f.active then 1 else 0)) := by
  induction n with
  | zero => exact ⟨fun _ => rfl, fun h => absurd h (Nat.not_lt_zero i)⟩
  | succ n ih =>
    constructor
    · intro h
      rw [num_active, num_active, ih.1 (by omega), setAt_other _ _ _ _ (by omega)]
    · intro h
      by_cases hin : i = n
      · subst hin
        rw [num_active, num_active, ih.1 (Nat.le_refl _), setAt_same]
        omega
      · have := ih.2 (by omega)
        rw [num_active, num_active, setAt_other _ _ _ _ (Ne.symm hin)]
        omega

theorem num_active_deactivate (foods : Nat → Multiplayer.Food) (i : Nat) (f : Multiplayer.Food)
    (n : Nat) (hact : (foods i).active = true) (hf : f.active = false) (h : i < n) :
    num_active (setAt foods i f) n + 1 = num_active foods n := by
  have := (num_active_setAt foods i f n).2 h
  rw [if_pos hact, if_neg (by rw [hf]; exact Bool.false_ne_true)] at this
  omega

theorem num_active_activate (foods : Nat → Multiplayer.Food) (i : Nat) (f : Multiplayer.Food)
    (n : Nat) (hina : (foods i).active = false) (hf : f.active = true) (h : i < n) :
    num_active (setAt foods i f) n = num_active foods n + 1 := by
  have := (num_active_setAt foods i f n).2 h
  rw [if_pos hf, if_neg (by rw [hina]; exact Bool.false_ne_true)] at this
  omega

theorem count_active_eq (foods : Nat → Multiplayer.Food) (n i acc : Nat) :
    Multiplayer.count_active foods i n acc + num_active foods i =
      acc + num_active foods (i + n) := by
  induction n generalizing i acc with
  | zero => rfl
  | succ n ih =>
    rw [Multiplayer.count_active]
    have h1 := ih (i + 1) (if (foods i).active = true then acc + 1 else acc)
    have hidx : i + 1 + n = i + (n + 1) := by omega
    rw [hidx, num_active] at h1
    split_ifs at h1 ⊢ <;> omega

/-- One pass of the loop that removes extra fruits, started at index `i` with
`active_count` the number of active foods in `foods[i..count-1]`: it ends with
`min(active_count, 2)`, leaves every cell as it is, and keeps active exactly the active
foods that have fewer than two active foods above them. -/
theorem deactivate_pass_spec (count n i : Nat) (foods : Nat → Multiplayer.Food) (ac : Nat)
    (hin : i + n = count) (hac : ac + num_active foods i = num_active foods count) :
    (Multiplayer.deactivate_pass i n foods ac).2 = min ac 2 ∧
    (Multiplayer.deactivate_pass i n foods ac).2 +
        num_active (Multiplayer.deactivate_pass i n foods ac).1 i =
      num_active (Multiplayer.deactivate_pass i n foods ac).1 count ∧
    (∀ j, ((Multiplayer.deactivate_pass i n foods ac).1 j).x = (foods j).x ∧
      ((Multiplayer.deactivate_pass i n foods ac).1 j).y = (foods j).y) ∧
    (∀ j, j < i ∨ count ≤ j → (Multiplayer.deactivate_pass i n foods ac).1 j = foods j) ∧
    (∀ j, i ≤ j → j < count →
      (((Multiplayer.deactivate_pass i n foods ac).1 j).active = true ↔
        ((foods j).active = true ∧
          num_active foods count - num_active foods (j + 1) < 2))) := by
  induction n generalizing i foods ac with
  | zero =>
    rw [Multiplayer.deactivate_pass]
    have hi : i = count := by omega
    subst hi
    refine ⟨by simp only []; omega, hac, fun j => ⟨rfl, rfl⟩, fun j _ => rfl,
      fun j h1 h2 => ?_⟩
    omega
  | succ n ih =>
    rw [Multiplayer.deactivate_pass]
    by_cases hgt : ac > 2
    · rw [if_pos hgt]
      by_cases hact : (foods i).active = true
      · rw [if_pos hact]
        have hset := fun k => num_active_deactivate foods i { foods i with active := false } k
          hact rfl
        have hs1 := hset (i + 1) (by omega)
        have hsc := hset count (by omega)
        have hi1 := num_active_succ_of_active foods i hact
        obtain ⟨h1, h0, h2, h3, h4⟩ := ih (i + 1)
          (setAt foods i { foods i with active := false }) (ac - 1) (by omega) (by omega)
        refine ⟨by rw [h1]; omega, ?_, fun j => ?_, fun j hj => ?_, fun j hj1 hj2 => ?_⟩
        · rw [num_active_succ_of_inactive _ i (by
            rw [h3 i (Or.inl (by omega)), setAt_same])] at h0
          exact h0
        · rw [(h2 j).1, (h2 j).2]
          by_cases hji : j = i
          · subst hji
            rw [setAt_same]
            exact ⟨rfl, rfl⟩
          · rw [setAt_other _ _ _ _ hji]
            exact ⟨rfl, rfl⟩
        · rw [h3 j (by omega), setAt_other _ _ _ _ (by omega)]
        · by_cases hji : j = i
          · subst hji
            rw [h3 j (Or.inl (by omega)), setAt_same]
            constructor
            · intro hc
              cases hc
            · intro hc
              omega
          · have hjs := hset (j + 1) (by omega)
            rw [h4 j (by omega) hj2, setAt_other _ _ _ _ hji]
            constructor
            · intro hc
              exact ⟨hc.1, by omega⟩
            · intro hc
              exact ⟨hc.1, by omega⟩
      · rw [if_neg hact]
        have hina : (foods i).active = false := by
          cases hfa : (foods i).active
          · rfl
          · exact absurd hfa hact
        have hi1 := num_active_succ_of_inactive foods i hina
        obtain ⟨h1, h0, h2, h3, h4⟩ := ih (i + 1) foods ac (by omega) (by omega)
        refine ⟨h1, ?_, h2, fun j hj => h3 j (by omega), fun j hj1 hj2 => ?_⟩
        · rw [num_active_succ_of_inactive _ i (by
            rw [h3 i (Or.inl (by omega))]; exact hina)] at h0
          exact h0
        by_cases hji : j = i
        · subst hji
          rw [h3 j (Or.inl (by omega)), hina]
          constructor
          · intro hc
            cases hc
          · intro hc
            cases hc.1
        · exact h4 j (by omega) hj2
    · rw [if_neg hgt]
      refine ⟨by simp only []; omega, hac, fun j => ⟨rfl, rfl⟩, fun j _ => rfl,
        fun j hj1 hj2 => ?_⟩
      simp only []
      constructor
      · intro hc
        have hm1 := num_active_mono foods i j hj1
        have hm2 := num_active_succ_of_active foods j hc
        exact ⟨hc, by omega⟩
      · intro hc
        exact hc.1

/-- The loop that removes extra fruits runs at most one pass. -/
theorem deactivate_extras_some (fuel count : Nat) (foods : Nat → Multiplayer.Food) (ac : Nat)
    (r : (Nat → Multiplayer.Food) × Nat)
    (hac : ac = num_active foods count)
    (h : Multiplayer.deactivate_extras fuel count foods ac = some r) :
    r = (if ac > 2 then Multiplayer.deactivate_pass 0 count foods ac else (foods, ac)) := by
  cases fuel with
  | zero => simp [Multiplayer.deactivate_extras] at h
  | succ fuel =>
    rw [Multiplayer.deactivate_extras] at h
    by_cases hgt : ac > 2
    · rw [if_pos hgt] at h ⊢
      simp only [] at h
      have h2 := (deactivate_pass_spec count count 0 foods ac (by omega)
        (by rw [hac]; rfl)).1
      cases fuel with
      | zero => simp [Multiplayer.deactivate_extras] at h
      | succ fuel =>
        rw [Multiplayer.deactivate_extras, if_neg (by rw [h2]; omega)] at h
        cases h
        rfl
    · rw [if_neg hgt] at h ⊢
      cases h
      rfl

/-- One pass of the loop that spawns missing fruits, started at index `i` with
`active_count` the number of active foods in `foods[0..count-1]` and every slot below `i`
active: the count stays exact and at most 2, active foods are left as they are, and a
pass that ends below 2 has filled every slot. -/
theorem spawn_pass_spec (fuel count n i : Nat) (rnd : Rand) (foods : Nat → Multiplayer.Food)
    (ac : Nat) (snakeA snakeB : Multiplayer.Snake)
    (r : (Nat → Multiplayer.Food) × Nat × Multiplayer.Snake × Multiplayer.Snake × Rand)
    (hin : i + n = count) (hac : ac = num_active foods count)
    (hall : ∀ j, j < i → (foods j).active = true)
    (h : Multiplayer.spawn_pass fuel i n rnd foods ac snakeA snakeB = some r) :
    r.2.1 = num_active r.1 count ∧ (ac ≤ 2 → r.2.1 ≤ 2) ∧
    (r.2.1 < 2 → ∀ j, j < count → (r.1 j).active = true) ∧
    (∀ j, (foods j).active = true → r.1 j = foods j) ∧
    (∀ j, count ≤ j → r.1 j = foods j) ∧
    r.2.2.1 = snakeA ∧ r.2.2.2.1 = snakeB := by
  induction n generalizing i rnd foods ac snakeA snakeB with
  | zero =>
    rw [Multiplayer.spawn_pass] at h
    cases h
    have hi : i = count := by omega
    subst hi
    exact ⟨hac, fun h => h, fun _ => hall, fun j _ => rfl, fun j _ => rfl, rfl, rfl⟩
  | succ n ih =>
    rw [Multiplayer.spawn_pass] at h
    by_cases hlt : ac < 2
    · rw [if_pos hlt] at h
      cases hfa : (foods i).active
      · simp only [hfa, Bool.not_false, if_true] at h
        split at h
        · cases h
        · rename_i food snakeA1 snakeB1 rnd1 hp
          obtain ⟨_, _, _, _, hA, hB⟩ := multiplayer_place_food_some _ _ _ _ _ _ hp
          have hA1 : snakeA1 = snakeA := hA
          have hB1 : snakeB1 = snakeB := hB
          have hcnt := num_active_activate foods i { food with active := true } count hfa rfl
            (by omega)
          obtain ⟨h1, h2, h3, h4, h5, h6, h7⟩ := ih (i + 1) rnd1
            (setAt foods i { food with active := true }) (ac + 1) snakeA1 snakeB1 (by omega)
            (by rw [hcnt, hac])
            (by
              intro j hj
              by_cases hji : j = i
              · subst hji
                rw [setAt_same]
              · rw [setAt_other _ _ _ _ hji]
                exact hall j (by omega))
            h
          refine ⟨h1, fun _ => h2 (by omega), h3, fun j hj => ?_, fun j hj => ?_,
            h6.trans hA1, h7.trans hB1⟩
          · have hji : j ≠ i := by
              intro hc
              subst hc
              rw [hfa] at hj
              cases hj
            rw [h4 j (by rw [setAt_other _ _ _ _ hji]; exact hj), setAt_other _ _ _ _ hji]
          · rw [h5 j hj, setAt_other _ _ _ _ (by omega)]
      · simp only [hfa, Bool.not_true, Bool.false_eq_true, if_false] at h
        exact ih (i + 1) rnd foods ac snakeA snakeB (by omega) hac
          (by
            intro j hj
            by_cases hji : j = i
            · subst hji
              exact hfa
            · exact hall j (by omega))
          h
    · rw [if_neg hlt] at h
      cases h
      exact ⟨hac, fun h => h, fun hc => absurd hc hlt, fun j _ => rfl, fun j _ => rfl, rfl, rfl⟩

/-- The loop that spawns missing fruits, on an array with at most two active foods: it
ends with exactly two active foods, the earlier ones among them as they were. -/
theorem spawn_missing_spec (fuel passes count : Nat) (rnd : Rand)
    (foods : Nat → Multiplayer.Food) (ac : Nat) (snakeA snakeB : Multiplayer.Snake)
    (r : (Nat → Multiplayer.Food) × Nat × Multiplayer.Snake × Multiplayer.Snake × Rand)
    (hac : ac = num_active foods count) (hle : ac ≤ 2)
    (h : Multiplayer.spawn_missing fuel passes count rnd foods ac snakeA snakeB = some r) :
    num_active r.1 count = 2 ∧ (¬ ac < 2 → r.1 = foods) ∧
    (∀ j, (foods j).active = true → r.1 j = foods j) ∧
    (∀ j, count ≤ j → r.1 j = foods j) ∧
    r.2.2.1 = snakeA ∧ r.2.2.2.1 = snakeB := by
  induction passes generalizing rnd foods ac snakeA snakeB with
  | zero => simp [Multiplayer.spawn_missing] at h
  | succ passes ih =>
    rw [Multiplayer.spawn_missing] at h
    by_cases hlt : ac < 2
    · rw [if_pos hlt] at h
      split at h
      · cases h
      · rename_i foods1 ac1 snakeA1 snakeB1 rnd1 hp
        obtain ⟨h1, h2, h3, h4, h5, h6, h7⟩ := spawn_pass_spec fuel count count 0 rnd foods ac
          snakeA snakeB _ (by omega) hac (fun j hj => absurd hj (Nat.not_lt_zero j)) hp
        have h1a : ac1 = num_active foods1 count := h1
        have h2a : ac1 ≤ 2 := h2 hle
        have hA1 : snakeA1 = snakeA := h6
        have hB1 : snakeB1 = snakeB := h7
        obtain ⟨g1, _, g2, g3, g4, g5⟩ := ih rnd1 foods1 ac1 snakeA1 snakeB1 h1a h2a h
        refine ⟨g1, fun hc => absurd hlt hc, fun j hj => ?_, fun j hj => ?_, g4.trans hA1,
          g5.trans hB1⟩
        · have hk : foods1 j = foods j := h4 j hj
          rw [g2 j (by rw [hk]; exact hj), hk]
        · have hk : foods1 j = foods j := h5 j hj
          rw [g3 j hj, hk]
    · rw [if_neg hlt] at h
      cases h
      exact ⟨by rw [← hac]; omega, fun _ => rfl, fun j _ => rfl, fun j _ => rfl, rfl, rfl⟩

/-- What `ensure_minimum_fruits` does when it returns. -/
theorem ensure_minimum_fruits_some (fuel : Nat) (rnd : Rand) (foods : Nat → Multiplayer.Food)
    (count : Nat) (snakeA snakeB : Multiplayer.Snake)
    (r : (Nat → Multiplayer.Food) × Multiplayer.Snake × Multiplayer.Snake × Rand)
    (h : Multiplayer.ensure_minimum_fruits fuel rnd foods count snakeA snakeB = some r) :
    num_active r.1 count = 2 ∧ r.2.1 = snakeA ∧ r.2.2.1 = snakeB ∧
    (∀ j, count ≤ j → r.1 j = foods j) ∧
    (num_active foods count ≤ 2 → ∀ j, (foods j).active = true → r.1 j = foods j) ∧
    (2 < num_active foods count →
      (∀ j, (r.1 j).x = (foods j).x ∧ (r.1 j).y = (foods j).y) ∧
      ∀ j, j < count →
        ((r.1 j).active = true ↔
          ((foods j).active = true ∧
            num_active foods count - num_active foods (j + 1) < 2))) := by
  unfold Multiplayer.ensure_minimum_fruits at h
  have hcnt : Multiplayer.count_active foods 0 count 0 = num_active foods count := by
    have := count_active_eq foods count 0 0
    rw [Nat.zero_add, Nat.zero_add] at this
    exact this
  simp only [hcnt] at h
  split at h
  · cases h
  · rename_i foods1 ac1 hd
    have hr1 := deactivate_extras_some fuel count foods _ _ rfl hd
    split at h
    · cases h
    · rename_i foods2 ac2 snakeA1 snakeB1 rnd1 hs
      cases h
      by_cases hgt : num_active foods count > 2
      · rw [if_pos hgt] at hr1
        obtain ⟨p1, p0, p2, p3, p4⟩ := deactivate_pass_spec count count 0 foods
          (num_active foods count) (by omega) rfl
        rw [← hr1] at p1 p0 p2 p3 p4
        have hac1 : ac1 = num_active foods1 count := by
          have : ac1 + num_active foods1 0 = num_active foods1 count := p0
          rw [← this]
          rfl
        have h2 : ac1 = 2 := by
          have : ac1 = min (num_active foods count) 2 := p1
          omega
        obtain ⟨g1, g0, _, g3, g4, g5⟩ := spawn_missing_spec fuel fuel count rnd foods1 ac1
          snakeA snakeB _ hac1 (by omega) hs
        have hsame : foods2 = foods1 := g0 (by omega)
        refine ⟨g1, g4, g5, fun j hj => ?_, fun hle => absurd hle (by omega), fun _ => ⟨?_, ?_⟩⟩
        · show foods2 j = foods j
          rw [hsame]
          exact p3 j (Or.inr hj)
        · intro j
          show (foods2 j).x = (foods j).x ∧ (foods2 j).y = (foods j).y
          rw [hsame]
          exact p2 j
        · intro j hj
          show (foods2 j).active = true ↔ _
          rw [hsame]
          exact p4 j (Nat.zero_le _) hj
      · rw [if_neg hgt] at hr1
        cases hr1
        obtain ⟨g1, _, g2, g3, g4, g5⟩ := spawn_missing_spec fuel fuel count rnd foods
          (num_active foods count) snakeA snakeB _ rfl (by omega) hs
        exact ⟨g1, g4, g5, g3, fun _ => g2, fun hc => absurd hc hgt⟩

/-- C28 (`ensure_minimum_fruits` keeps exactly two fruits in play).  For a food array with
`count ≥ 2`, whenever `ensure_minimum_fruits` returns, exactly 2 of the foods
`foods[0..count-1]` are active; when at most 2 were active before, each of them is still
active on the same cell; when more than 2 were active, no cell has changed and the foods
still active are the two with the highest indices (an active food stays active exactly
when fewer than two active foods have a higher index). -/
theorem ensure_minimum_fruits_keeps_two (fuel : Nat) (rnd : Rand)
    (foods : Nat → Multiplayer.Food) (count : Nat) (snakeA snakeB : Multiplayer.Snake)
    (r : (Nat → Multiplayer.Food) × Multiplayer.Snake × Multiplayer.Snake × Rand)
    (_hcount : 2 ≤ count)
    (h : Multiplayer.ensure_minimum_fruits fuel rnd foods count snakeA snakeB = some r) :
    num_active r.1 count = 2 ∧
    (num_active foods count ≤ 2 →
      ∀ j, j < count → (foods j).active = true →
        (r.1 j).active = true ∧ (r.1 j).x = (foods j).x ∧ (r.1 j).y = (foods j).y) ∧
    (2 < num_active foods count →
      ∀ j, j < count →
        ((r.1 j).x = (foods j).x ∧ (r.1 j).y = (foods j).y) ∧
        ((r.1 j).active = true ↔
          ((foods j).active = true ∧
            num_active foods count - num_active foods (j + 1) < 2))) := by
  obtain ⟨h1, _, _, _, h5, h6⟩ := ensure_minimum_fruits_some fuel rnd foods count snakeA snakeB r h
  refine ⟨h1, fun hle j _ hj => ?_, fun hgt j hj => ⟨(h6 hgt).1 j, (h6 hgt).2 j hj⟩⟩
  rw [h5 hle j hj]
  exact ⟨hj, rfl, rfl⟩

/-- C28 on the array of 10 active foods (the foods 8 and 9 are kept) and on the array
with no active food (the foods 0 and 1 are spawned). -/
theorem ensure_minimum_fruits_keeps_two_witness :
    2 ≤ Multiplayer.FRUIT_COUNT * 2 ∧
    (Multiplayer.ensure_minimum_fruits 2 rndRepeat Multiplayer.allFoods
        (Multiplayer.FRUIT_COUNT * 2) Multiplayer.startSnakeA Multiplayer.startSnakeB).map
        (fun r => (List.range 10).map (fun j => (r.1 j).active)) =
      some [false, false, false, false, false, false, false, false, true, true] ∧
    (Multiplayer.ensure_minimum_fruits 2 rndOnB Multiplayer.noFoods
        (Multiplayer.FRUIT_COUNT * 2) Multiplayer.startSnakeA Multiplayer.startSnakeB).map
        (fun r => (List.range 10).map (fun j => (r.1 j).active)) =
      some [true, true, false, false, false, false, false, false, false, false] ∧
    num_active ((Multiplayer.ensure_minimum_fruits 2 rndRepeat Multiplayer.allFoods
        (Multiplayer.FRUIT_COUNT * 2) Multiplayer.startSnakeA
        Multiplayer.startSnakeB).get rfl).1 (Multiplayer.FRUIT_COUNT * 2) = 2 :=
  ⟨by decide, by decide, by decide,
    (ensure_minimum_fruits_keeps_two 2 rndRepeat Multiplayer.allFoods
      (Multiplayer.FRUIT_COUNT * 2) Multiplayer.startSnakeA Multiplayer.startSnakeB
      ((Multiplayer.ensure_minimum_fruits 2 rndRepeat Multiplayer.allFoods
        (Multiplayer.FRUIT_COUNT * 2) Multiplayer.startSnakeA
        Multiplayer.startSnakeB).get rfl) (by decide) (Option.some_get _).symm).1⟩

/-! ## Multiplayer collisions and end of game -/

theorem multiplayer_move_snake_other (s o : Multiplayer.Snake) :
    (Multiplayer.move_snake s o).2 = o := by
  unfold Multiplayer.move_snake
  simp only []
  split_ifs <;> rfl

/-- The death rule of `move_snake` of `multiplayer.c` for an alive snake, in terms of the
cells before the call: `c` is the old head plus the velocity. -/
theorem multiplayer_move_dead_iff (s o : Multiplayer.Snake) (hs : s.alive = true) :
    (Multiplayer.move_snake s o).1.alive = false ↔
      (¬ in_grid { x := (s.body 0).x + s.dx, y := (s.body 0).y + s.dy } ∨
        (∃ i, i + 1 < s.length ∧
          s.body i = { x := (s.body 0).x + s.dx, y := (s.body 0).y + s.dy }) ∨
        (o.alive = true ∧
          ∃ i, i < o.length ∧
            o.body i = { x := (s.body 0).x + s.dx, y := (s.body 0).y + s.dy })) := by
  have hhead := moved_head s.body s.length s.dx s.dy
  generalize hbody : setAt (shift_body (s.length - 1) s.body) 0
    { x := (shift_body (s.length - 1) s.body 0).x + s.dx,
      y := (shift_body (s.length - 1) s.body 0).y + s.dy } = body2 at hhead
  have hshift : ∀ i, 0 < i → i < s.length → body2 i = s.body (i - 1) := by
    intro i h0 h1
    rw [← hbody]
    exact moved_body_succ s.body s.length _ i h0 h1
  have hself : scanFrom (fun i => same_cell (body2 0).x (body2 0).y (body2 i).x (body2 i).y) 1
      (s.length - 1) = true ↔ ∃ i, i + 1 < s.length ∧ s.body i = body2 0 := by
    rw [scanFrom_eq_true]
    constructor
    · rintro ⟨i, h1, h2, h3⟩
      refine ⟨i - 1, by omega, ?_⟩
      rw [← hshift i (by omega) (by omega)]
      exact ((same_cell_eq_true _ _).1 h3).symm
    · rintro ⟨i, h2, h3⟩
      refine ⟨i + 1, by omega, by omega, (same_cell_eq_true _ _).2 ?_⟩
      rw [hshift (i + 1) (by omega) (by omega), Nat.add_sub_cancel]
      exact h3.symm
  have hother : scanFrom (fun i => same_cell (body2 0).x (body2 0).y
      (o.body i).x (o.body i).y) 0 o.length = true ↔ ∃ i, i < o.length ∧ o.body i = body2 0 := by
    rw [scanFrom_eq_true]
    constructor
    · rintro ⟨i, _, h2, h3⟩
      exact ⟨i, by omega, ((same_cell_eq_true _ _).1 h3).symm⟩
    · rintro ⟨i, h2, h3⟩
      exact ⟨i, Nat.zero_le _, by omega, (same_cell_eq_true _ _).2 h3.symm⟩
  have halive : (Multiplayer.move_snake s o).1.alive = false ↔
      (off_grid (body2 0) = true ∨
        scanFrom (fun i => same_cell (body2 0).x (body2 0).y (body2 i).x (body2 i).y) 1
          (s.length - 1) = true ∨
        (o.alive = true ∧ scanFrom (fun i => same_cell (body2 0).x (body2 0).y
          (o.body i).x (o.body i).y) 0 o.length = true)) := by
    simp only [Multiplayer.move_snake, hs, Bool.not_true, Bool.false_eq_true, if_false, hbody]
    split_ifs with h1 h2 h3
    · simp [h1]
    · simp [h2]
    · rw [Bool.and_eq_true] at h3
      simp [h3.1, h3.2]
    · rw [Bool.and_eq_true] at h3
      simp [h1, h2, hs]
      intro ho
      exact Bool.eq_false_iff.2 (fun hh => h3 ⟨ho, hh⟩)
  rw [halive, off_grid_iff_not_in_grid, hself, hother, hhead]

/-- C27 (head-on collisions in multiplayer are resolved asymmetrically).  When both snakes
are alive and both heads would move into the same in-grid cell `c`, which is none of snake
A's shifted body cells and no cell of snake B's body before the tick, then
`move_snake(A, B)` followed by `move_snake(B, A)` leaves snake A alive and snake B dead. -/
theorem head_on_collision_kills_second (snakeA snakeB : Multiplayer.Snake) (c : Segment)
    (hA : snakeA.alive = true) (hB : snakeB.alive = true) (hlenA : 1 ≤ snakeA.length)
    (hcA : ({ x := (snakeA.body 0).x + snakeA.dx, y := (snakeA.body 0).y + snakeA.dy } : Segment)
      = c)
    (hcB : ({ x := (snakeB.body 0).x + snakeB.dx, y := (snakeB.body 0).y + snakeB.dy } : Segment)
      = c)
    (hgrid : in_grid c)
    (hshiftA : ∀ i, i + 1 < snakeA.length → snakeA.body i ≠ c)
    (hbodyB : ∀ i, i < snakeB.length → snakeB.body i ≠ c) :
    (Multiplayer.move_snake snakeA snakeB).1.alive = true ∧
    (Multiplayer.move_snake snakeB (Multiplayer.move_snake snakeA snakeB).1).1.alive = false ∧
    (Multiplayer.move_snake snakeA snakeB).1.body 0 = c ∧
    (Multiplayer.move_snake snakeB (Multiplayer.move_snake snakeA snakeB).1).1.body 0 = c := by
  have hAalive : (Multiplayer.move_snake snakeA snakeB).1.alive = true := by
    cases hal : (Multiplayer.move_snake snakeA snakeB).1.alive
    · exfalso
      rw [multiplayer_move_dead_iff snakeA snakeB hA, hcA] at hal
      rcases hal with h | ⟨i, hi, hc⟩ | ⟨_, i, hi, hc⟩
      · exact h hgrid
      · exact hshiftA i hi hc
      · exact hbodyB i hi hc
    · rfl
  obtain ⟨hbA, hlA, _, _, _, _⟩ := Multiplayer.move_snake_frame snakeA snakeB hA
  have hheadA : (Multiplayer.move_snake snakeA snakeB).1.body 0 = c := by
    rw [hbA, moved_head, hcA]
  obtain ⟨hbB, _, _, _, _, _⟩ :=
    Multiplayer.move_snake_frame snakeB (Multiplayer.move_snake snakeA snakeB).1 hB
  refine ⟨hAalive, ?_, hheadA, by rw [hbB, moved_head, hcB]⟩
  rw [multiplayer_move_dead_iff snakeB _ hB, hcB]
  exact Or.inr (Or.inr ⟨hAalive, 0, by rw [hlA]; omega, hheadA⟩)

/-- C27 on snake A at its start position and a snake B two cells ahead of it, both
heading for `(6, 5)`. -/
theorem head_on_collision_kills_second_witness :
    (Multiplayer.startSnakeA.alive = true ∧ Multiplayer.headOnSnakeB.alive = true ∧
      1 ≤ Multiplayer.startSnakeA.length ∧ in_grid { x := 6, y := 5 }) ∧
    (Multiplayer.move_snake Multiplayer.startSnakeA Multiplayer.headOnSnakeB).1.alive = true ∧
    (Multiplayer.move_snake Multiplayer.headOnSnakeB
      (Multiplayer.move_snake Multiplayer.startSnakeA Multiplayer.headOnSnakeB).1).1.alive =
      false :=
  have h := head_on_collision_kills_second Multiplayer.startSnakeA Multiplayer.headOnSnakeB
    { x := 6, y := 5 } rfl rfl (by decide) (by decide) (by decide) (by decide)
    (by
      intro i hi
      have hi3 : i + 1 < 3 := hi
      have hi2 : i < 2 := by omega
      interval_cases i <;> decide)
    (by
      intro i hi
      have hi2 : i < 3 := hi
      interval_cases i <;> decide)
  ⟨⟨rfl, rfl, by decide, by decide⟩, h.1, h.2.1⟩

theorem multiplayer_grow_snake_alive (snake : Multiplayer.Snake) :
    (Multiplayer.grow_snake snake).alive = snake.alive := by
  unfold Multiplayer.grow_snake
  split_ifs <;> rfl

theorem multiplayer_eat_food_alive (i : Nat) (snakeA snakeB : Multiplayer.Snake)
    (foods : Nat → Multiplayer.Food) :
    (Multiplayer.eat_food i snakeA snakeB foods).1.alive = snakeA.alive ∧
      (Multiplayer.eat_food i snakeA snakeB foods).2.1.alive = snakeB.alive := by
  unfold Multiplayer.eat_food
  split_ifs
  · exact ⟨multiplayer_grow_snake_alive _, rfl⟩
  · exact ⟨rfl, multiplayer_grow_snake_alive _⟩
  · exact ⟨rfl, rfl⟩
  · exact ⟨rfl, rfl⟩

theorem multiplayer_eat_foods_alive (n i : Nat) (snakeA snakeB : Multiplayer.Snake)
    (foods : Nat → Multiplayer.Food) :
    (Multiplayer.eat_foods_loop i n snakeA snakeB foods).1.alive = snakeA.alive ∧
      (Multiplayer.eat_foods_loop i n snakeA snakeB foods).2.1.alive = snakeB.alive := by
  induction n generalizing i snakeA snakeB foods with
  | zero => exact ⟨rfl, rfl⟩
  | succ n ih =>
    rw [Multiplayer.eat_foods_loop]
    have h1 := multiplayer_eat_food_alive i snakeA snakeB foods
    have h2 := ih (i + 1) (Multiplayer.eat_food i snakeA snakeB foods).1
      (Multiplayer.eat_food i snakeA snakeB foods).2.1
      (Multiplayer.eat_food i snakeA snakeB foods).2.2
    exact ⟨h2.1.trans h1.1, h2.2.trans h1.2⟩

theorem u32_of_small (z : Int) (h0 : 0 ≤ z) (h1 : z < 4294967296) : (u32 z : Int) = z := by
  unfold u32
  omega

/-- C23 (multiplayer terminal condition).  For an update step of `multiplayer.c` taken in
state `PLAYING` (clock not before the game start, less than `2^31` ms after it), the state
after the step is `GAME_OVER` if and only if the remaining time
`GAME_DURATION - (current_time - game_start_time)` is `≤ 0`, or a movement tick was due
and both snakes are dead after the moves; otherwise (one snake alive or no tick due, and
time remaining) the state stays `PLAYING`. -/
theorem multiplayer_terminal_condition (fuel : Nat) (rnd : Rand) (g : Multiplayer.Game)
    (current_time : Nat) (r : Multiplayer.Game × Rand)
    (hstate : g.state = GameState.PLAYING)
    (hclock1 : g.game_start_time ≤ current_time)
    (hclock2 : (current_time : Int) - (g.game_start_time : Int) < 2147483648)
    (h : Multiplayer.update_step fuel rnd g current_time = some r) :
    (r.1.state = GameState.GAME_OVER ↔
      (Multiplayer.GAME_DURATION - ((current_time : Int) - (g.game_start_time : Int)) ≤ 0 ∨
        (u32 ((current_time : Int) - (g.move_time : Int)) ≥ u32 150 ∧
          (Multiplayer.move_snake g.snakeA g.snakeB).1.alive = false ∧
          (Multiplayer.move_snake g.snakeB
            (Multiplayer.move_snake g.snakeA g.snakeB).1).1.alive = false))) ∧
    (r.1.state ≠ GameState.GAME_OVER → r.1.state = GameState.PLAYING) := by
  have htime : i32 (u32 (Multiplayer.GAME_DURATION -
      (u32 ((current_time : Int) - (g.game_start_time : Int)) : Int))) =
      Multiplayer.GAME_DURATION - ((current_time : Int) - (g.game_start_time : Int)) := by
    rw [u32_of_small _ (by omega) (by omega)]
    apply i32_u32 <;> simp only [Multiplayer.GAME_DURATION] <;> omega
  unfold Multiplayer.update_step at h
  rw [if_pos hstate] at h
  simp only [htime] at h
  by_cases hexp : Multiplayer.GAME_DURATION -
      ((current_time : Int) - (g.game_start_time : Int)) ≤ 0
  · simp only [hexp, if_true] at h
    split_ifs at h with hdue
    · split at h
      · cases h
      · cases h
        simp only []
        refine ⟨⟨fun _ => Or.inl hexp, fun _ => ?_⟩, fun hc => absurd ?_ hc⟩ <;>
          split_ifs <;> rfl
    · cases h
      exact ⟨⟨fun _ => Or.inl hexp, fun _ => rfl⟩, fun hc => absurd rfl hc⟩
  · simp only [hexp, if_false] at h
    split_ifs at h with hdue
    · split at h
      · cases h
      · rename_i foods2 snakeA2 snakeB2 rnd2 he
        cases h
        obtain ⟨_, hA2, hB2, _, _, _⟩ := ensure_minimum_fruits_some _ _ _ _ _ _ _ he
        have hA3 : snakeA2 = _ := hA2
        have hB3 : snakeB2 = _ := hB2
        have hloop := multiplayer_eat_foods_alive (Multiplayer.FRUIT_COUNT * 2) 0
          (Multiplayer.move_snake (Multiplayer.move_snake g.snakeA g.snakeB).2
            (Multiplayer.move_snake g.snakeA g.snakeB).1).2
          (Multiplayer.move_snake (Multiplayer.move_snake g.snakeA g.snakeB).2
            (Multiplayer.move_snake g.snakeA g.snakeB).1).1 g.foods
        rw [multiplayer_move_snake_other, multiplayer_move_snake_other] at hloop
        have hAal : snakeA2.alive = (Multiplayer.move_snake g.snakeA g.snakeB).1.alive := by
          rw [hA3]
          simp only [multiplayer_move_snake_other] 
          exact hloop.1
        have hBal : snakeB2.alive = (Multiplayer.move_snake g.snakeB
            (Multiplayer.move_snake g.snakeA g.snakeB).1).1.alive := by
          rw [hB3]
          simp only [multiplayer_move_snake_other]
          exact hloop.2
        simp only [hAal, hBal, hstate]
        cases ha : (Multiplayer.move_snake g.snakeA g.snakeB).1.alive <;>
          cases hb : (Multiplayer.move_snake g.snakeB
            (Multiplayer.move_snake g.snakeA g.snakeB).1).1.alive <;>
          simp [hexp, hdue]
    · cases h
      refine ⟨⟨fun hc => ?_, fun hc => ?_⟩, fun _ => hstate⟩
      · have hc2 : g.state = GameState.GAME_OVER := hc
        rw [hstate] at hc2
        cases hc2
      · rcases hc with hc | hc
        · exact absurd hc hexp
        · exact absurd hc.1 hdue

/-- C23 on the multiplayer game about to eat, at clock value 150 (tick due, both snakes
alive after the moves, time remaining): the state stays `PLAYING`; and at clock value
120001 (no time remaining): the state becomes `GAME_OVER`. -/
theorem multiplayer_terminal_condition_witness :
    (Multiplayer.eatGame.state = GameState.PLAYING ∧
      Multiplayer.eatGame.game_start_time ≤ 150 ∧
      (150 : Int) - (Multiplayer.eatGame.game_start_time : Int) < 2147483648) ∧
    (Multiplayer.update_step 2 rndRepeat Multiplayer.eatGame 150).map
        (fun r => (r.1.state, r.1.time_left)) = some (GameState.PLAYING, 119850) ∧
    (Multiplayer.update_step 2 rndRepeat Multiplayer.eatGame 120001).map
        (fun r => (r.1.state, r.1.time_left)) = some (GameState.GAME_OVER, 0) ∧
    (((Multiplayer.update_step 2 rndRepeat Multiplayer.eatGame 150).get rfl).1.state ≠
        GameState.GAME_OVER →
      ((Multiplayer.update_step 2 rndRepeat Multiplayer.eatGame 150).get rfl).1.state =
        GameState.PLAYING) :=
  ⟨⟨rfl, by decide, by decide⟩, by decide, by decide,
    (multiplayer_terminal_condition 2 rndRepeat Multiplayer.eatGame 150
      ((Multiplayer.update_step 2 rndRepeat Multiplayer.eatGame 150).get rfl)
      rfl (by decide) (by decide) (Option.some_get _).symm).2⟩

/-! ## Reset -/

theorem write_body_apply (cell : Nat → Segment) (n i : Nat) (body : Nat → Segment) (j : Nat) :
    write_body cell i n body j = if i ≤ j ∧ j < i + n then cell j else body j := by
  induction n generalizing i body with
  | zero =>
    rw [write_body, if_neg (by omega)]
  | succ n ih =>
    rw [write_body, ih]
    by_cases h1 : i + 1 ≤ j ∧ j < i + 1 + n
    · rw [if_pos h1, if_pos (by omega)]
    · rw [if_neg h1]
      by_cases hji : j = i
      · subst hji
        rw [setAt_same, if_pos (by omega)]
      · rw [setAt_other _ _ _ _ hji, if_neg (by omega)]

/-- A snake laid out on a row, `body[i] = (x0 - dx * i, y0)` with `dx = 1` or `dx = -1`,
inside the grid: it is a well-formed start snake with velocity `(dx, 0)`. -/
theorem row_snake_start_ok (body : Nat → Segment) (len : Nat) (x0 y0 dx : Int)
    (hdx : dx = 1 ∨ dx = -1) (h3 : 3 ≤ len) (h100 : len ≤ 100)
    (hbody : ∀ i, i < len → body i = { x := x0 - dx * (i : Int), y := y0 })
    (hx : ∀ i, i < len → 0 ≤ x0 - dx * (i : Int) ∧ x0 - dx * (i : Int) < 32)
    (hy : 0 ≤ y0 ∧ y0 < 24) :
    start_ok body len dx 0 true := by
  refine ⟨rfl, h3, h100, ?_, ?_, ?_, ?_, ?_⟩
  · intro i hi
    rw [hbody i hi]
    exact ⟨(hx i hi).1, (hx i hi).2, hy.1, hy.2⟩
  · intro i j hi hj hij heq
    rw [hbody i hi, hbody j hj] at heq
    have hxe : x0 - dx * (i : Int) = x0 - dx * (j : Int) := congrArg Segment.x heq
    rcases hdx with h | h <;> subst h <;> omega
  · intro i hi
    rw [hbody i (by omega), hbody (i + 1) hi]
    simp only [manhattan]
    rcases hdx with h | h <;> subst h <;> simp
  · rw [hbody 0 (by omega), hbody 1 (by omega)]
    simp
  · rw [hbody 0 (by omega), hbody 1 (by omega)]
    simp

/-- The death rule of the single-player `move_snake` in terms of the cells before the
call, for the value of `alive` it computes. -/
theorem single_move_alive (body : Nat → Segment) (len : Nat) (dx dy : Int)
    (hgrid : in_grid { x := (body 0).x + dx, y := (body 0).y + dy })
    (hfree : ∀ i, i + 1 < len → body i ≠ { x := (body 0).x + dx, y := (body 0).y + dy }) :
    (if scanFrom (fun i => same_cell
          ((setAt (shift_body (len - 1) body) 0
            { x := (shift_body (len - 1) body 0).x + dx,
              y := (shift_body (len - 1) body 0).y + dy }) 0).x
          ((setAt (shift_body (len - 1) body) 0
            { x := (shift_body (len - 1) body 0).x + dx,
              y := (shift_body (len - 1) body 0).y + dy }) 0).y
          ((setAt (shift_body (len - 1) body) 0
            { x := (shift_body (len - 1) body 0).x + dx,
              y := (shift_body (len - 1) body 0).y + dy }) i).x
          ((setAt (shift_body (len - 1) body) 0
            { x := (shift_body (len - 1) body 0).x + dx,
              y := (shift_body (len - 1) body 0).y + dy }) i).y) 1 (len - 1) then false
      else (if off_grid ((setAt (shift_body (len - 1) body) 0
            { x := (shift_body (len - 1) body 0).x + dx,
              y := (shift_body (len - 1) body 0).y + dy }) 0) then false else true)) = true := by
  cases hres : (if scanFrom _ 1 (len - 1) then false else (if off_grid _ then false else true))
  · exfalso
    have hd := (death_rule_aux _ len true rfl).1 hres
    rw [moved_head] at hd
    rcases hd with h | ⟨i, h1, h2, h3⟩
    · exact h hgrid
    · rw [moved_body_succ body len _ i (by omega) h2] at h3
      exact hfree (i - 1) (by omega) h3
  · rfl

/-- The snake that `reset_game` of `attempt.c` leaves when it returns. -/
theorem attempt_reset_snake (fuel : Nat) (rnd : Rand) (snake : Attempt.Snake)
    (food : Attempt.Food) (score : Int) (r : Attempt.Snake × Attempt.Food × Int × Rand)
    (h : Attempt.reset_game fuel rnd snake food score = some r) :
    r.1.length = 5 ∧ r.1.dx = 1 ∧ r.1.dy = 0 ∧ r.1.alive = true ∧ r.2.2.1 = 0 ∧
      ∀ i, i < 5 → r.1.body i = { x := 5 - 1 * (i : Int), y := 5 } := by
  unfold Attempt.reset_game at h
  simp only [] at h
  split at h
  · cases h
  · rename_i food3 snake3 rnd3 hp
    cases h
    have hs := (attempt_place_food_some _ _ _ _ _ hp).2.2
    have hs3 : snake3 = _ := hs
    subst hs3
    refine ⟨rfl, rfl, rfl, rfl, rfl, fun i hi => ?_⟩
    show write_body (fun i => { x := 5 - (i : Int), y := 5 }) 0 5 snake.body i = _
    rw [write_body_apply, if_pos (by omega), Int.one_mul]

/-- The snake that `reset_game` of `challenge.c` leaves when it returns. -/
theorem challenge_reset_snake (fuel : Nat) (rnd : Rand) (snake : Challenge.Snake)
    (config : Challenge.GameConfig) (score : Int)
    (r : Challenge.Snake × Challenge.GameConfig × Int × Rand)
    (h : Challenge.reset_game fuel rnd snake config score = some r) :
    r.1.length = 3 ∧ r.1.dx = 1 ∧ r.1.dy = 0 ∧ r.1.alive = true ∧ r.2.2.1 = 0 ∧
      ∀ i, i < 3 → r.1.body i = { x := 16 - 1 * (i : Int), y := 12 } := by
  have hcells : ∀ (body : Nat → Segment) (i : Nat), i < 3 →
      setAt (setAt (setAt body 0 { x := GRID_WIDTH / 2, y := GRID_HEIGHT / 2 })
        1 { x := GRID_WIDTH / 2 - 1, y := GRID_HEIGHT / 2 })
        2 { x := GRID_WIDTH / 2 - 2, y := GRID_HEIGHT / 2 } i =
      { x := 16 - 1 * (i : Int), y := 12 } := by
    intro body i hi
    interval_cases i <;> simp [setAt, GRID_WIDTH, GRID_HEIGHT]
  unfold Challenge.reset_game at h
  simp only [] at h
  split at h
  · cases h
  · split_ifs at h
    · split at h
      · cases h
      · cases h
        exact ⟨rfl, rfl, rfl, rfl, rfl, hcells snake.body⟩
    · split at h
      · cases h
      · cases h
        exact ⟨rfl, rfl, rfl, rfl, rfl, hcells snake.body⟩

/-- The snakes that `reset_game` of `multiplayer.c` leaves when it returns. -/
theorem multiplayer_reset_snakes (fuel : Nat) (rnd : Rand) (snakeA snakeB : Multiplayer.Snake)
    (foods : Nat → Multiplayer.Food) (count : Nat)
    (r : Multiplayer.Snake × Multiplayer.Snake × (Nat → Multiplayer.Food) × Rand)
    (h : Multiplayer.reset_game fuel rnd snakeA snakeB foods count = some r) :
    (r.1.length = 3 ∧ r.1.dx = 1 ∧ r.1.dy = 0 ∧ r.1.alive = true ∧ r.1.score = 0 ∧
      ∀ i, i < 3 → r.1.body i = { x := 5 - 1 * (i : Int), y := 5 }) ∧
    (r.2.1.length = 3 ∧ r.2.1.dx = -1 ∧ r.2.1.dy = 0 ∧ r.2.1.alive = true ∧ r.2.1.score = 0 ∧
      ∀ i, i < 3 → r.2.1.body i = { x := 26 - (-1) * (i : Int), y := 18 }) := by
  unfold Multiplayer.reset_game at h
  simp only [] at h
  split at h
  · cases h
  · rename_i foods2 snakeA3 snakeB3 rnd3 he
    cases h
    obtain ⟨_, hA, hB, _, _, _⟩ := ensure_minimum_fruits_some _ _ _ _ _ _ _ he
    have hA3 : snakeA3 = _ := hA
    have hB3 : snakeB3 = _ := hB
    subst hA3
    subst hB3
    refine ⟨⟨rfl, rfl, rfl, rfl, rfl, fun i hi => ?_⟩, ⟨rfl, rfl, rfl, rfl, rfl, fun i hi => ?_⟩⟩
    · show write_body (fun i => { x := 5 - (i : Int), y := 5 }) 0 3 snakeA.body i = _
      rw [write_body_apply, if_pos (by omega), Int.one_mul]
    · show write_body (fun i => { x := GRID_WIDTH - 6 + (i : Int), y := GRID_HEIGHT - 6 }) 0 3
        snakeB.body i = _
      rw [write_body_apply, if_pos (by omega)]
      simp only [GRID_WIDTH, GRID_HEIGHT, Segment.mk.injEq]
      omega

theorem multiplayer_move_alive (s o : Multiplayer.Snake) (hs : s.alive = true)
    (hgrid : in_grid { x := (s.body 0).x + s.dx, y := (s.body 0).y + s.dy })
    (hself : ∀ i, i + 1 < s.length →
      s.body i ≠ { x := (s.body 0).x + s.dx, y := (s.body 0).y + s.dy })
    (hother : ∀ i, i < o.length →
      o.body i ≠ { x := (s.body 0).x + s.dx, y := (s.body 0).y + s.dy }) :
    (Multiplayer.move_snake s o).1.alive = true := by
  cases hal : (Multiplayer.move_snake s o).1.alive
  · exfalso
    rw [multiplayer_move_dead_iff s o hs] at hal
    rcases hal with h | ⟨i, hi, hc⟩ | ⟨_, i, hi, hc⟩
    · exact h hgrid
    · exact hself i hi hc
    · exact hother i hi hc
  · rfl

/-- C30 (`reset_game` produces a well-formed start state).  Whenever `reset_game` of
`attempt.c`, `challenge.c` and `multiplayer.c` returns, every snake is alive with a length
between 3 and 100, all its cells inside the 32x24 grid and pairwise distinct, consecutive
segments at Manhattan distance 1 and the head minus `body[1]` equal to the velocity; the
scores are 0; in multiplayer the two snakes share no cell; and one `move_snake` with no
key pressed leaves every snake alive. -/
theorem reset_game_well_formed
    (fuelA : Nat) (rndA : Rand) (snake : Attempt.Snake) (food : Attempt.Food) (score : Int)
    (ra : Attempt.Snake × Attempt.Food × Int × Rand)
    (fuelC : Nat) (rndC : Rand) (snakeC : Challenge.Snake) (config : Challenge.GameConfig)
    (scoreC : Int) (rc : Challenge.Snake × Challenge.GameConfig × Int × Rand)
    (fuelM : Nat) (rndM : Rand) (snakeA snakeB : Multiplayer.Snake)
    (foods : Nat → Multiplayer.Food) (count : Nat)
    (rm : Multiplayer.Snake × Multiplayer.Snake × (Nat → Multiplayer.Food) × Rand)
    (ha : Attempt.reset_game fuelA rndA snake food score = some ra)
    (hc : Challenge.reset_game fuelC rndC snakeC config scoreC = some rc)
    (hm : Multiplayer.reset_game fuelM rndM snakeA snakeB foods count = some rm) :
    (start_ok ra.1.body ra.1.length ra.1.dx ra.1.dy ra.1.alive ∧ ra.2.2.1 = 0 ∧
      (Attempt.move_snake ra.1).alive = true) ∧
    (start_ok rc.1.body rc.1.length rc.1.dx rc.1.dy rc.1.alive ∧ rc.2.2.1 = 0 ∧
      (Challenge.move_snake rc.1).alive = true) ∧
    (start_ok rm.1.body rm.1.length rm.1.dx rm.1.dy rm.1.alive ∧
      start_ok rm.2.1.body rm.2.1.length rm.2.1.dx rm.2.1.dy rm.2.1.alive ∧
      rm.1.score = 0 ∧ rm.2.1.score = 0 ∧
      (∀ i j, i < rm.1.length → j < rm.2.1.length → rm.1.body i ≠ rm.2.1.body j) ∧
      (Multiplayer.move_snake rm.1 rm.2.1).1.alive = true ∧
      (Multiplayer.move_snake rm.2.1 (Multiplayer.move_snake rm.1 rm.2.1).1).1.alive = true) := by
  refine ⟨?_, ?_, ?_⟩
  · obtain ⟨hl, hdx, hdy, hal, hsc, hb⟩ := attempt_reset_snake _ _ _ _ _ _ ha
    refine ⟨?_, hsc, ?_⟩
    · rw [hl, hdx, hdy, hal]
      exact row_snake_start_ok _ 5 5 5 1 (Or.inl rfl) (by omega) (by omega) hb
        (fun i hi => by omega) (by omega)
    · have h0 := hb 0 (by omega)
      have hmove := single_move_alive ra.1.body ra.1.length ra.1.dx ra.1.dy
        (by
          rw [h0, hdx, hdy]
          simp only [in_grid]
          omega)
        (by
          intro i hi
          rw [hl] at hi
          rw [h0, hb i (by omega), hdx, hdy]
          intro heq
          have hxe := congrArg Segment.x heq
          simp only [] at hxe
          omega)
      unfold Attempt.move_snake
      simp only [hal]
      exact hmove
  · obtain ⟨hl, hdx, hdy, hal, hsc, hb⟩ := challenge_reset_snake _ _ _ _ _ _ hc
    refine ⟨?_, hsc, ?_⟩
    · rw [hl, hdx, hdy, hal]
      exact row_snake_start_ok _ 3 16 12 1 (Or.inl rfl) (by omega) (by omega) hb
        (fun i hi => by omega) (by omega)
    · have h0 := hb 0 (by omega)
      have hmove := single_move_alive rc.1.body rc.1.length rc.1.dx rc.1.dy
        (by
          rw [h0, hdx, hdy]
          simp only [in_grid]
          omega)
        (by
          intro i hi
          rw [hl] at hi
          rw [h0, hb i (by omega), hdx, hdy]
          intro heq
          have hxe := congrArg Segment.x heq
          simp only [] at hxe
          omega)
      unfold Challenge.move_snake
      simp only [hal]
      exact hmove
  · obtain ⟨⟨hlA, hdxA, hdyA, halA, hscA, hbA⟩, ⟨hlB, hdxB, hdyB, halB, hscB, hbB⟩⟩ :=
      multiplayer_reset_snakes _ _ _ _ _ _ _ hm
    have hA0 := hbA 0 (by omega)
    have hB0 := hbB 0 (by omega)
    have hmoveA : (Multiplayer.move_snake rm.1 rm.2.1).1.alive = true := by
      apply multiplayer_move_alive rm.1 rm.2.1 halA
      · rw [hA0, hdxA, hdyA]
        simp only [in_grid]
        omega
      · intro i hi
        rw [hlA] at hi
        rw [hA0, hbA i (by omega), hdxA, hdyA]
        intro heq
        have hxe := congrArg Segment.x heq
        simp only [] at hxe
        omega
      · intro i hi
        rw [hlB] at hi
        rw [hA0, hbB i hi, hdxA, hdyA]
        intro heq
        have hye := congrArg Segment.y heq
        simp only [] at hye
        omega
    obtain ⟨hfb, hfl, _, _, _, _⟩ := Multiplayer.move_snake_frame rm.1 rm.2.1 halA
    refine ⟨?_, ?_, hscA, hscB, ?_, hmoveA, ?_⟩
    · rw [hlA, hdxA, hdyA, halA]
      exact row_snake_start_ok _ 3 5 5 1 (Or.inl rfl) (by omega) (by omega) hbA
        (fun i hi => by omega) (by omega)
    · rw [hlB, hdxB, hdyB, halB]
      exact row_snake_start_ok _ 3 26 18 (-1) (Or.inr rfl) (by omega) (by omega) hbB
        (fun i hi => by omega) (by omega)
    · intro i j hi hj
      rw [hlA] at hi
      rw [hlB] at hj
      rw [hbA i hi, hbB j hj]
      intro heq
      have hye := congrArg Segment.y heq
      simp only [] at hye
      omega
    · apply multiplayer_move_alive rm.2.1 _ halB
      · rw [hB0, hdxB, hdyB]
        simp only [in_grid]
        omega
      · intro i hi
        rw [hlB] at hi
        rw [hB0, hbB i (by omega), hdxB, hdyB]
        intro heq
        have hxe := congrArg Segment.x heq
        simp only [] at hxe
        omega
      · intro i hi
        rw [hfl, hlA] at hi
        rw [hB0, hdxB, hdyB, hfb]
        intro heq
        have hye := congrArg Segment.y heq
        by_cases hi0 : i = 0
        · subst hi0
          rw [moved_head, hA0, hdyA] at hye
          simp only [] at hye
          omega
        · rw [moved_body_succ rm.1.body rm.1.length _ i (by omega) (by rw [hlA]; exact hi),
            hbA (i - 1) (by omega)] at hye
          simp only [] at hye
          omega

/-- C30 on three resets called on the variables left by a previous game (snakes of
length 100): all three return, with snakes of length 5, 3, 3 and 3 and scores 0. -/
theorem reset_game_well_formed_witness :
    ((Attempt.reset_game 1 rndRepeat Attempt.fullSnake { x := 0, y := 0 } 970).map
        (fun r => (r.1.length, r.2.2.1)) = some (5, 0) ∧
      (Challenge.reset_game 3 rndField Challenge.fullSnake Challenge.obstacleConfig 970).map
        (fun r => (r.1.length, r.2.2.1, r.2.1.obstacleCount)) = some (3, 0, 15) ∧
      (Multiplayer.reset_game 2 rndRepeat Multiplayer.fullSnake Multiplayer.fullSnake
        Multiplayer.allFoods 10).map
        (fun r => (r.1.length, r.2.1.length, r.1.score, r.2.1.score)) = some (3, 3, 0, 0)) ∧
    (Attempt.move_snake ((Attempt.reset_game 1 rndRepeat Attempt.fullSnake
      { x := 0, y := 0 } 970).get rfl).1).alive = true ∧
    (Challenge.move_snake ((Challenge.reset_game 3 rndField Challenge.fullSnake
      Challenge.obstacleConfig 970).get rfl).1).alive = true :=
  have h := reset_game_well_formed
    1 rndRepeat Attempt.fullSnake { x := 0, y := 0 } 970
    ((Attempt.reset_game 1 rndRepeat Attempt.fullSnake { x := 0, y := 0 } 970).get rfl)
    3 rndField Challenge.fullSnake Challenge.obstacleConfig 970
    ((Challenge.reset_game 3 rndField Challenge.fullSnake Challenge.obstacleConfig 970).get rfl)
    2 rndRepeat Multiplayer.fullSnake Multiplayer.fullSnake Multiplayer.allFoods 10
    ((Multiplayer.reset_game 2 rndRepeat Multiplayer.fullSnake Multiplayer.fullSnake
      Multiplayer.allFoods 10).get rfl)
    (Option.some_get _).symm (Option.some_get _).symm (Option.some_get _).symm
  ⟨⟨by decide, by decide, by decide⟩, h.1.2.2, h.2.1.2.2⟩

/-! ## Board capacity -/

/-- Pigeonhole on the grid: a set of fewer than 768 cells misses some cell of the 32x24
grid. -/
theorem exists_cell_not_mem (occ : Finset (Int × Int)) (hcard : occ.card < 768) :
    ∃ a b : Nat, a < 32 ∧ b < 24 ∧ (((a : Int), (b : Int)) : Int × Int) ∉ occ := by
  have hinj : Function.Injective (fun p : Nat × Nat => (((p.1 : Int), (p.2 : Int)) : Int × Int)) := by
    intro p q h
    simp only [Prod.mk.injEq, Nat.cast_inj] at h
    exact Prod.ext h.1 h.2
  have hG : ((Finset.range 32 ×ˢ Finset.range 24).image
      (fun p : Nat × Nat => (((p.1 : Int), (p.2 : Int)) : Int × Int))).card = 768 := by
    rw [Finset.card_image_of_injective _ hinj, Finset.card_product, Finset.card_range,
      Finset.card_range]
  by_contra hall
  have hsub : (Finset.range 32 ×ˢ Finset.range 24).image
      (fun p : Nat × Nat => (((p.1 : Int), (p.2 : Int)) : Int × Int)) ⊆ occ := by
    intro e he
    rw [Finset.mem_image] at he
    obtain ⟨p, hp, rfl⟩ := he
    rw [Finset.mem_product, Finset.mem_range, Finset.mem_range] at hp
    by_contra hne
    exact hall ⟨p.1, p.2, hp.1, hp.2, hne⟩
  have hle := Finset.card_le_card hsub
  omega

/-- The cells `(cx i, cy i)` for `i < n`, as a finite set of at most `n` cells. -/
theorem cells_card (cx cy : Nat → Int) (n : Nat) :
    ((Finset.range n).image (fun i => (cx i, cy i))).card ≤ n := by
  have := Finset.card_image_le (s := Finset.range n) (f := fun i => (cx i, cy i))
  rw [Finset.card_range] at this
  exact this

theorem not_mem_cells (cx cy : Nat → Int) (n : Nat) (x y : Int)
    (h : (x, y) ∉ (Finset.range n).image (fun i => (cx i, cy i))) :
    ∀ i, i < n → ¬ (x = cx i ∧ y = cy i) := by
  intro i hi hc
  apply h
  rw [Finset.mem_image]
  exact ⟨i, Finset.mem_range.2 hi, by rw [hc.1, hc.2]⟩

/-- The exclusion square around `(hx, hy)` is covered by a set of at most 25 cells. -/
theorem exclusion_square (hx hy : Int) :
    ((Finset.range 5 ×ˢ Finset.range 5).image
      (fun p : Nat × Nat => ((hx - 2 + (p.1 : Int), hy - 2 + (p.2 : Int)) : Int × Int))).card ≤ 25 ∧
    ∀ x y : Int, (x, y) ∉ (Finset.range 5 ×ˢ Finset.range 5).image
        (fun p : Nat × Nat => ((hx - 2 + (p.1 : Int), hy - 2 + (p.2 : Int)) : Int × Int)) →
      ¬ ((x - hx).natAbs < 3 ∧ (y - hy).natAbs < 3) := by
  constructor
  · have := Finset.card_image_le (s := Finset.range 5 ×ˢ Finset.range 5)
      (f := fun p : Nat × Nat => ((hx - 2 + (p.1 : Int), hy - 2 + (p.2 : Int)) : Int × Int))
    rw [Finset.card_product, Finset.card_range] at this
    exact this
  · intro x y h hc
    apply h
    rw [Finset.mem_image]
    refine ⟨((x - hx + 2).toNat, (y - hy + 2).toNat), ?_, ?_⟩
    · rw [Finset.mem_product, Finset.mem_range, Finset.mem_range]
      constructor <;> simp only [] <;> omega
    · simp only [Prod.mk.injEq]
      constructor <;> omega

theorem valid_position_of_free (x y : Int) (snake : Challenge.Snake)
    (config : Challenge.GameConfig)
    (hs : ∀ i, i < snake.length → ¬ (x = (snake.body i).x ∧ y = (snake.body i).y))
    (ho : ∀ i, i < config.obstacleCount →
      ¬ (x = (config.obstacles i).x ∧ y = (config.obstacles i).y))
    (hf : ∀ i, i < config.foodCount → ¬ (x = (config.foods i).x ∧ y = (config.foods i).y)) :
    Challenge.valid_position x y snake config = true := by
  have h1 := (scan_cells_false x y (fun i => (snake.body i).x) (fun i => (snake.body i).y)
    snake.length).2 hs
  have h2 := (scan_cells_false x y (fun i => (config.obstacles i).x)
    (fun i => (config.obstacles i).y) config.obstacleCount).2 ho
  have h3 := (scan_cells_false x y (fun i => (config.foods i).x) (fun i => (config.foods i).y)
    config.foodCount).2 hf
  unfold Challenge.valid_position
  simp only [h1, h2, h3]
  cases config.hasObstacles <;> cases config.multiFruit <;> rfl

theorem obstacle_position_valid_of_free (x y : Int) (i : Nat) (snake : Challenge.Snake)
    (config : Challenge.GameConfig)
    (hs : ∀ j, j < snake.length → ¬ (x = (snake.body j).x ∧ y = (snake.body j).y))
    (hf : ∀ j, j < config.foodCount → ¬ (x = (config.foods j).x ∧ y = (config.foods j).y))
    (ho : ∀ j, j < i → ¬ (x = (config.obstacles j).x ∧ y = (config.obstacles j).y))
    (he : ¬ ((x - (snake.body 0).x).natAbs < 3 ∧ (y - (snake.body 0).y).natAbs < 3)) :
    Challenge.obstacle_position_valid x y i snake config = true := by
  have h1 := (scan_cells_false x y (fun j => (snake.body j).x) (fun j => (snake.body j).y)
    snake.length).2 hs
  have h2 := (scan_cells_false x y (fun j => (config.foods j).x) (fun j => (config.foods j).y)
    config.foodCount).2 hf
  have h3 := (scan_cells_false x y (fun j => (config.obstacles j).x)
    (fun j => (config.obstacles j).y) i).2 ho
  have h4 : (decide ((x - (snake.body 0).x).natAbs < 3) &&
      decide ((y - (snake.body 0).y).natAbs < 3)) = false := by
    rw [Bool.and_eq_false_iff, decide_eq_false_iff_not, decide_eq_false_iff_not]
    by_contra hc
    exact he ⟨by_contra fun h => hc (Or.inl h), by_contra fun h => hc (Or.inr h)⟩
  unfold Challenge.obstacle_position_valid
  simp only [h1, h2, h3, h4]
  rfl

/-- C25. The board is never saturated.  For a snake of length at most 100 and a
configuration with at most 30 obstacles and 5 foods, some cell of the 32x24 grid passes
the validity test of `place_food`, and for every obstacle index `i <= 30` some cell passes
the validity test of `place_obstacles` for obstacle `i`; a random stream that draws such a
cell first makes the sampling loop return at its first iteration. -/
theorem board_never_saturated (snake : Challenge.Snake) (config : Challenge.GameConfig)
    (hlen : snake.length ≤ 100) (hobs : config.obstacleCount ≤ 30)
    (hfood : config.foodCount ≤ 5) :
    (∃ a b : Nat, a < 32 ∧ b < 24 ∧
        (∀ i, i < snake.length →
          ¬ ((a : Int) = (snake.body i).x ∧ (b : Int) = (snake.body i).y)) ∧
        (∀ i, i < config.obstacleCount →
          ¬ ((a : Int) = (config.obstacles i).x ∧ (b : Int) = (config.obstacles i).y)) ∧
        (∀ i, i < config.foodCount →
          ¬ ((a : Int) = (config.foods i).x ∧ (b : Int) = (config.foods i).y)) ∧
        Challenge.valid_position (a : Int) (b : Int) snake config = true ∧
        ∀ rnd : Rand, rnd 0 = a → rnd 1 = b → ∀ fuel,
          Challenge.sample_cell (fuel + 1) rnd snake config
            = some ((a : Int), (b : Int), Rand.drop 2 rnd)) ∧
      (∀ i, i ≤ 30 → ∃ a b : Nat, a < 32 ∧ b < 24 ∧
        Challenge.obstacle_position_valid (a : Int) (b : Int) i snake config = true ∧
        ∀ rnd : Rand, rnd 0 = a → rnd 1 = b → ∀ fuel,
          Challenge.sample_obstacle_cell (fuel + 1) rnd i snake config
            = some ((a : Int), (b : Int), Rand.drop 2 rnd)) := by
  have hS := cells_card (fun i => (snake.body i).x) (fun i => (snake.body i).y) snake.length
  have hF := cells_card (fun i => (config.foods i).x) (fun i => (config.foods i).y)
    config.foodCount
  constructor
  · have hO := cells_card (fun i => (config.obstacles i).x) (fun i => (config.obstacles i).y)
      config.obstacleCount
    obtain ⟨a, b, ha, hb, hfree⟩ := exists_cell_not_mem
      ((Finset.range snake.length).image (fun i => ((snake.body i).x, (snake.body i).y)) ∪
        ((Finset.range config.obstacleCount).image
          (fun i => ((config.obstacles i).x, (config.obstacles i).y)) ∪
        (Finset.range config.foodCount).image
          (fun i => ((config.foods i).x, (config.foods i).y))))
      (by
        have h1 := Finset.card_union_le
          ((Finset.range snake.length).image (fun i => ((snake.body i).x, (snake.body i).y)))
          (((Finset.range config.obstacleCount).image
            (fun i => ((config.obstacles i).x, (config.obstacles i).y)) ∪
          (Finset.range config.foodCount).image
            (fun i => ((config.foods i).x, (config.foods i).y))))
        have h2 := Finset.card_union_le
          ((Finset.range config.obstacleCount).image
            (fun i => ((config.obstacles i).x, (config.obstacles i).y)))
          ((Finset.range config.foodCount).image
            (fun i => ((config.foods i).x, (config.foods i).y)))
        omega)
    rw [Finset.mem_union, Finset.mem_union] at hfree
    have hs := not_mem_cells (fun i => (snake.body i).x) (fun i => (snake.body i).y) _ _ _
      (fun h => hfree (Or.inl h))
    have ho := not_mem_cells (fun i => (config.obstacles i).x) (fun i => (config.obstacles i).y)
      _ _ _ (fun h => hfree (Or.inr (Or.inl h)))
    have hf := not_mem_cells (fun i => (config.foods i).x) (fun i => (config.foods i).y) _ _ _
      (fun h => hfree (Or.inr (Or.inr h)))
    have hv := valid_position_of_free (a : Int) (b : Int) snake config hs ho hf
    refine ⟨a, b, ha, hb, hs, ho, hf, hv, ?_⟩
    intro rnd h0 h1 fuel
    have hx : (rnd 0 : Int) % GRID_WIDTH = (a : Int) := by
      rw [h0]; simp only [GRID_WIDTH]; omega
    have hy : (rnd 1 : Int) % GRID_HEIGHT = (b : Int) := by
      rw [h1]; simp only [GRID_HEIGHT]; omega
    rw [Challenge.sample_cell]
    simp only [hx, hy, hv, if_true]
  · intro i hi
    have hO := cells_card (fun j => (config.obstacles j).x) (fun j => (config.obstacles j).y) i
    have hE := exclusion_square (snake.body 0).x (snake.body 0).y
    obtain ⟨a, b, ha, hb, hfree⟩ := exists_cell_not_mem
      ((Finset.range snake.length).image (fun i => ((snake.body i).x, (snake.body i).y)) ∪
        ((Finset.range config.foodCount).image
          (fun i => ((config.foods i).x, (config.foods i).y)) ∪
        ((Finset.range i).image
          (fun j => ((config.obstacles j).x, (config.obstacles j).y)) ∪
        (Finset.range 5 ×ˢ Finset.range 5).image
          (fun p : Nat × Nat => (((snake.body 0).x - 2 + (p.1 : Int),
            (snake.body 0).y - 2 + (p.2 : Int)) : Int × Int)))))
      (by
        have h1 := Finset.card_union_le
          ((Finset.range snake.length).image (fun i => ((snake.body i).x, (snake.body i).y)))
          ((Finset.range config.foodCount).image
            (fun i => ((config.foods i).x, (config.foods i).y)) ∪
          ((Finset.range i).image
            (fun j => ((config.obstacles j).x, (config.obstacles j).y)) ∪
          (Finset.range 5 ×ˢ Finset.range 5).image
            (fun p : Nat × Nat => (((snake.body 0).x - 2 + (p.1 : Int),
              (snake.body 0).y - 2 + (p.2 : Int)) : Int × Int))))
        have h2 := Finset.card_union_le
          ((Finset.range config.foodCount).image
            (fun i => ((config.foods i).x, (config.foods i).y)))
          ((Finset.range i).image
            (fun j => ((config.obstacles j).x, (config.obstacles j).y)) ∪
          (Finset.range 5 ×ˢ Finset.range 5).image
            (fun p : Nat × Nat => (((snake.body 0).x - 2 + (p.1 : Int),
              (snake.body 0).y - 2 + (p.2 : Int)) : Int × Int)))
        have h3 := Finset.card_union_le
          ((Finset.range i).image
            (fun j => ((config.obstacles j).x, (config.obstacles j).y)))
          ((Finset.range 5 ×ˢ Finset.range 5).image
            (fun p : Nat × Nat => (((snake.body 0).x - 2 + (p.1 : Int),
              (snake.body 0).y - 2 + (p.2 : Int)) : Int × Int)))
        have h4 := hE.1
        omega)
    rw [Finset.mem_union, Finset.mem_union, Finset.mem_union] at hfree
    have hv := obstacle_position_valid_of_free (a : Int) (b : Int) i snake config
      (not_mem_cells _ _ _ _ _ (fun h => hfree (Or.inl h)))
      (not_mem_cells _ _ _ _ _ (fun h => hfree (Or.inr (Or.inl h))))
      (not_mem_cells _ _ _ _ _ (fun h => hfree (Or.inr (Or.inr (Or.inl h)))))
      (hE.2 _ _ (fun h => hfree (Or.inr (Or.inr (Or.inr h)))))
    refine ⟨a, b, ha, hb, hv, ?_⟩
    intro rnd h0 h1 fuel
    have hx : (rnd 0 : Int) % GRID_WIDTH = (a : Int) := by
      rw [h0]; simp only [GRID_WIDTH]; omega
    have hy : (rnd 1 : Int) % GRID_HEIGHT = (b : Int) := by
      rw [h1]; simp only [GRID_HEIGHT]; omega
    rw [Challenge.sample_obstacle_cell]
    simp only [hx, hy, hv, if_true]

theorem board_never_saturated_witness :
    Challenge.startSnake.length ≤ 100 ∧ Challenge.busyConfig.obstacleCount ≤ 30 ∧
      Challenge.busyConfig.foodCount ≤ 5 ∧
      (∃ a b : Nat, a < 32 ∧ b < 24 ∧
        Challenge.valid_position (a : Int) (b : Int) Challenge.startSnake Challenge.busyConfig
          = true) ∧
      (∃ a b : Nat, a < 32 ∧ b < 24 ∧
        Challenge.obstacle_position_valid (a : Int) (b : Int) 14 Challenge.startSnake
          Challenge.busyConfig = true) :=
  have h := board_never_saturated Challenge.startSnake Challenge.busyConfig (by decide)
    (by decide) (by decide)
  ⟨by decide, by decide, by decide,
    h.1.imp fun _ ha => ha.imp fun _ hb => ⟨hb.1, hb.2.1, hb.2.2.2.2.2.1⟩,
    (h.2 14 (by decide)).imp fun _ ha => ha.imp fun _ hb => ⟨hb.1, hb.2.1, hb.2.2.1⟩⟩

/-! ## Moving entities -/

theorem scan_cells_true (x y : Int) (cx cy : Nat → Int) (n : Nat) :
    scanFrom (fun i => same_cell x y (cx i) (cy i)) 0 n = true ↔
      ∃ i, i < n ∧ x = cx i ∧ y = cy i := by
  rw [scanFrom_eq_true]
  constructor
  · rintro ⟨i, _, hi, hc⟩
    refine ⟨i, by omega, ?_⟩
    simpa [same_cell] using hc
  · rintro ⟨i, hi, hc⟩
    exact ⟨i, Nat.zero_le _, by omega, by simp [same_cell, hc.1, hc.2]⟩

theorem scan_other_cells_true (i : Nat) (x y : Int) (cx cy : Nat → Int) (n : Nat) :
    scanFrom (fun j => decide (i ≠ j) && same_cell x y (cx j) (cy j)) 0 n = true ↔
      ∃ j, j < n ∧ i ≠ j ∧ x = cx j ∧ y = cy j := by
  rw [scanFrom_eq_true]
  constructor
  · rintro ⟨j, _, hj, hc⟩
    refine ⟨j, by omega, ?_⟩
    simpa [same_cell] using hc
  · rintro ⟨j, hj, hc⟩
    exact ⟨j, Nat.zero_le _, by omega, by simp [same_cell, hc.1, hc.2.1, hc.2.2]⟩

theorem move_food_still (config : Challenge.GameConfig) (i : Nat)
    (hm : (config.foods i).moving = false) : Challenge.move_food config i = config := by
  unfold Challenge.move_food
  rw [if_neg (by rw [hm]; decide)]

theorem move_obstacle_still (config : Challenge.GameConfig) (i : Nat)
    (hm : (config.obstacles i).moving = false) : Challenge.move_obstacle config i = config := by
  unfold Challenge.move_obstacle
  rw [if_neg (by rw [hm]; decide)]

theorem bounce_velocity (p d limit : Int) :
    (if p + d < 0 ∨ p + d ≥ limit then -d else d) = adjusted_velocity p d limit := rfl

theorem bounce_position (p d limit : Int) :
    (if p + d < 0 ∨ p + d ≥ limit then p + adjusted_velocity p d limit else p + d)
      = p + adjusted_velocity p d limit := by
  unfold adjusted_velocity
  split_ifs <;> rfl

theorem food_blocked_select {α : Type} (o s : Bool) (A B : α) :
    (if (!if o = true then s else false) = true then A else B)
      = if o = true ∧ s = true then B else A := by
  cases o <;> cases s <;> rfl

theorem obstacle_blocked_select {α : Type} (f s : Bool) (A B : α) :
    (if (!if f = true then true else s) = true then A else B)
      = if f = true ∨ s = true then B else A := by
  cases f <;> cases s <;> rfl

/-- The iteration of the loop of `move_foods` for a moving food `i`: only `foods[i]` is
written; when the cell one boundary-adjusted step away holds an obstacle the food keeps
its position and gets the negated adjusted velocity, otherwise it moves there with the
adjusted velocity. -/
theorem move_food_moving (config : Challenge.GameConfig) (i : Nat)
    (hm : (config.foods i).moving = true) :
    ∃ g : Challenge.Food,
      Challenge.move_food config i = { config with foods := setAt config.foods i g } ∧
      ((config.hasObstacles = true ∧ (∃ j, j < config.obstacleCount ∧
          (config.foods i).x + adjusted_velocity (config.foods i).x (config.foods i).dx 32
            = (config.obstacles j).x ∧
          (config.foods i).y + adjusted_velocity (config.foods i).y (config.foods i).dy 24
            = (config.obstacles j).y)) ∧
        g.x = (config.foods i).x ∧ g.y = (config.foods i).y ∧
        g.dx = -adjusted_velocity (config.foods i).x (config.foods i).dx 32 ∧
        g.dy = -adjusted_velocity (config.foods i).y (config.foods i).dy 24 ∨
      ¬ (config.hasObstacles = true ∧ ∃ j, j < config.obstacleCount ∧
          (config.foods i).x + adjusted_velocity (config.foods i).x (config.foods i).dx 32
            = (config.obstacles j).x ∧
          (config.foods i).y + adjusted_velocity (config.foods i).y (config.foods i).dy 24
            = (config.obstacles j).y) ∧
        g.x = (config.foods i).x + adjusted_velocity (config.foods i).x (config.foods i).dx 32 ∧
        g.y = (config.foods i).y + adjusted_velocity (config.foods i).y (config.foods i).dy 24 ∧
        g.dx = adjusted_velocity (config.foods i).x (config.foods i).dx 32 ∧
        g.dy = adjusted_velocity (config.foods i).y (config.foods i).dy 24) := by
  rw [← scan_cells_true
    ((config.foods i).x + adjusted_velocity (config.foods i).x (config.foods i).dx 32)
    ((config.foods i).y + adjusted_velocity (config.foods i).y (config.foods i).dy 24)
    (fun j => (config.obstacles j).x) (fun j => (config.obstacles j).y) config.obstacleCount]
  unfold Challenge.move_food
  rw [if_pos hm]
  simp only [GRID_WIDTH, GRID_HEIGHT, mul_neg_one, bounce_velocity, bounce_position]
  rw [food_blocked_select]
  split_ifs with hb
  · exact ⟨_, rfl, Or.inl ⟨⟨hb.1, hb.2⟩, rfl, rfl, rfl, rfl⟩⟩
  · exact ⟨_, rfl, Or.inr ⟨hb, rfl, rfl, rfl, rfl⟩⟩

/-- The iteration of the loop of `move_obstacles` for a moving obstacle `i`: only
`obstacles[i]` is written; when the cell one boundary-adjusted step away holds a food or
another obstacle the obstacle keeps its position and gets the negated adjusted velocity,
otherwise it moves there with the adjusted velocity. -/
theorem move_obstacle_moving (config : Challenge.GameConfig) (i : Nat)
    (hm : (config.obstacles i).moving = true) :
    ∃ g : Challenge.Obstacle,
      Challenge.move_obstacle config i
        = { config with obstacles := setAt config.obstacles i g } ∧
      ((((∃ k, k < config.foodCount ∧
          (config.obstacles i).x
              + adjusted_velocity (config.obstacles i).x (config.obstacles i).dx 32
            = (config.foods k).x ∧
          (config.obstacles i).y
              + adjusted_velocity (config.obstacles i).y (config.obstacles i).dy 24
            = (config.foods k).y) ∨
        (∃ j, j < config.obstacleCount ∧ i ≠ j ∧
          (config.obstacles i).x
              + adjusted_velocity (config.obstacles i).x (config.obstacles i).dx 32
            = (config.obstacles j).x ∧
          (config.obstacles i).y
              + adjusted_velocity (config.obstacles i).y (config.obstacles i).dy 24
            = (config.obstacles j).y)) ∧
        g.x = (config.obstacles i).x ∧ g.y = (config.obstacles i).y ∧
        g.dx = -adjusted_velocity (config.obstacles i).x (config.obstacles i).dx 32 ∧
        g.dy = -adjusted_velocity (config.obstacles i).y (config.obstacles i).dy 24) ∨
      (¬ ((∃ k, k < config.foodCount ∧
          (config.obstacles i).x
              + adjusted_velocity (config.obstacles i).x (config.obstacles i).dx 32
            = (config.foods k).x ∧
          (config.obstacles i).y
              + adjusted_velocity (config.obstacles i).y (config.obstacles i).dy 24
            = (config.foods k).y) ∨
        (∃ j, j < config.obstacleCount ∧ i ≠ j ∧
          (config.obstacles i).x
              + adjusted_velocity (config.obstacles i).x (config.obstacles i).dx 32
            = (config.obstacles j).x ∧
          (config.obstacles i).y
              + adjusted_velocity (config.obstacles i).y (config.obstacles i).dy 24
            = (config.obstacles j).y)) ∧
        g.x = (config.obstacles i).x
          + adjusted_velocity (config.obstacles i).x (config.obstacles i).dx 32 ∧
        g.y = (config.obstacles i).y
          + adjusted_velocity (config.obstacles i).y (config.obstacles i).dy 24 ∧
        g.dx = adjusted_velocity (config.obstacles i).x (config.obstacles i).dx 32 ∧
        g.dy = adjusted_velocity (config.obstacles i).y (config.obstacles i).dy 24)) := by
  rw [← scan_cells_true
    ((config.obstacles i).x + adjusted_velocity (config.obstacles i).x (config.obstacles i).dx 32)
    ((config.obstacles i).y + adjusted_velocity (config.obstacles i).y (config.obstacles i).dy 24)
    (fun j => (config.foods j).x) (fun j => (config.foods j).y) config.foodCount,
    ← scan_other_cells_true i
    ((config.obstacles i).x + adjusted_velocity (config.obstacles i).x (config.obstacles i).dx 32)
    ((config.obstacles i).y + adjusted_velocity (config.obstacles i).y (config.obstacles i).dy 24)
    (fun j => (config.obstacles j).x) (fun j => (config.obstacles j).y) config.obstacleCount]
  unfold Challenge.move_obstacle
  rw [if_pos hm]
  simp only [GRID_WIDTH, GRID_HEIGHT, mul_neg_one, bounce_velocity, bounce_position]
  rw [obstacle_blocked_select]
  split_ifs with hb
  · exact ⟨_, rfl, Or.inl ⟨hb, rfl, rfl, rfl, rfl⟩⟩
  · exact ⟨_, rfl, Or.inr ⟨hb, rfl, rfl, rfl, rfl⟩⟩

theorem adjusted_velocity_bounds (p d limit : Int) (h1 : -1 ≤ d) (h2 : d ≤ 1) :
    -1 ≤ adjusted_velocity p d limit ∧ adjusted_velocity p d limit ≤ 1 := by
  unfold adjusted_velocity
  split_ifs <;> omega

theorem adjusted_step_in_range (p d limit : Int) (h0 : 0 ≤ p) (hp : p < limit)
    (h1 : -1 ≤ d) (h2 : d ≤ 1) (hl : 2 ≤ limit) :
    0 ≤ p + adjusted_velocity p d limit ∧ p + adjusted_velocity p d limit < limit := by
  unfold adjusted_velocity
  split_ifs <;> omega

/-- One iteration of the loop of `move_foods` keeps the placement invariant when
obstacles are enabled. -/
theorem move_food_entities_ok (config : Challenge.GameConfig) (i : Nat)
    (hobs : config.hasObstacles = true) (h : entities_ok config) :
    entities_ok (Challenge.move_food config i) ∧
      (Challenge.move_food config i).hasObstacles = true := by
  cases hm : (config.foods i).moving with
  | false =>
    rw [move_food_still config i hm]
    exact ⟨h, hobs⟩
  | true =>
    obtain ⟨g, hg, hcase⟩ := move_food_moving config i hm
    rw [hg]
    refine ⟨?_, hobs⟩
    have hgood : i < config.foodCount →
        (in_grid { x := g.x, y := g.y } ∧ -1 ≤ g.dx ∧ g.dx ≤ 1 ∧ -1 ≤ g.dy ∧ g.dy ≤ 1) ∧
        ∀ j, j < config.obstacleCount →
          ¬ (g.x = (config.obstacles j).x ∧ g.y = (config.obstacles j).y) := by
      intro hi
      have hf := h.1 i hi
      have hfo := h.2.2.2 i hi
      simp only [in_grid] at hf ⊢
      have hvx := adjusted_velocity_bounds (config.foods i).x (config.foods i).dx 32
        hf.2.1 hf.2.2.1
      have hvy := adjusted_velocity_bounds (config.foods i).y (config.foods i).dy 24
        hf.2.2.2.1 hf.2.2.2.2
      have hpx := adjusted_step_in_range (config.foods i).x (config.foods i).dx 32
        hf.1.1 hf.1.2.1 hf.2.1 hf.2.2.1 (by decide)
      have hpy := adjusted_step_in_range (config.foods i).y (config.foods i).dy 24
        hf.1.2.2.1 hf.1.2.2.2 hf.2.2.2.1 hf.2.2.2.2 (by decide)
      rcases hcase with ⟨_, h1, h2, h3, h4⟩ | ⟨hb, h1, h2, h3, h4⟩
      · rw [h1, h2, h3, h4]
        exact ⟨⟨hf.1, by omega, by omega, by omega, by omega⟩, hfo⟩
      · rw [h1, h2, h3, h4]
        exact ⟨⟨⟨hpx.1, hpx.2, hpy.1, hpy.2⟩, hvx.1, hvx.2, hvy.1, hvy.2⟩,
          fun j hj hc => hb ⟨hobs, j, hj, hc.1, hc.2⟩⟩
    refine ⟨?_, h.2.1, h.2.2.1, ?_⟩
    · intro k hk
      have hk1 : k < config.foodCount := hk
      show in_grid { x := (setAt config.foods i g k).x, y := (setAt config.foods i g k).y } ∧
        -1 ≤ (setAt config.foods i g k).dx ∧ (setAt config.foods i g k).dx ≤ 1 ∧
        -1 ≤ (setAt config.foods i g k).dy ∧ (setAt config.foods i g k).dy ≤ 1
      by_cases hki : k = i
      · subst hki
        rw [setAt_same]
        exact (hgood hk1).1
      · rw [setAt_other _ _ _ _ hki]
        exact h.1 k hk1
    · intro k hk j hj
      have hk1 : k < config.foodCount := hk
      have hj1 : j < config.obstacleCount := hj
      show ¬ ((setAt config.foods i g k).x = (config.obstacles j).x ∧
        (setAt config.foods i g k).y = (config.obstacles j).y)
      by_cases hki : k = i
      · subst hki
        rw [setAt_same]
        exact (hgood hk1).2 j hj1
      · rw [setAt_other _ _ _ _ hki]
        exact h.2.2.2 k hk1 j hj1

/-- One iteration of the loop of `move_obstacles` keeps the placement invariant. -/
theorem move_obstacle_entities_ok (config : Challenge.GameConfig) (i : Nat)
    (h : entities_ok config) : entities_ok (Challenge.move_obstacle config i) := by
  cases hm : (config.obstacles i).moving with
  | false =>
    rw [move_obstacle_still config i hm]
    exact h
  | true =>
    obtain ⟨g, hg, hcase⟩ := move_obstacle_moving config i hm
    rw [hg]
    have hgood : i < config.obstacleCount →
        (in_grid { x := g.x, y := g.y } ∧ -1 ≤ g.dx ∧ g.dx ≤ 1 ∧ -1 ≤ g.dy ∧ g.dy ≤ 1) ∧
        (∀ j, j < config.obstacleCount → i ≠ j →
          ¬ (g.x = (config.obstacles j).x ∧ g.y = (config.obstacles j).y)) ∧
        (∀ k, k < config.foodCount →
          ¬ ((config.foods k).x = g.x ∧ (config.foods k).y = g.y)) := by
      intro hi
      have ho := h.2.1 i hi
      have hoo := h.2.2.1 i hi
      have hfo := fun k hk => h.2.2.2 k hk i hi
      simp only [in_grid] at ho ⊢
      have hvx := adjusted_velocity_bounds (config.obstacles i).x (config.obstacles i).dx 32
        ho.2.1 ho.2.2.1
      have hvy := adjusted_velocity_bounds (config.obstacles i).y (config.obstacles i).dy 24
        ho.2.2.2.1 ho.2.2.2.2
      have hpx := adjusted_step_in_range (config.obstacles i).x (config.obstacles i).dx 32
        ho.1.1 ho.1.2.1 ho.2.1 ho.2.2.1 (by decide)
      have hpy := adjusted_step_in_range (config.obstacles i).y (config.obstacles i).dy 24
        ho.1.2.2.1 ho.1.2.2.2 ho.2.2.2.1 ho.2.2.2.2 (by decide)
      rcases hcase with ⟨_, h1, h2, h3, h4⟩ | ⟨hb, h1, h2, h3, h4⟩
      · rw [h1, h2, h3, h4]
        exact ⟨⟨ho.1, by omega, by omega, by omega, by omega⟩, hoo, hfo⟩
      · rw [h1, h2, h3, h4]
        exact ⟨⟨⟨hpx.1, hpx.2, hpy.1, hpy.2⟩, hvx.1, hvx.2, hvy.1, hvy.2⟩,
          fun j hj hij hc => hb (Or.inr ⟨j, hj, hij, hc.1, hc.2⟩),
          fun k hk hc => hb (Or.inl ⟨k, hk, hc.1.symm, hc.2.symm⟩)⟩
    refine ⟨h.1, ?_, ?_, ?_⟩
    · intro k hk
      have hk1 : k < config.obstacleCount := hk
      show in_grid ⟨(setAt config.obstacles i g k).x, (setAt config.obstacles i g k).y⟩ ∧
        -1 ≤ (setAt config.obstacles i g k).dx ∧ (setAt config.obstacles i g k).dx ≤ 1 ∧
        -1 ≤ (setAt config.obstacles i g k).dy ∧ (setAt config.obstacles i g k).dy ≤ 1
      by_cases hki : k = i
      · subst hki
        rw [setAt_same]
        exact (hgood hk1).1
      · rw [setAt_other _ _ _ _ hki]
        exact h.2.1 k hk1
    · intro j hj k hk hjk
      have hj1 : j < config.obstacleCount := hj
      have hk1 : k < config.obstacleCount := hk
      show ¬ ((setAt config.obstacles i g j).x = (setAt config.obstacles i g k).x ∧
        (setAt config.obstacles i g j).y = (setAt config.obstacles i g k).y)
      by_cases hji : j = i
      · subst hji
        rw [setAt_same, setAt_other _ _ _ _ (Ne.symm hjk)]
        exact (hgood hj1).2.1 k hk1 hjk
      · by_cases hki : k = i
        · subst hki
          rw [setAt_same, setAt_other _ _ _ _ hji]
          exact fun hc => (hgood hk1).2.1 j hj1 (Ne.symm hjk) ⟨hc.1.symm, hc.2.symm⟩
        · rw [setAt_other _ _ _ _ hji, setAt_other _ _ _ _ hki]
          exact h.2.2.1 j hj1 k hk1 hjk
    · intro k hk j hj
      have hk1 : k < config.foodCount := hk
      have hj1 : j < config.obstacleCount := hj
      show ¬ ((config.foods k).x = (setAt config.obstacles i g j).x ∧
        (config.foods k).y = (setAt config.obstacles i g j).y)
      by_cases hji : j = i
      · subst hji
        rw [setAt_same]
        exact (hgood hj1).2.2 k hk1
      · rw [setAt_other _ _ _ _ hji]
        exact h.2.2.2 k hk1 j hj1

theorem move_foods_loop_entities_ok (n i : Nat) (config : Challenge.GameConfig)
    (hobs : config.hasObstacles = true) (h : entities_ok config) :
    entities_ok (Challenge.move_foods_loop i n config) := by
  induction n generalizing i config with
  | zero => exact h
  | succ n ih =>
    rw [Challenge.move_foods_loop]
    have hstep := move_food_entities_ok config i hobs h
    exact ih (i + 1) _ hstep.2 hstep.1

theorem move_obstacles_loop_entities_ok (n i : Nat) (config : Challenge.GameConfig)
    (h : entities_ok config) : entities_ok (Challenge.move_obstacles_loop i n config) := by
  induction n generalizing i config with
  | zero => exact h
  | succ n ih =>
    rw [Challenge.move_obstacles_loop]
    exact ih (i + 1) _ (move_obstacle_entities_ok config i h)

theorem move_foods_entities_ok (config : Challenge.GameConfig)
    (hobs : config.hasObstacles = true) (h : entities_ok config) :
    entities_ok (Challenge.move_foods config) := by
  unfold Challenge.move_foods
  split_ifs
  · exact h
  · exact move_foods_loop_entities_ok _ _ _ hobs h

theorem move_obstacles_entities_ok (config : Challenge.GameConfig) (h : entities_ok config) :
    entities_ok (Challenge.move_obstacles config) := by
  unfold Challenge.move_obstacles
  split_ifs
  · exact h
  · exact move_obstacles_loop_entities_ok _ _ _ h

/-- C24 (as stated, refuted). With obstacles enabled and the placement invariant in force,
the food at `(31, 5)` with velocity `(1, 0)` would leave the grid, and the cell `(30, 5)`
that the bounce aims at holds an obstacle: after `move_foods` the food is where it was and
its horizontal velocity component is the one it had before the call, not its negation. -/
theorem moving_entities_stay_legal_counterexample :
    Challenge.cornerConfig.hasObstacles = true ∧ entities_ok Challenge.cornerConfig ∧
      (Challenge.cornerConfig.foods 0).moving = true ∧
      (Challenge.cornerConfig.foods 0).x + (Challenge.cornerConfig.foods 0).dx ≥ GRID_WIDTH ∧
      ((Challenge.move_foods Challenge.cornerConfig).foods 0).x
        = (Challenge.cornerConfig.foods 0).x ∧
      ((Challenge.move_foods Challenge.cornerConfig).foods 0).y
        = (Challenge.cornerConfig.foods 0).y ∧
      ((Challenge.move_foods Challenge.cornerConfig).foods 0).dx
        = (Challenge.cornerConfig.foods 0).dx ∧
      ((Challenge.move_foods Challenge.cornerConfig).foods 0).dx
        ≠ -(Challenge.cornerConfig.foods 0).dx := by
  decide

/-- C24 (amended). In challenge mode with obstacles enabled, the placement invariant
(every food and obstacle inside the grid, velocity components in `{-1, 0, 1}`, obstacles
on pairwise distinct cells, no food on an obstacle cell) holds after `move_foods`, after
`move_obstacles`, and after every single iteration of their loops.  In an iteration a
moving entity first gets the boundary-adjusted velocity (a component whose step would
leave the grid is negated); when the cell one adjusted step away is occupied (for a food:
by an obstacle; for an obstacle: by a food or another obstacle) the entity keeps its
position and both components of the adjusted velocity are negated, otherwise the entity
moves to that cell and keeps the adjusted velocity. -/
theorem moving_entities_stay_legal (config : Challenge.GameConfig)
    (hobs : config.hasObstacles = true) (h : entities_ok config) :
    entities_ok (Challenge.move_foods config) ∧
      entities_ok (Challenge.move_obstacles config) ∧
      (∀ i, entities_ok (Challenge.move_food config i) ∧
        (Challenge.move_food config i).hasObstacles = true ∧
        entities_ok (Challenge.move_obstacle config i) ∧
        (Challenge.move_obstacle config i).hasObstacles = true) ∧
      (∀ i, (config.foods i).moving = true →
        ((∃ j, j < config.obstacleCount ∧
            (config.foods i).x + adjusted_velocity (config.foods i).x (config.foods i).dx 32
              = (config.obstacles j).x ∧
            (config.foods i).y + adjusted_velocity (config.foods i).y (config.foods i).dy 24
              = (config.obstacles j).y) →
          ((Challenge.move_food config i).foods i).x = (config.foods i).x ∧
          ((Challenge.move_food config i).foods i).y = (config.foods i).y ∧
          ((Challenge.move_food config i).foods i).dx
            = -adjusted_velocity (config.foods i).x (config.foods i).dx 32 ∧
          ((Challenge.move_food config i).foods i).dy
            = -adjusted_velocity (config.foods i).y (config.foods i).dy 24) ∧
        ((∀ j, j < config.obstacleCount →
            ¬ ((config.foods i).x + adjusted_velocity (config.foods i).x (config.foods i).dx 32
                = (config.obstacles j).x ∧
              (config.foods i).y + adjusted_velocity (config.foods i).y (config.foods i).dy 24
                = (config.obstacles j).y)) →
          ((Challenge.move_food config i).foods i).x
            = (config.foods i).x + adjusted_velocity (config.foods i).x (config.foods i).dx 32 ∧
          ((Challenge.move_food config i).foods i).y
            = (config.foods i).y + adjusted_velocity (config.foods i).y (config.foods i).dy 24 ∧
          ((Challenge.move_food config i).foods i).dx
            = adjusted_velocity (config.foods i).x (config.foods i).dx 32 ∧
          ((Challenge.move_food config i).foods i).dy
            = adjusted_velocity (config.foods i).y (config.foods i).dy 24)) ∧
      (∀ i, (config.obstacles i).moving = true →
        (((∃ k, k < config.foodCount ∧
            (config.obstacles i).x
                + adjusted_velocity (config.obstacles i).x (config.obstacles i).dx 32
              = (config.foods k).x ∧
            (config.obstacles i).y
                + adjusted_velocity (config.obstacles i).y (config.obstacles i).dy 24
              = (config.foods k).y) ∨
          (∃ j, j < config.obstacleCount ∧ i ≠ j ∧
            (config.obstacles i).x
                + adjusted_velocity (config.obstacles i).x (config.obstacles i).dx 32
              = (config.obstacles j).x ∧
            (config.obstacles i).y
                + adjusted_velocity (config.obstacles i).y (config.obstacles i).dy 24
              = (config.obstacles j).y)) →
          ((Challenge.move_obstacle config i).obstacles i).x = (config.obstacles i).x ∧
          ((Challenge.move_obstacle config i).obstacles i).y = (config.obstacles i).y ∧
          ((Challenge.move_obstacle config i).obstacles i).dx
            = -adjusted_velocity (config.obstacles i).x (config.obstacles i).dx 32 ∧
          ((Challenge.move_obstacle config i).obstacles i).dy
            = -adjusted_velocity (config.obstacles i).y (config.obstacles i).dy 24) ∧
        (¬ ((∃ k, k < config.foodCount ∧
            (config.obstacles i).x
                + adjusted_velocity (config.obstacles i).x (config.obstacles i).dx 32
              = (config.foods k).x ∧
            (config.obstacles i).y
                + adjusted_velocity (config.obstacles i).y (config.obstacles i).dy 24
              = (config.foods k).y) ∨
          (∃ j, j < config.obstacleCount ∧ i ≠ j ∧
            (config.obstacles i).x
                + adjusted_velocity (config.obstacles i).x (config.obstacles i).dx 32
              = (config.obstacles j).x ∧
            (config.obstacles i).y
                + adjusted_velocity (config.obstacles i).y (config.obstacles i).dy 24
              = (config.obstacles j).y)) →
          ((Challenge.move_obstacle config i).obstacles i).x
            = (config.obstacles i).x
              + adjusted_velocity (config.obstacles i).x (config.obstacles i).dx 32 ∧
          ((Challenge.move_obstacle config i).obstacles i).y
            = (config.obstacles i).y
              + adjusted_velocity (config.obstacles i).y (config.obstacles i).dy 24 ∧
          ((Challenge.move_obstacle config i).obstacles i).dx
            = adjusted_velocity (config.obstacles i).x (config.obstacles i).dx 32 ∧
          ((Challenge.move_obstacle config i).obstacles i).dy
            = adjusted_velocity (config.obstacles i).y (config.obstacles i).dy 24)) := by
  refine ⟨move_foods_entities_ok config hobs h, move_obstacles_entities_ok config h, ?_, ?_, ?_⟩
  · intro i
    have hf := move_food_entities_ok config i hobs h
    refine ⟨hf.1, hf.2, move_obstacle_entities_ok config i h, ?_⟩
    cases hm : (config.obstacles i).moving with
    | false =>
      rw [move_obstacle_still config i hm]
      exact hobs
    | true =>
      obtain ⟨g, hg, _⟩ := move_obstacle_moving config i hm
      rw [hg]
      exact hobs
  · intro i hm
    obtain ⟨g, hg, hcase⟩ := move_food_moving config i hm
    have hgi : (Challenge.move_food config i).foods i = g := by
      rw [hg]
      exact setAt_same _ _ _
    rw [hgi]
    rcases hcase with ⟨hb, hr⟩ | ⟨hb, hr⟩
    · obtain ⟨j, hj, hc⟩ := hb.2
      exact ⟨fun _ => hr, fun hfree => absurd hc (hfree j hj)⟩
    · exact ⟨fun hblk => absurd ⟨hobs, hblk⟩ hb, fun _ => hr⟩
  · intro i hm
    obtain ⟨g, hg, hcase⟩ := move_obstacle_moving config i hm
    have hgi : (Challenge.move_obstacle config i).obstacles i = g := by
      rw [hg]
      exact setAt_same _ _ _
    rw [hgi]
    rcases hcase with ⟨hb, hr⟩ | ⟨hb, hr⟩
    · exact ⟨fun _ => hr, fun hfree => absurd hb hfree⟩
    · exact ⟨fun hblk => absurd hblk hb, fun _ => hr⟩

theorem moving_entities_stay_legal_witness :
    Challenge.cornerConfig.hasObstacles = true ∧ entities_ok Challenge.cornerConfig ∧
      entities_ok (Challenge.move_foods Challenge.cornerConfig) ∧
      entities_ok (Challenge.move_obstacles Challenge.cornerConfig) ∧
      ((Challenge.move_obstacle Challenge.cornerConfig 1).obstacles 1).x = 11 :=
  have h := moving_entities_stay_legal Challenge.cornerConfig rfl (by decide)
  ⟨rfl, by decide, h.1, h.2.1, by decide⟩

end SnakeGame
